import Mathlib

/-!
# MessageNet Omni (mns-omni) backend: appliance dispatcher, journal and CGI endpoint

A shallow embedding of the C sources `backend/support.c`, `backend/support_evolution.c`
and `backend/smajax.c`.

Conventions of the embedding.

* A C string is the list of its characters before the terminating NUL (`CStr`).
* Record numbers (`DBRECORD`) are natural numbers.
* Constants, tables and helpers that the sources use but do not define are either
  parameters of the definitions or are modelled under a doc comment that says so.
* A function whose C original can run into undefined behaviour (a NULL passed to
  `strcmp`, an index outside an array) returns `Option`, `none` standing for that case.
-/

namespace MnsOmni

/-- The characters of a C string, without the terminating NUL. -/
abbrev CStr := List Char

/-! ## Helpers from the C library and from the project's string library -/

/-- C `strncmp(a, b, n) == 0`: the first `n` characters agree, the comparison stopping
at a terminator common to both strings. -/
def strncmp_eq : CStr → CStr → Nat → Bool
  | _, _, 0 => true
  | [], [], _ + 1 => true
  | x :: a, y :: b, n + 1 => x == y && strncmp_eq a b n
  | _, _, _ + 1 => false

/-- Modelled from the spec: `strcatl(dst, src, size)` of the project's string library is
not in the sources; the spec's design notes say the source "concatenates into fixed-size
buffers with truncation": `src` is appended to `dst` as far as a buffer of `size` bytes
(terminator included) has room. -/
def strcatl (dst src : CStr) (size : Nat) : CStr :=
  dst ++ src.take (size - 1 - dst.length)

/-- Modelled from the spec: `strcpyl(dst, src, size)`, the copying sibling of `strcatl`:
`src` truncated to what a buffer of `size` bytes holds. -/
def strcpyl (src : CStr) (size : Nat) : CStr :=
  src.take (size - 1)

/-- Modelled from the spec: `remove_trailing_space(s)` of the project's string library
(not in the sources) strips the blanks that pad the end of a fixed-width field. -/
def remove_trailing_space (s : CStr) : CStr :=
  s.rdropWhile (fun c => c == ' ')

/-- Modelled from the spec: `notjustspace(s, n)` of the project's string library (not in
the sources): some character among the first `n` of `s` is not a blank (the spec's
"non-blank"). -/
def notjustspace (s : CStr) (n : Nat) : Bool :=
  (s.take n).any (fun c => c != ' ')

/-- Modelled from the spec: `mn_snprintf(buf, size, ...)`, the project's `snprintf`: the
formatted text truncated to what a buffer of `size` bytes holds. -/
def mn_snprintf (size : Nat) (formatted : CStr) : CStr :=
  formatted.take (size - 1)

/-- Modelled from the spec: the `printf` conversion `FORMAT_DBRECORD_STR` of a record
number (the macro is not in the sources); the spec's examples show record numbers in
plain decimal (`recno_zx:"345"`). -/
def FORMAT_DBRECORD_STR (recno : Nat) : CStr :=
  Nat.toDigits 10 recno

/-- `printf("%d")` of a non-negative number. -/
def format_d (n : Nat) : CStr :=
  Nat.toDigits 10 n

/-- C `strtok` on the text from the saved position on: leading delimiters are skipped;
when nothing is left the result is NULL (`none`); else the token runs up to the next
delimiter, which is overwritten by a NUL, and the saved position moves behind it. The
second component is the text from the new saved position on. -/
def strtok (delim : CStr) (p : CStr) : Option CStr × CStr :=
  match p.dropWhile (fun c => decide (c ∈ delim)) with
  | [] => (none, [])
  | c :: q =>
    (some ((c :: q).takeWhile (fun c => !decide (c ∈ delim))),
      ((c :: q).dropWhile (fun c => !decide (c ∈ delim))).tail)

/-- C `fgets(buf, size, file)` with `room = size - 1`: the characters read (at most
`room`, stopping behind a newline) and the rest of the file. -/
def fgets : Nat → CStr → CStr × CStr
  | 0, file => ([], file)
  | _ + 1, [] => ([], [])
  | room + 1, c :: file =>
    if c = '\n' then ([c], file) else (c :: (fgets room file).1, (fgets room file).2)

/-- The loop `while(fgets(line_buffer, size, file))`: the successive contents of
`line_buffer` until `fgets` returns NULL at the end of the file. -/
def read_lines (size : Nat) : Nat → CStr → List CStr
  | 0, _ => []
  | _ + 1, [] => []
  | fuel + 1, c :: file =>
    (fgets (size - 1) (c :: file)).1 :: read_lines size fuel (fgets (size - 1) (c :: file)).2

/-! ## support_evolution.c: the active-message journal -/

/-- The journal file of a device, `evolutionActiveMsgs.<recno>.json`: `none` when the
file does not exist, else its content. -/
abbrev Journal := Option CStr

/-- The name of the field that the journal functions look for, with its quotes. -/
def recno_zx_name : CStr := "\"recno_zx\"".data

/-- The `while(tokenPtr != NULL)` loop of `does_recno_exist_in_json_line` (and of
`does_recno_exist_in_file`), entered with a non-NULL `tokenPtr`; `p` is the text from the
saved `strtok` position on. A NULL token reaches `strcmp` when the text ends where a name
or the value of `recno_zx` is expected (`none`). -/
def recno_token_loop (strRecno : CStr) : Nat → CStr → Option Nat
  | 0, _ => none
  | fuel + 1, p =>
    match strtok [':'] p with
    | (none, _) => none
    | (some name, p1) =>
      if name = recno_zx_name then
        match strtok [','] p1 with
        | (none, _) => none
        | (some value, _) => some (if value = strRecno then 1 else 0)
      else
        match strtok [','] p1 with
        | (none, _) => some 0
        | (some _, p2) => recno_token_loop strRecno fuel p2

/-- `does_recno_exist_in_json_line(json_line, recno)`: 1 when the value of the line's
`recno_zx` field is the quoted record number, else 0. -/
def does_recno_exist_in_json_line (json_line : CStr) (recno : Nat) : Option Nat :=
  let strRecno := remove_trailing_space ('"' :: FORMAT_DBRECORD_STR recno ++ ['"'])
  match strtok [','] json_line with
  | (none, _) => some 0
  | (some _, p) => recno_token_loop strRecno (json_line.length + 1) p

/-- The line loop of `does_recno_exist_in_file`: the number of lines that carry the
record number. -/
def does_recno_exist_in_lines (recno : Nat) : List CStr → Option Nat
  | [] => some 0
  | line :: more =>
    match does_recno_exist_in_json_line line recno with
    | none => none
    | some n =>
      match does_recno_exist_in_lines recno more with
      | none => none
      | some total => some (n + total)

/-- `does_recno_exist_in_file(hw_ptr, recno)`: the number of journal lines whose
`recno_zx` is `recno`; 0 when the file cannot be opened. `size` is the length
`EVOLUTION_JSON_MESSAGE_LENGTH` of the line buffer, a constant that is not in the
sources. -/
def does_recno_exist_in_file (size : Nat) (journal : Journal) (recno : Nat) : Option Nat :=
  match journal with
  | none => some 0
  | some file => does_recno_exist_in_lines recno (read_lines size file.length file)

/-- The read loop of `remove_msg_json_from_file`: the text written to the output file,
every line except those that `does_recno_exist_in_json_line` reports. -/
def remove_msg_json_loop (recno : Nat) : List CStr → Option CStr
  | [] => some []
  | line :: more =>
    match does_recno_exist_in_json_line line recno with
    | none => none
    | some n =>
      match remove_msg_json_loop recno more with
      | none => none
      | some out => some (if n ≠ 0 then out else line ++ out)

/-- `remove_msg_json_from_file(hw_ptr, recno)`: the journal afterwards. A journal that
cannot be opened is left alone; else the output file replaces it (both `fopen` succeed,
and the flags `isFileOpen` and `isFileOutOpen` are FALSE again when the wait loop tests
them, so `unlink` and `rename` happen). -/
def remove_msg_json_from_file (size : Nat) (journal : Journal) (recno : Nat) :
    Option Journal :=
  match journal with
  | none => some none
  | some file =>
    match remove_msg_json_loop recno (read_lines size file.length file) with
    | none => none
    | some out => some (some out)

/-- `delete_msg_json_file(hw_ptr)`: `unlink` of the journal. -/
def delete_msg_json_file (_journal : Journal) : Journal := none

/-- All tokens that successive `strtok(…, ",")` calls return for a buffer. -/
def comma_tokens : Nat → CStr → List CStr
  | 0, _ => []
  | fuel + 1, p =>
    match strtok [','] p with
    | (none, _) => []
    | (some tok, rest) => tok :: comma_tokens fuel rest

/-- The stripping loop that `does_msg_json_exist_in_file` runs four times: the buffer is
cut into comma-separated tokens and every token but the first is appended, behind a
comma, to the destination (`strcat`). -/
def strip_first_token (dest buffer : CStr) : CStr :=
  dest ++ ((comma_tokens (buffer.length + 1) buffer).tail.map (fun tok => ',' :: tok)).flatten

/-- What a buffer reads as a C string after `strtok` has cut it: its leading commas and
the first token, the NUL that ended the first token being the end of the string. -/
def after_strtok (buffer : CStr) : CStr :=
  buffer.takeWhile (fun c => c == ',')
    ++ (buffer.dropWhile (fun c => c == ',')).takeWhile (fun c => c != ',')

/-- The contents, as C strings, of the four local buffers of
`does_msg_json_exist_in_file` on entry. The function declares them without initialiser
and appends to them with `strcat`, so what they hold is whatever the stack holds. -/
structure StackBuffers where
  json_msg_without_seqnum : CStr
  line_buffer_without_seqnum : CStr
  json_msg_without_dtsec : CStr
  line_buffer_without_dtsec : CStr

/-- The line loop of `does_msg_json_exist_in_file`. The buffers
`line_buffer_without_seqnum` and `line_buffer_without_dtsec` are not reset between
lines: each line appends to what the previous lines left in them. -/
def does_msg_json_exist_loop (json_msg_without_dtsec : CStr) :
    CStr → CStr → Nat → List CStr → Nat
  | _, _, ret, [] => ret
  | without_seqnum, without_dtsec, ret, line :: more =>
    let line1 := if line.getLast? = some '\n' then line.dropLast else line
    let without_seqnum1 := strip_first_token without_seqnum line1
    let without_dtsec1 := strip_first_token without_dtsec without_seqnum1
    does_msg_json_exist_loop json_msg_without_dtsec (after_strtok without_seqnum1)
      without_dtsec1 (if without_dtsec1 = json_msg_without_dtsec then ret + 1 else ret) more

/-- `does_msg_json_exist_in_file(hw_ptr, json_msg)`: the number of lines of the journal
that the comparison takes for the message; 0 when the file cannot be opened. (The
`strcat` and `sprintf` calls have no bound; the texts are taken to fit their buffers.) -/
def does_msg_json_exist_in_file (size : Nat) (stack : StackBuffers) (journal : Journal)
    (json_msg : CStr) : Nat :=
  match journal with
  | none => 0
  | some file =>
    let json_msg_copy := strcpyl json_msg size
    let json_without_seqnum := strip_first_token stack.json_msg_without_seqnum json_msg_copy
    let json_without_dtsec := strip_first_token stack.json_msg_without_dtsec json_without_seqnum
    does_msg_json_exist_loop json_without_dtsec stack.line_buffer_without_seqnum
      stack.line_buffer_without_dtsec 0 (read_lines size file.length file)

/-- `append_msg_json_to_file(hw_ptr, json_msg)`: the journal afterwards. The message and
a newline are appended (the file is created when missing) when
`does_msg_json_exist_in_file` returns 0; `isFileOutOpen` is FALSE, so the wait loop is
not entered. The message is the format string of `fprintf`: a `%` in it makes `fprintf`
read arguments that were not passed (`none`). -/
def append_msg_json_to_file (size : Nat) (stack : StackBuffers) (journal : Journal)
    (json_msg : CStr) : Option Journal :=
  if does_msg_json_exist_in_file size stack journal json_msg = 0 then
    if '%' ∈ json_msg then none
    else some (some (journal.getD [] ++ json_msg ++ ['\n']))
  else some journal

/-- A journal line as the dispatcher renders a message object: the first field
(`{"signseqnum":N`), the name/value pairs that precede `recno_zx` (`dbb_rec_dtsec`), the
record number, and the text behind the comma that ends the `recno_zx` value. -/
structure MsgLine where
  first : CStr
  fields : List (CStr × CStr)
  recno_zx : Nat
  rest : CStr

/-- The text of name/value pairs, each followed by a comma. -/
def fields_text : List (CStr × CStr) → CStr
  | [] => []
  | f :: fields => f.1 ++ ':' :: (f.2 ++ ',' :: fields_text fields)

/-- The text of a message object. -/
def MsgLine.text (m : MsgLine) : CStr :=
  m.first ++ ',' :: (fields_text m.fields
    ++ (recno_zx_name ++ ':' :: ('"' :: FORMAT_DBRECORD_STR m.recno_zx ++ ['"'])
        ++ ',' :: m.rest))

/-- A well-formed message object for a line buffer of `size` bytes: the first field is
not empty and has no comma; before `recno_zx` every name is non-empty, has no colon and
is not `"recno_zx"`, and every value is non-empty and has no comma; the object has no
newline and, with its newline, fits the line buffer. -/
def MsgLine.well_formed (size : Nat) (m : MsgLine) : Prop :=
  m.first ≠ [] ∧ ',' ∉ m.first ∧
  (∀ f ∈ m.fields, f.1 ≠ [] ∧ ':' ∉ f.1 ∧ f.1 ≠ recno_zx_name ∧ f.2 ≠ [] ∧ ',' ∉ f.2) ∧
  '\n' ∉ m.text ∧ m.text.length + 2 ≤ size

/-- The content of a journal file that holds the given message objects, one per line. -/
def journal_text (ms : List MsgLine) : CStr :=
  (ms.map (fun m => m.text ++ ['\n'])).flatten

instance MsgLine.decidable_well_formed (size : Nat) (m : MsgLine) :
    Decidable (m.well_formed size) := by
  unfold MsgLine.well_formed
  infer_instance

/-- An example journal line: record 345 launched from template 305. -/
def example_line_345 : MsgLine :=
  { first := "\x7b\"signseqnum\":0".data
    fields := [("\"dbb_rec_dtsec\"".data, "\"1188659674\"".data)]
    recno_zx := 345
    rest := "\"recno_template\":\"305\",\"msgtext\":\"Test 2\"\x7d".data }

/-- An example journal line: record 346 launched from template 305. -/
def example_line_346 : MsgLine :=
  { first := "\x7b\"signseqnum\":1".data
    fields := [("\"dbb_rec_dtsec\"".data, "\"1188659680\"".data)]
    recno_zx := 346
    rest := "\"recno_template\":\"305\",\"msgtext\":\"Fire drill\"\x7d".data }

/-- An example message object: record 345 once more, with another sequence number,
launch time and message text. -/
def example_line_345_changed : MsgLine :=
  { first := "\x7b\"signseqnum\":2".data
    fields := [("\"dbb_rec_dtsec\"".data, "\"1188659699\"".data)]
    recno_zx := 345
    rest := "\"recno_template\":\"305\",\"msgtext\":\"Test 3\"\x7d".data }

/-- Stack buffers that hold empty strings (a zeroed stack). -/
def zero_stack : StackBuffers :=
  { json_msg_without_seqnum := []
    line_buffer_without_seqnum := []
    json_msg_without_dtsec := []
    line_buffer_without_dtsec := [] }

/-- A call of one of the two functions that change the journal's content; an append
comes with what the stack holds when `does_msg_json_exist_in_file` runs. -/
inductive JournalCall
  | append (stack : StackBuffers) (m : MsgLine)
  | remove (recno : Nat)

/-- The journal after one call. -/
def journal_call (size : Nat) (journal : Journal) : JournalCall → Option Journal
  | JournalCall.append stack m => append_msg_json_to_file size stack journal m.text
  | JournalCall.remove recno => remove_msg_json_from_file size journal recno

/-- The journal after a sequence of calls. -/
def journal_calls (size : Nat) : Journal → List JournalCall → Option Journal
  | journal, [] => some journal
  | journal, call :: calls =>
    match journal_call size journal call with
    | none => none
    | some journal1 => journal_calls size journal1 calls

/-- Every appended object of the sequence is well formed, has no `%`, and carries a
`recno_zx` that `does_recno_exist_in_file` finds on no line of the journal at the time
of the call. -/
def calls_fresh (size : Nat) : Journal → List JournalCall → Bool
  | _, [] => true
  | journal, call :: calls =>
    (match call with
      | JournalCall.append _ m =>
        decide (m.well_formed size) && decide ('%' ∉ m.text)
          && decide (does_recno_exist_in_file size journal m.recno_zx = some 0)
      | JournalCall.remove _ => true)
    && (match journal_call size journal call with
      | none => true
      | some journal1 => calls_fresh size journal1 calls)

/-! ## support_evolution.c: constants and tables of headers that are not in the sources -/

/-- The constants, macros and tables that the dispatcher uses and that are defined in
headers outside the sources. They are parameters of the model. -/
structure Consts where
  /-- bit of `dwc_message_type` for a new message -/
  BANNER_NEW_MESSAGE : Nat
  /-- bit of `dwc_message_type` for a clear-sign -/
  BANNER_CLEAR_SIGN : Nat
  /-- value of `dwc_message_type` for a sequence change -/
  BANNER_SEQUENCE_NUMBER : Nat
  /-- code of the sequence letter of slot 0 in `dwc_sequence`, as the clear loop uses it -/
  BB_BASE : Nat
  /-- code of the sequence letter of slot 0, as the translator's callers use it -/
  SIGN_BASE : Nat
  /-- size of one entry of `board_messages` -/
  MAX_CHARS_IN_MSG : Nat
  /-- size of the JSON buffers `json_bannmsg`, `http_req_body` and of the line buffers -/
  EVOLUTION_JSON_MESSAGE_LENGTH : Nat
  /-- size of a device-id field -/
  DEVICEID_LENGTH : Nat
  TRANSLATE_SUPPORTED : Int
  TRANSLATE_NOT_SUPPORTED : Int
  /-- whether `USE_AND_COLOR` is defined (the `#define` in the sources is commented out) -/
  USE_AND_COLOR : Bool
  /-- whether `SUNRISE_SUPPORT_GRAPHICS` is defined -/
  SUNRISE_SUPPORT_GRAPHICS : Bool
  SUBSTITUTE_SIGNATURE_TEXT : CStr
  SIGN_COMMAND : Char
  SIGN_CR : Char
  SIGN_BLOCK_CHARACTER : Char
  SIGN_SPEED : Char
  SIGN_CONFIGURE : Char
  SIGN_FONT : Char
  SIGN_DATEEMBED : Char
  SIGN_TIMEEMBED : Char
  SIGN_SIGNATUREEMBED : Char
  SIGN_AUTHORITYEMBED : Char
  SIGN_MODE : Char
  SIGN_SEQUENCE : Char
  SIGN_FCOLOR : Char
  SIGN_JUSTIFY : Char
  SIGN_BCOLOR : Char
  SIGN_TIMESET : Char
  SIGN_COLOR_RED : Char
  SIGN_COLOR_GREEN : Char
  SIGN_COLOR_AMBER : Char
  SIGN_COLOR_YELLOW : Char
  SIGN_COLOR_ORANGE : Char
  SIGN_COLOR_BLACK : Char
  /-- the colour codes of the case group that emits no token (`SIGN_COLOR_MULTI` …
  `SIGN_COLOR_WHITE`) -/
  SIGN_COLOR_without_token : List Char
  /-- the table `bb_alert_status[]` of message-type names -/
  bb_alert_status : Nat → CStr
  /-- the audio-group literal `bba_multiple` -/
  bba_multiple : CStr
  /-- the audio-group literal `bbs_audio_group_choose` -/
  bbs_audio_group_choose : CStr

/-- Values of `BANNER_EVOLUTION_CMD` (support_evolution.h): the enumeration starts at 201. -/
def BANNER_EVOLUTION_CMD_NONE : Nat := 201
/-- Second enumerator of `BANNER_EVOLUTION_CMD`. -/
def BANNER_EVOLUTION_CMD_STOP_MESSAGE : Nat := 202
/-- Third enumerator of `BANNER_EVOLUTION_CMD`. -/
def BANNER_EVOLUTION_CMD_NEW_MESSAGE : Nat := 203
/-- Fourth enumerator of `BANNER_EVOLUTION_CMD`. -/
def BANNER_EVOLUTION_CMD_SEQ_NUMBER : Nat := 204
/-- Fifth enumerator of `BANNER_EVOLUTION_CMD`. -/
def BANNER_EVOLUTION_CMD_CLEAR_SIGN : Nat := 205

/-- The NUL character. -/
def NUL : Char := Char.ofNat 0

/-- `printf("%d")` and `printf("%ld")` of a signed number. -/
def format_int (n : Int) : CStr :=
  if n < 0 then '-' :: Nat.toDigits 10 n.natAbs else Nat.toDigits 10 n.toNat

/-- Modelled from the spec: `remove_leading_space(s)` of the project's string library
(not in the sources): `s` without the blanks that pad its beginning. -/
def remove_leading_space (s : CStr) : CStr :=
  s.dropWhile (fun c => c == ' ')

/-- Modelled from the spec: `pointer_increment(p)` of the sign library (not in the
sources): the spec says that in-band control sequences are dropped, so the helper steps
over the argument character of a command, and stays on the terminator. -/
def pointer_increment (p : CStr) : CStr :=
  p.drop 1

/-! ## support_evolution.c: the translator -/

/-- C `strstr(message, [a, b])` followed by `ptr += 2; ret = *ptr`: the character behind
the first occurrence of the two characters (NUL when the message ends there), or `none`
when they do not occur. -/
def char_after_pair (a b : Char) : CStr → Option Char
  | [] => none
  | [_] => none
  | x :: y :: rest =>
    if x = a ∧ y = b then some (rest.headD NUL) else char_after_pair a b (y :: rest)

/-- `evolution_get_color(message)`: the colour behind the first `ESC C`, red when there
is none. -/
def evolution_get_color (c : Consts) (message : CStr) : Char :=
  (char_after_pair (Char.ofNat 0x1b) (Char.ofNat 0x43) message).getD c.SIGN_COLOR_RED

/-- `evolution_get_bgcolor(message)`: the colour behind the first `ESC B`, black when
there is none. -/
def evolution_get_bgcolor (c : Consts) (message : CStr) : Char :=
  (char_after_pair (Char.ofNat 0x1b) (Char.ofNat 0x42) message).getD c.SIGN_COLOR_BLACK

/-- The inner `switch(*inbuffer)` of the colour commands of `translate_for_evo`: the
name of the colour in the emitted token; red is also the `default`; the colours of the
last case group emit nothing (`none`). -/
def color_token_name (c : Consts) (color : Char) : Option CStr :=
  if color = c.SIGN_COLOR_GREEN then some "green".data
  else if color = c.SIGN_COLOR_AMBER then some "amber".data
  else if color = c.SIGN_COLOR_YELLOW then some "yellow".data
  else if color = c.SIGN_COLOR_ORANGE then some "orange".data
  else if color = c.SIGN_COLOR_BLACK then some "black".data
  else if color = c.SIGN_COLOR_RED then some "red".data
  else if color ∈ c.SIGN_COLOR_without_token then none
  else some "red".data

/-- What a colour command appends to the output under `USE_AND_COLOR`: the token for the
new colour when it differs from the current one (`strcatl` with the size of the output
buffer). `key` is `color` or `bgcolor`. -/
def color_token (c : Consts) (outbuffer_size : Nat) (key : CStr) (current new : Char) :
    CStr :=
  if current ≠ new then
    match color_token_name c new with
    | some name => ('{' :: key ++ '=' :: name ++ ['}']).take (outbuffer_size - 1)
    | none => []
  else []

/-- The result of one pass of the `while` loop of `translate_for_evo` over a sign
command, i.e. over the text behind `SIGN_COMMAND`. -/
inductive CommandStep
  /-- the loop goes on with this input, output and these colours -/
  | next (inbuffer out : CStr) (color bgcolor : Char)
  /-- `done = TRUE`: the loop ends -/
  | done (out : CStr)
  /-- `return(0)` -/
  | return_zero (out : CStr)
  /-- the input ended with `SIGN_COMMAND`: `*inbuffer++` steps over the terminator -/
  | past_the_end

/-- The `case SIGN_COMMAND` of `translate_for_evo`. -/
def translate_command (c : Consts) (outbuffer_size : Nat) (out : CStr)
    (color bgcolor : Char) : CStr → CommandStep
  | [] => CommandStep.past_the_end
  | cmd :: args =>
    if cmd = c.SIGN_SPEED then CommandStep.next (pointer_increment args) out color bgcolor
    else if cmd = c.SIGN_CONFIGURE then CommandStep.return_zero out
    else if cmd = c.SIGN_FONT then CommandStep.next (pointer_increment args) out color bgcolor
    else if cmd = c.SIGN_DATEEMBED then CommandStep.next args out color bgcolor
    else if cmd = c.SIGN_TIMEEMBED then CommandStep.next args out color bgcolor
    else if cmd = c.SIGN_SIGNATUREEMBED then
      CommandStep.next (pointer_increment args)
        (if c.SUNRISE_SUPPORT_GRAPHICS then out else out ++ c.SUBSTITUTE_SIGNATURE_TEXT)
        color bgcolor
    else if cmd = c.SIGN_AUTHORITYEMBED then
      CommandStep.next (pointer_increment args) out color bgcolor
    else if cmd = c.SIGN_MODE then CommandStep.next (pointer_increment args) out color bgcolor
    else if cmd = c.SIGN_SEQUENCE then CommandStep.done out
    else if cmd = c.SIGN_FCOLOR then
      if c.USE_AND_COLOR then
        CommandStep.next (pointer_increment args)
          (out ++ color_token c outbuffer_size "color".data color (args.headD NUL))
          (args.headD NUL) bgcolor
      else CommandStep.next (pointer_increment args) out color bgcolor
    else if cmd = c.SIGN_JUSTIFY then CommandStep.next (pointer_increment args) out color bgcolor
    else if cmd = c.SIGN_BCOLOR then
      if c.USE_AND_COLOR then
        CommandStep.next (pointer_increment args)
          (out ++ color_token c outbuffer_size "bgcolor".data bgcolor (args.headD NUL))
          color (args.headD NUL)
      else CommandStep.next (pointer_increment args) out color bgcolor
    else CommandStep.next args out color bgcolor

/-- The `while` loop of `translate_for_evo`: `out` is the text written from `begin` on.
The result is the return value and the output; `none` when the loop reads past the end
of the input. -/
def translate_loop (c : Consts) (outbuffer_size : Nat) :
    Nat → CStr → CStr → Char → Char → Option (Int × CStr)
  | 0, _, out, _, _ => some (c.TRANSLATE_SUPPORTED, out)
  | _ + 1, [], out, _, _ => some (c.TRANSLATE_SUPPORTED, out)
  | fuel + 1, ch :: rest, out, color, bgcolor =>
    if ¬ (out.length + 20 < outbuffer_size) then some (c.TRANSLATE_SUPPORTED, out)
    else if ch = '"' then
      translate_loop c outbuffer_size fuel rest (out ++ ['\\', '"']) color bgcolor
    else if ch = c.SIGN_COMMAND then
      match translate_command c outbuffer_size out color bgcolor rest with
      | CommandStep.next inbuffer out1 color1 bgcolor1 =>
        translate_loop c outbuffer_size fuel inbuffer out1 color1 bgcolor1
      | CommandStep.done out1 => some (c.TRANSLATE_SUPPORTED, out1)
      | CommandStep.return_zero out1 => some (0, out1)
      | CommandStep.past_the_end => none
    else if ch = c.SIGN_CR then translate_loop c outbuffer_size fuel rest out color bgcolor
    else if ch = c.SIGN_BLOCK_CHARACTER then
      translate_loop c outbuffer_size fuel rest out color bgcolor
    else translate_loop c outbuffer_size fuel rest (out ++ [ch]) color bgcolor

/-- `translate_for_evo(hw_ptr, inbuffer, outbuffer, outbuffer_size)`: the return value
and the text written at `outbuffer`. (The flag `pause_first`, which only the legacy
sender reads, is left out.) -/
def translate_for_evo (c : Consts) (inbuffer : CStr) (outbuffer_size : Nat) :
    Option (Int × CStr) :=
  translate_loop c outbuffer_size (inbuffer.length + 1) inbuffer []
    (evolution_get_color c inbuffer) (evolution_get_bgcolor c inbuffer)

/-! ## support_evolution.c: device state and request bodies -/

/-- The values of `dbb_multimedia_type` that the sources name (the labels of one
`switch`, hence distinct) and every other value. -/
inductive MultimediaType
  | MULTIMEDIA_NONE
  | MULTIMEDIA_MESSAGE
  | MULTIMEDIA_MESSAGE_FULL_SCREEN
  | MULTIMEDIA_VIDEO
  | MULTIMEDIA_VIDEO_STRETCHED
  | MULTIMEDIA_VIDEO_ZOOM1
  | MULTIMEDIA_VIDEO_ZOOM2
  | MULTIMEDIA_WEBPAGE
  | MULTIMEDIA_WEBMEDIA
  | MULTIMEDIA_LOCATIONS_DISPLAY
  | MULTIMEDIA_GEO_LOCATIONS_MAP
  | other (code : Nat)
  deriving DecidableEq, Repr

/-- The banner record that has currency (`db_bann`), with the results of the lookups in
the external databases that the dispatcher makes while it renders the record. -/
structure BannerView where
  dbb_multimedia_type : MultimediaType
  /-- the entry `multimedia_type_str[dbb_multimedia_type]` -/
  multimedia_type_str : CStr
  /-- `dbb_show_camera == BannerEncodeYesNoChoose(BB_CHOICE_YES)` -/
  show_camera_yes : Bool
  dbb_camera_deviceid : CStr
  dbb_rec_dtsec : CStr
  dbb_duration : Int
  dbb_alert_status : Char
  dbb_audio_group : CStr
  dbb_playtime_duration : Int
  dbb_flasher_duration : Int
  dbb_light_signal : Char
  dbb_light_duration : Int
  dbb_audio_tts_gain : Int
  dbb_flash_new_message : Char
  dbb_visible_time : Char
  dbb_visible_frequency : Char
  dbb_visible_duration : Char
  dbb_record_voice_at_launch_selection : Int
  dbb_record_voice_at_launch : Char
  dbb_audio_recorded_gain : Int
  dbb_pa_delivery_mode : Char
  dbb_audio_repeat : Char
  dbb_speed : Int
  dbb_priority : Int
  dbb_expire_priority : Int
  dbb_priority_duration : Int
  dbb_page_priority_at_launch : Int
  dbb_multimedia_audio_gain : Int
  dbb_launch_pin : CStr
  /-- `dsi_audio_group_name` of the sign records found for the device, in order -/
  dsi_audio_group_names : List CStr
  /-- `dli_name` of the audio-group lists named by the template's options record -/
  multi_audio_names : List CStr
  /-- `dli_name` of the audio-group lists chosen at launch -/
  chosen_audio_names : List CStr
  /-- `dvc_disk_path` when `BannerFindMultimediaFile` finds the template's file -/
  multimedia_disk_path : Option CStr
  /-- the content of that file as `SystemReadDataFromFile` returns it -/
  web_page : CStr
  /-- the text that `find_camera_stream` writes for `dbb_camera_deviceid` -/
  camera_stream : CStr
  /-- `dss_gender` of the launcher when `db_staff_pin_valid` accepts the PIN -/
  dss_gender : Option CStr

/-- The fields of `struct _hardware` that the appliance code reads or writes; slot `k` is
`board_ptr[k].bann_recno` with `board_messages[k]`. -/
structure Hardware where
  record_number : Nat
  hardware_deviceid : CStr
  hardware_device_password : CStr
  term_ip : CStr
  auto_term_ip : Bool
  max_seq : Nat
  board_ptr : List Nat
  board_messages : List CStr
  /-- the status last passed to `HardwareUpdateDeviceStatus`: active or closed -/
  connection_active : Bool

/-- The WTC envelope `db_wtc` that the dispatcher has read. -/
structure Envelope where
  dwc_message_type : Nat
  dwc_stream_number : Nat
  dwc_parent_recno : Nat
  dwc_operation : Nat
  dwc_msg_buffer : CStr
  dwc_sequence : CStr

/-- What the network does during one transaction: the outcomes of the successive
`SystemSocketConnect` calls (a missing outcome is a failure), the return value of
`SystemSocketWrite`, and the return values of the successive `SystemSocketReadTimeout`
calls (a missing value is 0). -/
structure Network where
  connect : List Bool
  write : Int
  read : List Int

/-- The state that the dispatcher of one appliance device works on: the device, its
journal file, the global `new_msg_recno_just_sent_by_newmsg`, and the texts written to
the device's socket so far (oldest first); `none` stands for a write whose bytes the C
code does not determine. -/
structure World where
  hw : Hardware
  journal : Journal
  new_msg_recno_just_sent_by_newmsg : Nat
  written : List (Option CStr)

/-- One step of building a JSON text in a buffer: `strcatl` with the size of the buffer,
or a write through a pointer to the end of the text, which has no bound. -/
inductive Piece
  | cat (text : CStr)
  | direct (text : CStr)

/-- The text in a buffer of `size` bytes after the steps; a direct write that does not
fit the buffer runs past its end (`none`). -/
def build (size : Nat) : CStr → List Piece → Option CStr
  | buffer, [] => some buffer
  | buffer, Piece.cat text :: pieces => build size (strcatl buffer text size) pieces
  | buffer, Piece.direct text :: pieces =>
    if buffer.length + text.length < size then build size (buffer ++ text) pieces else none

/-- A record number between quotes, as `mn_snprintf` leaves it in `temp_conversion_buf`
(10 bytes). -/
def quoted_recno (recno : Nat) : CStr :=
  mn_snprintf 10 ('"' :: FORMAT_DBRECORD_STR recno ++ ['"'])

/-- A run of `strcatl` calls on one buffer of `size` bytes. -/
def strcatl_all (size : Nat) (buffer : CStr) (texts : List CStr) : CStr :=
  texts.foldl (fun b text => strcatl b text size) buffer

/-- The texts `{"password":"<password>"` that open every request body. -/
def password_texts (hw : Hardware) : List CStr :=
  ["\x7b".data, "\"password\":".data, "\"".data, hw.hardware_device_password, "\"".data]

/-- The body of the stop-message request. -/
def stop_message_body (size : Nat) (hw : Hardware) (bann_recno : Nat) : CStr :=
  strcatl_all size [] (password_texts hw ++
    [",\"bannerpurpose\":\"stopscrollingmessage\"".data, ",\"recno_zx\":".data,
      quoted_recno bann_recno, "\x7d".data])

/-- The body of the clear-sign request. -/
def clear_sign_body (size : Nat) (hw : Hardware) : CStr :=
  strcatl_all size [] (password_texts hw ++
    [",\"bannerpurpose\":\"clearsign\"".data, "\x7d".data])

/-- The `for` loop of the sequence-change branch over the slots `i`, …, `max_seq - 1`:
the text in `json_bannmsg`. A slot with an empty stored message is skipped; the object of
slot 0 opens with a brace, that of any other slot with a comma and a brace. The outer
`none` is an access outside an array or buffer, the inner `none` the `return(0)` taken
when the translator reports TRANSLATE_NOT_SUPPORTED. -/
def updateseq_messages (c : Consts) (hw : Hardware) :
    Nat → Nat → CStr → Option (Option CStr)
  | 0, _, json => some (some json)
  | n + 1, i, json =>
    match hw.board_messages[i]? with
    | none => none
    | some message =>
      if message = [] then updateseq_messages c hw n (i + 1) json
      else
        match hw.board_ptr[i]?,
          translate_for_evo c message c.EVOLUTION_JSON_MESSAGE_LENGTH with
        | some bann_recno, some (ret, text) =>
          match build c.EVOLUTION_JSON_MESSAGE_LENGTH json
            [Piece.cat (if i = 0 then "\x7b".data else ",\x7b".data),
              Piece.cat "\"signseqnum\":".data, Piece.cat (mn_snprintf 10 (format_d i)),
              Piece.cat ",\"recno_zx\":".data, Piece.cat (quoted_recno bann_recno),
              Piece.cat ",\"msgtext\":".data, Piece.cat "\"".data, Piece.direct text] with
          | none => none
          | some json1 =>
            if ret = c.TRANSLATE_NOT_SUPPORTED then some none
            else
              updateseq_messages c hw n (i + 1)
                (strcatl (strcatl json1 "\"".data c.EVOLUTION_JSON_MESSAGE_LENGTH) "\x7d".data
                  c.EVOLUTION_JSON_MESSAGE_LENGTH)
        | _, _ => none

/-- The body of the sequence-change request (`updateseq`). -/
def updateseq_body (c : Consts) (hw : Hardware) (dwc_sequence : CStr) :
    Option (Option CStr) :=
  match updateseq_messages c hw hw.max_seq 0 [] with
  | none => none
  | some none => some none
  | some (some json) =>
    some (some (strcatl_all c.EVOLUTION_JSON_MESSAGE_LENGTH [] (password_texts hw ++
      [",\"bannerpurpose\":\"updateseq\"".data, ",\"seqstring\":".data,
        "\"".data, dwc_sequence, "\"".data, ",\"bannermessages\":[".data,
        remove_trailing_space (strcatl json "]".data c.EVOLUTION_JSON_MESSAGE_LENGTH),
        "\x7d".data])))

/-- The `switch(db_bann->dbb_multimedia_type)` of the new-message branch: the value of
`bannerpurpose`, with its quotes. -/
def new_message_bannerpurpose (c : Consts) (bann : BannerView) : CStr :=
  match bann.dbb_multimedia_type with
  | MultimediaType.MULTIMEDIA_VIDEO => "\"newvideo\"".data
  | MultimediaType.MULTIMEDIA_VIDEO_STRETCHED => "\"newvideo\"".data
  | MultimediaType.MULTIMEDIA_VIDEO_ZOOM1 => "\"newvideo\"".data
  | MultimediaType.MULTIMEDIA_VIDEO_ZOOM2 => "\"newvideo\"".data
  | MultimediaType.MULTIMEDIA_WEBPAGE => "\"newwebpage\"".data
  | MultimediaType.MULTIMEDIA_WEBMEDIA => "\"newwebpage\"".data
  | MultimediaType.MULTIMEDIA_LOCATIONS_DISPLAY => "\"newlocationsdisplay\"".data
  | MultimediaType.MULTIMEDIA_GEO_LOCATIONS_MAP => "\"newgeolocationsmap\"".data
  | _ =>
    if bann.show_camera_yes ∧ notjustspace bann.dbb_camera_deviceid c.DEVICEID_LENGTH = true
    then "\"newcameramessage\"".data
    else "\"newscrollingmessage\"".data

/-- The pieces of a JSON array of strings: the names between quotes, separated by commas. -/
def string_array_pieces : Bool → List CStr → List Piece
  | _, [] => []
  | first, name :: names =>
    (if first then [] else [Piece.cat ",".data])
      ++ [Piece.cat "\"".data, Piece.cat name, Piece.cat "\"".data]
      ++ string_array_pieces false names

/-- The pieces of a field printed with `"\"%c\""`: two quotes when the character is NUL. -/
def char_field_pieces (name : CStr) (value : Char) : List Piece :=
  [Piece.cat name,
    Piece.cat (if value = NUL then "\"\"".data else mn_snprintf 10 ['"', value, '"'])]

/-- The pieces of a field printed with `"%d"` or `"%ld"`. -/
def int_field_pieces (name : CStr) (value : Int) : List Piece :=
  [Piece.cat name, Piece.cat (mn_snprintf 10 (format_int value))]

/-- C `strrchr(path, '/')` followed by `ptr++`: the text behind the last slash; `none`
(a NULL pointer) when the path has no slash. -/
def after_last_slash (path : CStr) : Option CStr :=
  if '/' ∈ path then some (path.reverse.takeWhile (fun ch => ch != '/')).reverse else none

/-- The pieces of the value of `dbb_audio_groups`. -/
def audio_groups_pieces (c : Consts) (bann : BannerView) : List Piece :=
  if bann.dbb_audio_group = c.bba_multiple then string_array_pieces true bann.multi_audio_names
  else if bann.dbb_audio_group = c.bbs_audio_group_choose then
    string_array_pieces true bann.chosen_audio_names
  else if notjustspace bann.dbb_audio_group bann.dbb_audio_group.length then
    [Piece.cat "\"".data, Piece.cat bann.dbb_audio_group, Piece.cat "\"".data]
  else []

/-- The pieces of the value of `webpageurl`; `none` when the disk path of a video has no
slash. -/
def webpageurl_pieces (c : Consts) (bann : BannerView) : Option (List Piece) :=
  if bann.dbb_multimedia_type = MultimediaType.MULTIMEDIA_WEBPAGE
      ∨ bann.dbb_multimedia_type = MultimediaType.MULTIMEDIA_WEBMEDIA then
    match bann.multimedia_disk_path with
    | some _ =>
      some [Piece.cat "\"".data, Piece.cat (remove_trailing_space bann.web_page),
        Piece.cat "\"".data]
    | none => some [Piece.cat "\"NULL\"".data]
  else if bann.dbb_multimedia_type = MultimediaType.MULTIMEDIA_VIDEO then
    match bann.multimedia_disk_path with
    | some path =>
      match after_last_slash path with
      | some name =>
        some [Piece.cat "\"".data, Piece.cat (strcpyl name 200), Piece.cat "\"".data]
      | none => none
    | none => some [Piece.cat "\"NULL\"".data]
  else if bann.show_camera_yes
      ∧ notjustspace bann.dbb_camera_deviceid c.DEVICEID_LENGTH = true then
    some [Piece.cat "\"".data, Piece.direct (mn_snprintf 150 bann.camera_stream),
      Piece.cat "\"".data]
  else some [Piece.cat "\"FALSE\"".data]

/-- C `atoi` of a string of one character. -/
def atoi_char (ch : Char) : Nat :=
  if ch.isDigit then ch.toNat - '0'.toNat else 0

/-- The pieces of the per-message object of the new-message request up to the opening
quote of `msgtext`. -/
def message_object_head (c : Consts) (bann : BannerView) (bann_recno sequence_number
    template_recno : Nat) : List Piece :=
  [Piece.cat "\x7b".data, Piece.cat "\"signseqnum\":".data,
    Piece.cat (mn_snprintf 10 (format_d sequence_number)),
    Piece.cat ",\"dbb_rec_dtsec\":".data, Piece.cat "\"".data,
    Piece.cat (remove_leading_space bann.dbb_rec_dtsec), Piece.cat "\"".data,
    Piece.cat ",\"recno_zx\":".data, Piece.cat (quoted_recno bann_recno),
    Piece.cat ",\"recno_template\":".data, Piece.cat (quoted_recno template_recno)]
  ++ int_field_pieces ",\"dbb_duration\":".data bann.dbb_duration
  ++ [Piece.cat ",\"msgtype\":".data, Piece.cat "\"".data,
    Piece.cat (c.bb_alert_status (atoi_char bann.dbb_alert_status)), Piece.cat "\"".data,
    Piece.cat ",\"msgtext\":".data, Piece.cat "\"".data]

/-- The pieces of the per-message object behind the translated message text; `none` as
for `webpageurl_pieces`. -/
def message_object_tail (c : Consts) (bann : BannerView) : Option (List Piece) :=
  match webpageurl_pieces c bann with
  | none => none
  | some webpageurl =>
    some ([Piece.cat "\"".data,
      Piece.cat ",\"msgdetails\":".data, Piece.cat "\"".data, Piece.cat [], Piece.cat "\"".data,
      Piece.cat ",\"dsi_audio_group_name\":".data, Piece.cat "[".data]
    ++ string_array_pieces true bann.dsi_audio_group_names
    ++ [Piece.cat "]".data, Piece.cat ",\"dbb_audio_groups\":".data, Piece.cat "[".data]
    ++ audio_groups_pieces c bann
    ++ [Piece.cat "]".data]
    ++ int_field_pieces ",\"dbb_playtime_duration\":".data bann.dbb_playtime_duration
    ++ int_field_pieces ",\"dbb_flasher_duration\":".data bann.dbb_flasher_duration
    ++ char_field_pieces ",\"dbb_light_signal\":".data bann.dbb_light_signal
    ++ int_field_pieces ",\"dbb_light_duration\":".data bann.dbb_light_duration
    ++ int_field_pieces ",\"dbb_audio_tts_gain\":".data bann.dbb_audio_tts_gain
    ++ char_field_pieces ",\"dbb_flash_new_message\":".data bann.dbb_flash_new_message
    ++ char_field_pieces ",\"dbb_visible_time\":".data bann.dbb_visible_time
    ++ char_field_pieces ",\"dbb_visible_frequency\":".data bann.dbb_visible_frequency
    ++ char_field_pieces ",\"dbb_visible_duration\":".data bann.dbb_visible_duration
    ++ int_field_pieces ",\"dbb_record_voice_at_launch_selection\":".data
        bann.dbb_record_voice_at_launch_selection
    ++ char_field_pieces ",\"dbb_record_voice_at_launch\":".data
        bann.dbb_record_voice_at_launch
    ++ int_field_pieces ",\"dbb_audio_recorded_gain\":".data bann.dbb_audio_recorded_gain
    ++ char_field_pieces ",\"dbb_pa_delivery_mode\":".data bann.dbb_pa_delivery_mode
    ++ char_field_pieces ",\"dbb_audio_repeat\":".data bann.dbb_audio_repeat
    ++ int_field_pieces ",\"dbb_speed\":".data bann.dbb_speed
    ++ int_field_pieces ",\"dbb_priority\":".data bann.dbb_priority
    ++ int_field_pieces ",\"dbb_expire_priority\":".data bann.dbb_expire_priority
    ++ int_field_pieces ",\"dbb_priority_duration\":".data bann.dbb_priority_duration
    ++ int_field_pieces ",\"dbb_page_priority_at_launch\":".data
        bann.dbb_page_priority_at_launch
    ++ [Piece.cat ",\"multimediatype\":".data, Piece.cat "\"".data,
      Piece.cat bann.multimedia_type_str, Piece.cat "\"".data]
    ++ int_field_pieces ",\"dbb_multimedia_audio_gain\":".data bann.dbb_multimedia_audio_gain
    ++ [Piece.cat ",\"webpageurl\":".data]
    ++ webpageurl
    ++ [Piece.cat ",\"dbb_launch_pin\":".data, Piece.cat "\"".data,
      Piece.cat bann.dbb_launch_pin, Piece.cat "\"".data,
      Piece.cat ",\"dss_gender\":".data, Piece.cat "\"".data,
      Piece.cat (bann.dss_gender.getD []), Piece.cat "\"".data,
      Piece.cat "\x7d".data])

/-- The texts that open the body of the new-message request, up to the opening bracket
of `bannermessages`. -/
def new_message_head (c : Consts) (hw : Hardware) (bann : BannerView) : List CStr :=
  password_texts hw ++
    [",\"bannerpurpose\":".data, new_message_bannerpurpose c bann,
      ",\"hardware_deviceid\":".data, "\"".data, hw.hardware_deviceid, "\"".data,
      ",\"hardware_recno\":".data, quoted_recno hw.record_number,
      ",\"bannermessages\":[".data]

/-- The body of the new-message request: `hw` already holds the stored message of the
call. The message text is translated from the slot that the first letter of
`dwc_sequence` names (`dwc_sequence[0] - SIGN_BASE`); a slot outside the array is an
access outside `board_messages` (outer `none`); the inner `none` is the `return(0)`
taken when the translator reports TRANSLATE_NOT_SUPPORTED. -/
def new_message_body (c : Consts) (hw : Hardware) (bann : BannerView)
    (dwc_sequence : CStr) (bann_recno sequence_number template_recno : Nat) :
    Option (Option CStr) :=
  if (dwc_sequence.headD NUL).toNat < c.SIGN_BASE then none
  else
    match hw.board_messages[(dwc_sequence.headD NUL).toNat - c.SIGN_BASE]? with
    | none => none
    | some message =>
      match translate_for_evo c message c.EVOLUTION_JSON_MESSAGE_LENGTH with
      | none => none
      | some (ret, text) =>
        match build c.EVOLUTION_JSON_MESSAGE_LENGTH []
          (message_object_head c bann bann_recno sequence_number template_recno
            ++ [Piece.direct text]) with
        | none => none
        | some json1 =>
          if ret = c.TRANSLATE_NOT_SUPPORTED then some none
          else
            match message_object_tail c bann with
            | none => none
            | some tail =>
              match build c.EVOLUTION_JSON_MESSAGE_LENGTH json1 tail with
              | none => none
              | some json =>
                some (some (strcatl_all c.EVOLUTION_JSON_MESSAGE_LENGTH []
                  (new_message_head c hw bann ++
                    [remove_trailing_space json, "]".data, "\x7d".data])))

/-! ## support_evolution.c: the transport -/

/-- The header lines of the request, as they are in `http_req_headers` (200 bytes). The
`Content-Length` line is formatted by `sprintf`, which has no bound, into
`temp_conversion_buf`, an array of 10 bytes: a line that does not fit the array with its
terminator is written past its end, and what the headers hold then is undefined
(`none`). The words `Content-Length: ` alone have 16 characters, so that is the case for
every body. (The conversion `FORMAT_STRLEN_STR` is not in the sources; it is taken to
print the length in decimal.) -/
def http_req_headers (http_req_body : CStr) : Option CStr :=
  let temp_conversion_buf :=
    "Content-Length: ".data ++ format_d http_req_body.length ++ "\r\n".data
  if temp_conversion_buf.length < 10 then
    some (remove_trailing_space (strcatl_all 200 []
      ["POST / HTTP/1.1\r\n".data,
        "User-Agent: MessageNet Evolution Banner Socket\r\n".data,
        "Content-Type: application/json\r\n".data,
        temp_conversion_buf,
        "\r\n".data]))
  else none

/-- The construction of the POST request in `post_cmd_buf`: `none` when the body is
blank ("No request was constructed"); else the text of the request, the headers and the
body, which is undefined (inner `none`) when the headers are. `size` is the size of
`http_req_body`. -/
def http_post (size : Nat) (http_req_body : CStr) : Option (Option CStr) :=
  if notjustspace http_req_body size then
    some ((http_req_headers (remove_trailing_space http_req_body)).map
      (fun headers =>
        strcatl_all (size + 200) [] [headers, remove_trailing_space http_req_body]))
  else none

/-- The retries of `SystemSocketConnect`: the `do … while` loop with
`retrySocketConnectMax` retries left, over the outcomes still to come. -/
def connect_retry : Nat → List Bool → Bool
  | 0, _ => false
  | _ + 1, [] => false
  | n + 1, outcome :: outcomes => if outcome then true else connect_retry n outcomes

/-- The number of `SystemSocketConnect` calls that the `do … while` loop of the retries
makes with `retrySocketConnectMax` retries left, over the outcomes still to come (a
missing outcome is a failure). -/
def connect_retry_calls : Nat → List Bool → Nat
  | 0, _ => 0
  | n + 1, [] => connect_retry_calls n [] + 1
  | n + 1, outcome :: outcomes => if outcome then 1 else connect_retry_calls n outcomes + 1

/-- The number of `SystemSocketConnect` calls of one transaction: the first call and,
when it fails, the calls of the retry loop (`retrySocketConnectMax = 5`). -/
def connect_calls (net : Network) : Nat :=
  if net.connect.headD false = true then 1 else connect_retry_calls 5 net.connect.tail + 1

/-- The first `SystemSocketReadTimeout` and the `do … while` loop of its retries:
whether a response arrived. -/
def read_retry : Nat → List Int → Bool
  | 0, _ => false
  | _ + 1, [] => false
  | n + 1, socket_return :: more => if 0 < socket_return then true else read_retry n more

/-- `evolution_clear_ip`: an address that was learned automatically is forgotten. -/
def evolution_clear_ip (hw : Hardware) : Hardware :=
  if hw.auto_term_ip then { hw with term_ip := [] } else hw

/-- What a call of `send_to_evolution_appliance_discreteMsg` leaves: its return value,
the state, and whether a response of the device was read. -/
structure SendResult where
  ret : Int
  world : World
  got_response : Bool

/-- The part of `send_to_evolution_appliance_discreteMsg` from `SystemSocketConnect` on.
`size` is the size of `http_req_body`; `post_cmd_buf` holds the headers and the body
(`none`: its text is undefined, and so are the bytes that `SystemSocketWrite` takes from
it; the path that the function takes does not depend on them). -/
def transaction (size : Nat) (net : Network) (w : World) (post_cmd_buf : Option CStr) :
    SendResult :=
  if net.connect.headD false = true ∨ connect_retry 5 net.connect.tail = true then
    if 0 < net.write then
      { ret := 0
        world := { w with
          hw := { w.hw with connection_active := true }
          written := w.written ++
            [post_cmd_buf.map (fun text =>
              (strcatl text "\r\n".data (size + 200)).take net.write.toNat)] }
        got_response := read_retry 6 net.read }
    else
      { ret := 0
        world := { w with hw := { w.hw with connection_active := true } }
        got_response := false }
  else
    { ret := -1
      world := { w with hw := { evolution_clear_ip w.hw with connection_active := false } }
      got_response := false }

/-- The end of `send_to_evolution_appliance_discreteMsg`: the request is built around the
body and sent; a blank body gives -1. -/
def send_body (size : Nat) (net : Network) (w : World) (http_req_body : CStr) :
    SendResult :=
  match http_post size http_req_body with
  | none => { ret := -1, world := w, got_response := false }
  | some post_cmd_buf => transaction size net w post_cmd_buf

/-- `send_to_evolution_appliance_discreteMsg(hw_ptr, banner_evo_cmd, bann_recno,
sequence_number, message, template_recno)`, with the globals it reads: the envelope
`db_wtc` and the banner record `db_bann` that has currency (`none`: no record has). The
calls that would change the journal are commented out in all three branches. `none` is
an access outside an array or buffer (the write past `temp_conversion_buf` at the
`Content-Length` line is accounted for in `http_req_headers`: it leaves the text of the
request undefined). -/
def send_to_evolution_appliance_discreteMsg (c : Consts) (net : Network)
    (db_bann : Option BannerView) (db_wtc : Envelope) (w : World)
    (banner_evo_cmd bann_recno sequence_number : Nat) (message : CStr)
    (template_recno : Nat) : Option SendResult :=
  let hw : Hardware :=
    { w.hw with
      hardware_device_password := remove_trailing_space w.hw.hardware_device_password }
  let w0 : World := { w with hw := hw }
  if banner_evo_cmd = BANNER_EVOLUTION_CMD_STOP_MESSAGE then
    some (send_body c.EVOLUTION_JSON_MESSAGE_LENGTH net w0
      (stop_message_body c.EVOLUTION_JSON_MESSAGE_LENGTH hw bann_recno))
  else if banner_evo_cmd = BANNER_EVOLUTION_CMD_CLEAR_SIGN then
    some (send_body c.EVOLUTION_JSON_MESSAGE_LENGTH net w0
      (clear_sign_body c.EVOLUTION_JSON_MESSAGE_LENGTH hw))
  else if banner_evo_cmd = BANNER_EVOLUTION_CMD_SEQ_NUMBER then
    match updateseq_body c hw db_wtc.dwc_sequence with
    | none => none
    | some none => some { ret := 0, world := w0, got_response := false }
    | some (some body) => some (send_body c.EVOLUTION_JSON_MESSAGE_LENGTH net w0 body)
  else if banner_evo_cmd = BANNER_EVOLUTION_CMD_NEW_MESSAGE then
    if sequence_number < hw.board_messages.length then
      let hw1 : Hardware :=
        { hw with
          board_messages :=
            hw.board_messages.set sequence_number (strcpyl message c.MAX_CHARS_IN_MSG) }
      let w1 : World := { w0 with hw := hw1, new_msg_recno_just_sent_by_newmsg := bann_recno }
      match db_bann with
      | none => none
      | some bann =>
        match new_message_body c hw1 bann db_wtc.dwc_sequence bann_recno sequence_number
          template_recno with
        | none => none
        | some none => some { ret := 0, world := w1, got_response := false }
        | some (some body) => some (send_body c.EVOLUTION_JSON_MESSAGE_LENGTH net w1 body)
    else none
  else some (send_body c.EVOLUTION_JSON_MESSAGE_LENGTH net w0 [])

/-- C `strchr(s, ch) != NULL` for a character code: the terminator counts as found. -/
def strchr_found (s : CStr) (code : Nat) : Bool :=
  code % 256 = 0 || s.contains (Char.ofNat (code % 256))

/-- The `for(k = 0; k < hw_ptr->max_seq; k++, start_slot++)` loop of the clear-sign
branch, with `n` passes left: a slot that holds a record and whose letter
(`UCHAR start_slot`, which started at `BB_BASE`) is not in `dwc_sequence` gets record
number 0. `none` is a slot outside `board_ptr`. -/
def clear_unreferenced_slots (c : Consts) (dwc_sequence : CStr) :
    Nat → Nat → List Nat → Option (List Nat)
  | 0, _, board_ptr => some board_ptr
  | n + 1, k, board_ptr =>
    match board_ptr[k]? with
    | none => none
    | some bann_recno =>
      clear_unreferenced_slots c dwc_sequence n (k + 1)
        (if 0 < bann_recno ∧ strchr_found dwc_sequence (c.BB_BASE + k) = false
          then board_ptr.set k 0 else board_ptr)

/-- The new-message branch: `if(db_wtc->dwc_message_type & BANNER_NEW_MESSAGE)`;
`db_bann_setcur` gives the stream record when it exists. -/
def dispatch_new_message (c : Consts) (net : Network) (db_bann_setcur : Nat → Option BannerView)
    (db_wtc : Envelope) (w : World) : Option World :=
  if db_wtc.dwc_message_type &&& c.BANNER_NEW_MESSAGE ≠ 0 then
    match db_bann_setcur db_wtc.dwc_stream_number with
    | none => some w
    | some bann =>
      (send_to_evolution_appliance_discreteMsg c net (some bann) db_wtc w
        BANNER_EVOLUTION_CMD_NEW_MESSAGE db_wtc.dwc_stream_number db_wtc.dwc_operation
        db_wtc.dwc_msg_buffer db_wtc.dwc_parent_recno).map SendResult.world
  else some w

/-- The clear-sign branch: `if(db_wtc->dwc_message_type & BANNER_CLEAR_SIGN)`. (The
envelope's row of the queue table, which the branch deletes at its end, is not part of
the state.) -/
def dispatch_clear_sign (c : Consts) (net : Network) (db_wtc : Envelope) (w : World) :
    Option World :=
  if db_wtc.dwc_message_type &&& c.BANNER_CLEAR_SIGN ≠ 0 then
    match send_to_evolution_appliance_discreteMsg c net none db_wtc w
      BANNER_EVOLUTION_CMD_CLEAR_SIGN 0 db_wtc.dwc_operation db_wtc.dwc_msg_buffer 0 with
    | none => none
    | some sent =>
      match clear_unreferenced_slots c db_wtc.dwc_sequence sent.world.hw.max_seq 0
        sent.world.hw.board_ptr with
      | none => none
      | some board_ptr =>
        some { sent.world with hw := { sent.world.hw with board_ptr := board_ptr } }
  else some w

/-- The stop-message branch:
`if(db_wtc->dwc_message_type & BANNER_EVOLUTION_CMD_STOP_MESSAGE)`. -/
def dispatch_stop_message (c : Consts) (net : Network) (db_wtc : Envelope) (w : World) :
    Option World :=
  if db_wtc.dwc_message_type &&& BANNER_EVOLUTION_CMD_STOP_MESSAGE ≠ 0 then
    (send_to_evolution_appliance_discreteMsg c net none db_wtc w
      BANNER_EVOLUTION_CMD_STOP_MESSAGE db_wtc.dwc_stream_number db_wtc.dwc_operation
      db_wtc.dwc_msg_buffer db_wtc.dwc_parent_recno).map SendResult.world
  else some w

/-- The branch of `check_banner_node_commands` for an envelope whose return node is an
appliance device: one dispatcher step. `net` is what the network does during each
transaction of the step. -/
def check_banner_node_commands (c : Consts) (net : Network)
    (db_bann_setcur : Nat → Option BannerView) (w : World) (db_wtc : Envelope) :
    Option World :=
  if db_wtc.dwc_message_type ≠ c.BANNER_SEQUENCE_NUMBER then
    match dispatch_new_message c net db_bann_setcur db_wtc w with
    | none => none
    | some w1 =>
      match dispatch_clear_sign c net db_wtc w1 with
      | none => none
      | some w2 => dispatch_stop_message c net db_wtc w2
  else if db_wtc.dwc_message_type &&& c.BANNER_SEQUENCE_NUMBER ≠ 0 then
    (send_to_evolution_appliance_discreteMsg c net none db_wtc w
      BANNER_EVOLUTION_CMD_SEQ_NUMBER db_wtc.dwc_stream_number db_wtc.dwc_operation
      db_wtc.dwc_msg_buffer db_wtc.dwc_parent_recno).map SendResult.world
  else some w

/-! ## support_evolution.c: the array of active messages -/

/-- How the run of a function ends. -/
inductive Run (α : Type)
  /-- the function returns -/
  | returned (value : α)
  /-- undefined behaviour: a loop counter of type `int` passes `INT_MAX` -/
  | undefined
  /-- the function has not returned when the fuel is used up -/
  | running

/-- The largest value of an `int` (32 bits). -/
def INT_MAX : Int := 2 ^ 31 - 1

/-- The global array `evolution_active_msg_recnos[MAX_SIGN_SEQUENCE]` together with the
memory around it, as words indexed from the first element of the array: the array is the
indices 0 … `MAX_SIGN_SEQUENCE - 1`, and the loops of the two functions also touch index
-1 and the indices from `MAX_SIGN_SEQUENCE` on; and the global flag
`holdWhileRemoving`. -/
structure ActiveMsgs where
  evolution_active_msg_recnos : Int → Nat
  holdWhileRemoving : Int

/-- The assignment `evolution_active_msg_recnos[i] = value`. -/
def store (recnos : Int → Nat) (i : Int) (value : Nat) : Int → Nat :=
  fun j => if j = i then value else recnos j

/-- The counting loops `for (i = 0; i <= MAX_SIGN_SEQUENCE; i++)` and
`for (i = MAX_SIGN_SEQUENCE; i >= 0; i--)`: the number of the indices 0 …
`MAX_SIGN_SEQUENCE` (the element behind the array included) that hold the value. -/
def count_matches (max : Nat) (recnos : Int → Nat) (value : Nat) : Nat :=
  ((List.range (max + 1)).filter (fun i => recnos (i : Int) = value)).length

/-- The shift loop of `insert_recno_to_active_msg_array`,
`for (i = MAX_SIGN_SEQUENCE - 1; i >= position - 1; i--)` with `position = 0`, from the
pass `i = n - 1` on: each pass with `i + 1 < MAX_SIGN_SEQUENCE` copies element `i` to
element `i + 1`; the last pass, `i = -1`, copies the word before the array. -/
def insert_shift (max : Nat) : Nat → (Int → Nat) → Int → Nat
  | 0, recnos => if 0 < max then store recnos 0 (recnos (-1)) else recnos
  | n + 1, recnos =>
    insert_shift max n
      (if n + 1 < max then store recnos ((n : Int) + 1) (recnos (n : Int)) else recnos)

/-- The loop `for (i = MAX_SIGN_SEQUENCE; i >= 0; i++)` of
`remove_recno_from_active_msg_array` from index `i` on: the counter goes up, away from
the array, until a word holds the value. -/
def find_from_oldest (recnos : Int → Nat) (value : Nat) : Nat → Int → Run Int
  | 0, _ => Run.running
  | fuel + 1, i =>
    if recnos i = value then Run.returned i
    else if INT_MAX < i + 1 then Run.undefined
    else find_from_oldest recnos value fuel (i + 1)

/-- The loop `for (i = position; i <= MAX_SIGN_SEQUENCE; i++)` of
`remove_recno_from_active_msg_array` with `n` passes left: the test is on `position`,
not on `i`. -/
def remove_shift (max : Nat) (position : Int) : Nat → Int → (Int → Nat) → Int → Nat
  | 0, _, recnos => recnos
  | n + 1, i, recnos =>
    remove_shift max position n (i + 1)
      (store recnos i (if position < (max : Int) then recnos (i + 1) else 0))

/-- `remove_recno_from_active_msg_array(valueToRemove, removeAllMatching,
startFromOldest)`. -/
def remove_recno_from_active_msg_array (max : Nat) :
    Nat → ActiveMsgs → Nat → Int → Int → Run ActiveMsgs
  | 0, _, _, _, _ => Run.running
  | fuel + 1, s, valueToRemove, removeAllMatching, startFromOldest =>
    let count := count_matches max s.evolution_active_msg_recnos valueToRemove
    let found : Run Int :=
      if startFromOldest = 1 then
        find_from_oldest s.evolution_active_msg_recnos valueToRemove fuel max
      else
        Run.returned
          (match (List.range (max + 1)).find?
              (fun i => s.evolution_active_msg_recnos (i : Int) = valueToRemove) with
            | some i => (i : Int)
            | none => -1)
    match found with
    | Run.undefined => Run.undefined
    | Run.running => Run.running
    | Run.returned position =>
      let s1 : ActiveMsgs :=
        if -1 < position then
          { s with
            evolution_active_msg_recnos :=
              remove_shift max position ((max : Int) + 1 - position).toNat position
                s.evolution_active_msg_recnos }
        else s
      let recursed : Run ActiveMsgs :=
        if 1 < count ∧ removeAllMatching = 1 then
          remove_recno_from_active_msg_array max fuel s1 valueToRemove removeAllMatching
            startFromOldest
        else Run.returned s1
      match recursed with
      | Run.returned s2 =>
        Run.returned (if count = 0 then { s2 with holdWhileRemoving := 0 } else s2)
      | other => other

/-- The statement `while (holdWhileRemoving);` of `insert_recno_to_active_msg_array`:
nothing in the loop changes the flag. -/
def hold_while_removing : Nat → ActiveMsgs → Run ActiveMsgs
  | 0, _ => Run.running
  | fuel + 1, s =>
    if s.holdWhileRemoving ≠ 0 then hold_while_removing fuel s else Run.returned s

/-- `insert_recno_to_active_msg_array(valueToAdd)`. -/
def insert_recno_to_active_msg_array (max : Nat) : Nat → ActiveMsgs → Nat → Run ActiveMsgs
  | 0, _, _ => Run.running
  | fuel + 1, s, valueToAdd =>
    if count_matches max s.evolution_active_msg_recnos valueToAdd = 0 then
      Run.returned
        { s with
          evolution_active_msg_recnos :=
            store (insert_shift max max s.evolution_active_msg_recnos) 0 valueToAdd }
    else
      match remove_recno_from_active_msg_array max fuel s valueToAdd 1 1 with
      | Run.returned s1 =>
        match hold_while_removing fuel { s1 with holdWhileRemoving := 1 } with
        | Run.returned s2 => insert_recno_to_active_msg_array max fuel s2 valueToAdd
        | other => other
      | other => other

/-! ## Relations between the state before and after a step -/

/-- The journal, the record numbers of the slots and the number of slots of `w1` are
those of `w`. -/
def keeps_records (w w1 : World) : Prop :=
  w1.journal = w.journal ∧ w1.hw.board_ptr = w.hw.board_ptr ∧ w1.hw.max_seq = w.hw.max_seq

/-- The stored message texts and the global `new_msg_recno_just_sent_by_newmsg` of `w1`
are those of `w`. -/
def keeps_messages (w w1 : World) : Prop :=
  w1.hw.board_messages = w.hw.board_messages
    ∧ w1.new_msg_recno_just_sent_by_newmsg = w.new_msg_recno_just_sent_by_newmsg

/-- Slot `i` of the device holds a record: the spec's "an empty slot is represented by a
zero record number". -/
def slot_populated (hw : Hardware) (i : Nat) : Prop :=
  0 < hw.board_ptr.getD i 0

/-- The sequence string references slot `i`: it contains the letter of the slot. -/
def sequence_references (c : Consts) (dwc_sequence : CStr) (i : Nat) : Prop :=
  Char.ofNat (c.BB_BASE + i) ∈ dwc_sequence

/-! ## Example values for concrete inputs -/

/-- An example assignment of the constants that the sources leave to their headers:
separate bits for the three message types (none of them a bit of 202), sequence letters
from `A` on, `ESC` as the sign command character. -/
def example_consts : Consts :=
  { BANNER_NEW_MESSAGE := 1
    BANNER_CLEAR_SIGN := 4
    BANNER_SEQUENCE_NUMBER := 16
    BB_BASE := 65
    SIGN_BASE := 65
    MAX_CHARS_IN_MSG := 1000
    EVOLUTION_JSON_MESSAGE_LENGTH := 4000
    DEVICEID_LENGTH := 20
    TRANSLATE_SUPPORTED := 1
    TRANSLATE_NOT_SUPPORTED := -1
    USE_AND_COLOR := false
    SUNRISE_SUPPORT_GRAPHICS := false
    SUBSTITUTE_SIGNATURE_TEXT := []
    SIGN_COMMAND := Char.ofNat 0x1b
    SIGN_CR := '\r'
    SIGN_BLOCK_CHARACTER := Char.ofNat 0x7f
    SIGN_SPEED := 'S'
    SIGN_CONFIGURE := 'X'
    SIGN_FONT := 'F'
    SIGN_DATEEMBED := 'D'
    SIGN_TIMEEMBED := 'T'
    SIGN_SIGNATUREEMBED := 'G'
    SIGN_AUTHORITYEMBED := 'A'
    SIGN_MODE := 'M'
    SIGN_SEQUENCE := 'Q'
    SIGN_FCOLOR := 'C'
    SIGN_JUSTIFY := 'J'
    SIGN_BCOLOR := 'B'
    SIGN_TIMESET := 'Z'
    SIGN_COLOR_RED := '1'
    SIGN_COLOR_GREEN := '2'
    SIGN_COLOR_AMBER := '3'
    SIGN_COLOR_YELLOW := '4'
    SIGN_COLOR_ORANGE := '5'
    SIGN_COLOR_BLACK := '6'
    SIGN_COLOR_without_token := ['7', '8', '9']
    bb_alert_status := fun _ => "ANNOUNCEMENT".data
    bba_multiple := "multiple".data
    bbs_audio_group_choose := "choose".data }

/-- An example banner record: a plain scrolling message without camera. -/
def example_banner : BannerView :=
  { dbb_multimedia_type := MultimediaType.MULTIMEDIA_MESSAGE
    multimedia_type_str := "Message".data
    show_camera_yes := false
    dbb_camera_deviceid := []
    dbb_rec_dtsec := "1188659674".data
    dbb_duration := 50
    dbb_alert_status := '0'
    dbb_audio_group := []
    dbb_playtime_duration := 0
    dbb_flasher_duration := 0
    dbb_light_signal := ' '
    dbb_light_duration := 0
    dbb_audio_tts_gain := 0
    dbb_flash_new_message := 'N'
    dbb_visible_time := '0'
    dbb_visible_frequency := 'A'
    dbb_visible_duration := '0'
    dbb_record_voice_at_launch_selection := 0
    dbb_record_voice_at_launch := 'N'
    dbb_audio_recorded_gain := 0
    dbb_pa_delivery_mode := '0'
    dbb_audio_repeat := '1'
    dbb_speed := 4
    dbb_priority := 200
    dbb_expire_priority := 200
    dbb_priority_duration := 50
    dbb_page_priority_at_launch := 0
    dbb_multimedia_audio_gain := 0
    dbb_launch_pin := []
    dsi_audio_group_names := []
    multi_audio_names := []
    chosen_audio_names := []
    multimedia_disk_path := none
    web_page := []
    camera_stream := "rtsp://192.168.1.60:8554/evolution".data
    dss_gender := none }

/-- An example banner record: a video message that also asks for a camera. -/
def example_banner_video_camera : BannerView :=
  { example_banner with
    dbb_multimedia_type := MultimediaType.MULTIMEDIA_VIDEO
    multimedia_type_str := "Video".data
    show_camera_yes := true
    dbb_camera_deviceid := "CAM1".data
    multimedia_disk_path := some "/home/silentm/multimedia/drill.mp4".data }

/-- An example database of banner records: only record 345 exists. -/
def example_db (recno : Nat) : Option BannerView :=
  if recno = 345 then some example_banner else none

/-- An example network: the first connect succeeds, everything is written, the device
answers at once. -/
def example_network : Network :=
  { connect := [true], write := 100000, read := [17] }

/-- An example device, number 363, with three slots. -/
def example_hardware (board_ptr : List Nat) (board_messages : List CStr) : Hardware :=
  { record_number := 363
    hardware_deviceid := "OMNI1".data
    hardware_device_password := "pw".data
    term_ip := "192.168.1.229".data
    auto_term_ip := false
    max_seq := 3
    board_ptr := board_ptr
    board_messages := board_messages
    connection_active := true }

/-- An example state: the example device with the given slots and journal, nothing
written yet. -/
def example_world (board_ptr : List Nat) (board_messages : List CStr) (journal : Journal) :
    World :=
  { hw := example_hardware board_ptr board_messages
    journal := journal
    new_msg_recno_just_sent_by_newmsg := 0
    written := [] }

instance slot_populated_decidable (hw : Hardware) (i : Nat) :
    Decidable (slot_populated hw i) := by
  unfold slot_populated
  infer_instance

instance sequence_references_decidable (c : Consts) (dwc_sequence : CStr) (i : Nat) :
    Decidable (sequence_references c dwc_sequence i) := by
  unfold sequence_references
  infer_instance

/-- The example envelope of a launch: new message 345 of template 305 for slot 0, with
sequence string `A` (the spec's scenario 1). -/
def example_new_message : Envelope :=
  { dwc_message_type := 1
    dwc_stream_number := 345
    dwc_parent_recno := 305
    dwc_operation := 0
    dwc_msg_buffer := "Test 2".data
    dwc_sequence := "A".data }

/-- An example sequence-change envelope for stream 345 that carries the given sequence
string. -/
def example_sequence_change (dwc_sequence : CStr) : Envelope :=
  { dwc_message_type := 16
    dwc_stream_number := 345
    dwc_parent_recno := 305
    dwc_operation := 0
    dwc_msg_buffer := []
    dwc_sequence := dwc_sequence }

/-- An example clear-sign envelope that carries the given sequence string. -/
def example_clear_sign (dwc_sequence : CStr) : Envelope :=
  { dwc_message_type := 4
    dwc_stream_number := 0
    dwc_parent_recno := 0
    dwc_operation := 0
    dwc_msg_buffer := []
    dwc_sequence := dwc_sequence }

/-- An example state: slot 0 shows record 345, slot 1 record 346, slot 2 is empty. -/
def example_world_two_messages (journal : Journal) : World :=
  example_world [345, 346, 0] ["Test 2".data, "Fire drill".data, []] journal

/-- The request head as the spec words it: the four header lines, each ended by CRLF,
with the given `Content-Length`, and one empty line. -/
def header_lines (content_length : Nat) : CStr :=
  "POST / HTTP/1.1\r\n".data
    ++ "User-Agent: MessageNet Evolution Banner Socket\r\n".data
    ++ "Content-Type: application/json\r\n".data
    ++ ("Content-Length: ".data ++ format_d content_length ++ "\r\n".data)
    ++ "\r\n".data

/-- The example body of a clear-sign request. -/
def example_clear_sign_body : CStr :=
  "\x7b\"password\":\"pw\",\"bannerpurpose\":\"clearsign\"\x7d".data

/-- The body that `new_message_body` builds for the example video record with a camera
on the example device (empty when there is none). -/
def example_video_camera_body : CStr :=
  ((new_message_body example_consts
      (example_hardware [0, 0, 0] ["Test 2".data, [], []])
      example_banner_video_camera "A".data 345 0 305).bind id).getD []

/-- An example network on which no connect attempt of a transaction succeeds: the first
six attempts fail. -/
def example_network_unreachable : Network :=
  { connect := [false, false, false, false, false, false, true], write := 100000, read := [17] }

/-- An example network on which the write writes nothing. -/
def example_network_write_fails : Network :=
  { connect := [true], write := 0, read := [17] }

/-- An example network on which the device never answers. -/
def example_network_no_response : Network :=
  { connect := [true], write := 100000, read := [0, 0, 0, 0, 0, 0] }

/-- The example constants when `USE_AND_COLOR` is defined. -/
def example_consts_use_and_color : Consts :=
  { example_consts with USE_AND_COLOR := true }

/-- An example of the array of active messages with four elements: records 345 and 346
and two empty elements; the memory around the array holds zeros. -/
def example_active_msgs : ActiveMsgs :=
  { evolution_active_msg_recnos := fun i => if i = 0 then 345 else if i = 1 then 346 else 0
    holdWhileRemoving := 0 }

/-! ## smajax.c: the CGI endpoint -/

/-- `#define MAX_ARGS (1000)`: the length of the pointer array `parsed_input`. -/
def MAX_ARGS : Nat := 1000

/-- The scan loop of `cgi_parse_input` over `parsed_buffer`: every `&` ends a field; the
terminator ends the last field and, by the fall-through into `case '&'`, stores one more
pointer, to the byte after the terminator (an empty string in the zero-initialised
static buffer). `cur` holds the characters of the current field, last first. -/
def cgi_parse_fields : CStr → CStr → List CStr
  | cur, [] => [cur.reverse, []]
  | cur, c :: rest =>
    if c = '&' then cur.reverse :: cgi_parse_fields [] rest
    else cgi_parse_fields (c :: cur) rest

/-- `cgi_parse_input`: the array `parsed_input` filled from the request held in
`parsed_buffer`. The array has `MAX_ARGS` entries and the loop also writes the NULL that
ends it, one entry past the last pointer; a request with more fields writes outside the
array (`none`). -/
def cgi_parse_input (request : CStr) : Option (List CStr) :=
  let fields := cgi_parse_fields [] request
  if fields.length + 1 ≤ MAX_ARGS then some fields else none

/-- Modelled from the spec: `add_trailing_space(s, size)` of the project's string library
(not in the sources), the inverse of `remove_trailing_space`: `s` padded with blanks to
the `size - 1` characters of a fixed-width field. -/
def add_trailing_space (s : CStr) (size : Nat) : CStr :=
  s ++ List.replicate (size - 1 - s.length) ' '

/-- `cgi_ascii_to_hex`: the value of a hexadecimal digit; any other character gives the
code of a blank. -/
def cgi_ascii_to_hex (value : Nat) : Nat :=
  if '0'.toNat ≤ value ∧ value ≤ '9'.toNat then value - '0'.toNat
  else if 'A'.toNat ≤ value ∧ value ≤ 'F'.toNat then value - 55
  else if 'a'.toNat ≤ value ∧ value ≤ 'f'.toNat then value - 87
  else ' '.toNat

/-- The loop of `cgi_decode_form_string`: `out` is the output written so far (last
character first, so `out.length` is the C variable `i`), the list argument is the input
from `in_str[j]` on. The `break` is taken after a character has been written. -/
def cgi_decode_loop (space_fill : Nat) : Nat → CStr → CStr → CStr
  | 0, out, _ => out
  | _ + 1, out, [] => out
  | fuel + 1, out, c :: rest =>
    let step : CStr × CStr :=
      if c = '+' then (' ' :: out, rest)
      else if c = '%' then
        match rest with
        | [] => (Char.ofNat 0 :: out, [])
        | h1 :: rest1 =>
          match rest1 with
          | [] =>
            let hex := cgi_ascii_to_hex h1.toNat
            ((if hex = '"'.toNat ∨ hex = '\''.toNat then '`' else Char.ofNat (hex % 256)) :: out, [])
          | h2 :: rest2 =>
            let hex := cgi_ascii_to_hex h1.toNat * 16 + cgi_ascii_to_hex h2.toNat
            ((if hex = '"'.toNat ∨ hex = '\''.toNat then '`' else Char.ofNat (hex % 256)) :: out, rest2)
      else (c :: out, rest)
    if 0 < space_fill ∧ space_fill - 1 ≤ step.1.length then step.1
    else cgi_decode_loop space_fill fuel step.1 step.2

/-- `cgi_decode_form_string(where_to_put_it, in_str, space_fill)`: the decoded text; a
positive `space_fill` limits it and pads it with blanks. A decoded NUL ends the C string
that the caller sees. -/
def cgi_decode_form_string (in_str : CStr) (space_fill : Nat) : CStr :=
  let raw := (cgi_decode_loop space_fill in_str.length [] in_str).reverse
  let text := raw.takeWhile (fun c => c != Char.ofNat 0)
  if 0 < space_fill then add_trailing_space text space_fill else text

/-- `cgi_parsed_lookup(string_to_find, where_to_put_it, space_fill)` over the parsed
fields: the first field that starts with `string_to_find` gives TRUE and the decoded rest
of that field; no such field gives FALSE and the empty string. -/
def cgi_parsed_lookup (string_to_find : CStr) (space_fill : Nat) :
    List CStr → Bool × CStr
  | [] => (false, [])
  | field :: more =>
    if strncmp_eq field string_to_find string_to_find.length then
      (true, cgi_decode_form_string (field.drop string_to_find.length) space_fill)
    else cgi_parsed_lookup string_to_find space_fill more

/-- The branches of the `if … else if …` chain of `main`: the branches of the redacted
part of the chain (numbered in order), the eight branches in the sources, and the final
`else`. -/
inductive Action
  | redacted (n : Nat)
  | evolutionGetActiveMessagesForDevice
  | evolutionGetBannerMessageRecord
  | evolutionGetActiveMessagesForDevice_recnosOnly
  | evolutionGetActiveMessagesForDevice_countsOnly
  | evolutionGetActiveMessagesForDevice_likeShowSignMsgsScreen
  | evolutionGetActiveMessagesForDevice_serverPushTriggerUpdateDeviceStatus
  | evolutionGetMessageDataForRecnoZX
  | evolutionReportNetworkInfo
  | no_command_found
  deriving DecidableEq, Repr

/-- The action keys of the chain of `main` that are in the sources, in the order in which
the chain tests them. -/
def visible_action_keys : List (CStr × Action) :=
  [ ("evolutionGetActiveMessagesForDevice=".data, Action.evolutionGetActiveMessagesForDevice),
    ("evolutionGetBannerMessageRecord=".data, Action.evolutionGetBannerMessageRecord),
    ("evolutionGetActiveMessagesForDevice_recnosOnly=".data,
      Action.evolutionGetActiveMessagesForDevice_recnosOnly),
    ("evolutionGetActiveMessagesForDevice_countsOnly=".data,
      Action.evolutionGetActiveMessagesForDevice_countsOnly),
    ("evolutionGetActiveMessagesForDevice_likeShowSignMsgsScreen=".data,
      Action.evolutionGetActiveMessagesForDevice_likeShowSignMsgsScreen),
    ("evolutionGetActiveMessagesForDevice_serverPushTriggerUpdateDeviceStatus=".data,
      Action.evolutionGetActiveMessagesForDevice_serverPushTriggerUpdateDeviceStatus),
    ("evolutionGetMessageDataForRecnoZX=".data, Action.evolutionGetMessageDataForRecnoZX),
    ("evolutionReportNetworkInfo=".data, Action.evolutionReportNetworkInfo) ]

/-- Numbers the keys of the redacted branches from `n` on. -/
def redacted_action_keys : Nat → List CStr → List (CStr × Action)
  | _, [] => []
  | n, key :: keys => (key, Action.redacted n) :: redacted_action_keys (n + 1) keys

/-- All action keys of the chain: those of the redacted branches (a parameter: the
sources mark the place as redacted) come before the visible ones. -/
def action_keys (redacted_keys : List CStr) : List (CStr × Action) :=
  redacted_action_keys 0 redacted_keys ++ visible_action_keys

/-- The chain of `main`: the first key, in chain order, that `cgi_parsed_lookup` finds
selects the branch; the final `else` is taken when none is found. -/
def main_select (fields : List CStr) : List (CStr × Action) → Action
  | [] => Action.no_command_found
  | (key, action) :: chain =>
    if (cgi_parsed_lookup key 80 fields).1 then action else main_select fields chain

/-- The standard output of `main` for a request. The final `else` prints the fixed
text; what the other branches print is the parameter `respond`, `none` standing for a
branch that does not return. -/
def main (redacted_keys : List CStr) (respond : Action → List CStr → Option CStr)
    (request : CStr) : Option CStr :=
  match cgi_parse_input request with
  | none => none
  | some fields =>
    match main_select fields (action_keys redacted_keys) with
    | Action.no_command_found => some "No command found\n".data
    | action => respond action fields

/-! ## smajax.c: the branches of `main` -/

/-- The constants of headers outside the sources that the branches of `main` use, and
the library function `AlphaToRecordNumber`, which is not in the sources either. They are
parameters of the model. -/
structure CgiConsts where
  /-- size of the line buffer and of the response buffers (`MAX_CHARS`) -/
  MAX_CHARS : Nat
  /-- size of an IP address field (`IP_LENGTH`) -/
  IP_LENGTH : Nat
  /-- size of a device-id field (`DEVICEID_LENGTH`) -/
  DEVICEID_LENGTH : Nat
  /-- size of the buffer `message` of the branch `evolutionGetMessageDataForRecnoZX`
  (`PAGE_MESSAGE_LENGTH`) -/
  PAGE_MESSAGE_LENGTH : Nat
  /-- the record number that a text denotes -/
  AlphaToRecordNumber : CStr → Nat

/-- The fields of the envelope `db_wtc` that the read loops of `main` look at. -/
structure SignMessagesRow where
  dwc_flag : Nat
  dwc_record_num : Nat
  dwc_message_type : Nat

/-- What the database and the file system answer during one run of the CGI process. An
`init` field and an `error` field are `true` when the call reports an error. -/
structure CgiDatabase where
  db_syspa_init : Bool
  db_wtc_init : Bool
  db_bann_init : Bool
  db_list_init : Bool
  db_signs_init : Bool
  db_hard_init : Bool
  db_staff_init : Bool
  /-- the result of the `command_wtc(WTC_WRITE, …)` call that opens a round trip -/
  command_wtc_write_error : Bool
  /-- the results of the successive `command_wtc(WTC_READ, WTC_SIGN_MESSAGES, …)` calls:
  the envelope read, or `none` when no row is there yet; after the last of them no row
  arrives any more -/
  command_wtc_read : List (Option SignMessagesRow)
  /-- the field `dhc_terminal_server_ip` of the hardware record with a number, for the
  records that `db_hard_setcur` finds -/
  dhc_terminal_server_ip : Nat → Option CStr
  /-- the result of `db_hard_write` -/
  db_hard_write_error : Bool
  /-- the content of the files that `fopen(…, "r")` opens -/
  fopen : CStr → Option CStr

/-- `cgi_parsed_lookup_record_number(string_to_find, not_found_default)`. -/
def cgi_parsed_lookup_record_number (k : CgiConsts) (string_to_find : CStr)
    (not_found_default : Nat) (fields : List CStr) : Nat :=
  if (cgi_parsed_lookup string_to_find 100 fields).1 then
    k.AlphaToRecordNumber (cgi_parsed_lookup string_to_find 100 fields).2
  else not_found_default

/-- The `while(fgets(…))` loop of the branch `evolutionGetActiveMessagesForDevice`: a
comma before every line but the first (`count` counts the lines printed), then the line
as `fgets` left it in `line_buffer`. -/
def print_journal_lines : Nat → List CStr → CStr
  | _, [] => []
  | count, line_buffer :: more =>
    (if 0 < count then ",".data else []) ++ line_buffer
      ++ print_journal_lines (count + 1) more

/-- The name of the journal file of a device, as the branch
`evolutionGetActiveMessagesForDevice` puts it into `str_filename` (256 bytes, which the
name is taken to fit). -/
def journal_file_name (hw_recno : Nat) : CStr :=
  remove_trailing_space
    ("/home/silentm/record/evolutionActiveMsgs.".data ++ FORMAT_DBRECORD_STR hw_recno
      ++ ".json".data)

/-- The branch `evolutionGetActiveMessagesForDevice` of `main`: what it prints. -/
def evolutionGetActiveMessagesForDevice (k : CgiConsts) (db : CgiDatabase)
    (fields : List CStr) : CStr :=
  let hw_recno := cgi_parsed_lookup_record_number k "devicerecno=".data 0 fields
  let str_filename := journal_file_name hw_recno
  match db.fopen str_filename with
  | some file =>
    "\x7b\"evolution_active_msgs\":[".data
      ++ print_journal_lines 0 (read_lines k.MAX_CHARS file.length file) ++ "]\x7d".data
  | none => []

/-- The branch `evolutionGetBannerMessageRecord` of `main`: what it prints. -/
def evolutionGetBannerMessageRecord (db : CgiDatabase) : CStr :=
  if db.db_syspa_init || db.db_bann_init then "-1".data else []

/-- The read loop of the branch `evolutionGetActiveMessagesForDevice_recnosOnly`:
`response` and `i` after the loop, and the reads that are left. A read without a row
is followed by the delay and the next read; when no sentinel ever arrives the loop does
not end (`none`). -/
def recnosOnly_loop (size : Nat) :
    List (Option SignMessagesRow) → CStr → Nat →
      Option (CStr × Nat × List (Option SignMessagesRow))
  | [], _, _ => none
  | none :: reads, response, i => recnosOnly_loop size reads response i
  | some db_wtc :: reads, response, i =>
    if db_wtc.dwc_flag = 2 then some (response, i, reads)
    else if db_wtc.dwc_flag = 1 then some (response, i, reads)
    else if 0 < db_wtc.dwc_record_num then
      let response := if 0 < i then strcatl response ",".data size else response
      let temp_conversion_buf := mn_snprintf 10 (FORMAT_DBRECORD_STR db_wtc.dwc_record_num)
      let response := strcatl response "\x7b\"recno\":\"".data size
      let response := strcatl response temp_conversion_buf size
      let response := strcatl response
        (match db_wtc.dwc_message_type with
          | 1 => "\",\"type\":\"active\"\x7d".data
          | 2 => "\",\"type\":\"waiting\"\x7d".data
          | 3 => "\",\"type\":\"hidden\"\x7d".data
          | _ => "\",\"type\":\"unknown\"\x7d".data) size
      recnosOnly_loop size reads response (i + 1)
    else recnosOnly_loop size reads response i

/-- The branch `evolutionGetActiveMessagesForDevice_recnosOnly` of `main`: what it
prints, and the reads that are left. -/
def evolutionGetActiveMessagesForDevice_recnosOnly (k : CgiConsts) (db : CgiDatabase)
    (fields : List CStr) : Option (CStr × List (Option SignMessagesRow)) :=
  let hw_recno := cgi_parsed_lookup_record_number k "devicerecno=".data 0 fields
  if db.db_syspa_init || db.db_wtc_init then
    some (strcatl [] "Database initialization error".data k.MAX_CHARS, db.command_wtc_read)
  else if db.command_wtc_write_error then
    some (strcatl [] "WTC command failed to write.".data k.MAX_CHARS, db.command_wtc_read)
  else
    let response := strcatl_all k.MAX_CHARS []
      [ "\x7b".data, "\"hwRecno\":\"".data, mn_snprintf 10 (FORMAT_DBRECORD_STR hw_recno),
        "\"".data, ",".data, "\"activeMessages\":[".data ]
    match recnosOnly_loop k.MAX_CHARS db.command_wtc_read response 0 with
    | none => none
    | some (response, _, reads) => some (strcatl response "]\x7d".data k.MAX_CHARS, reads)

/-- The counters of the branch `evolutionGetActiveMessagesForDevice_countsOnly` and its
variable `message_type`. -/
structure Counts where
  message_type : Nat
  total_active_messages : Nat
  total_active_messages_waiting : Nat
  total_active_messages_hidden : Nat

/-- The read loop of the branch `evolutionGetActiveMessagesForDevice_countsOnly`: the
counters after the loop, and the reads that are left; `none` when no sentinel ever
arrives. -/
def countsOnly_loop :
    List (Option SignMessagesRow) → Counts → Option (Counts × List (Option SignMessagesRow))
  | [], _ => none
  | none :: reads, n => countsOnly_loop reads n
  | some db_wtc :: reads, n =>
    if db_wtc.dwc_flag = 2 then some (n, reads)
    else if db_wtc.dwc_flag = 1 then some (n, reads)
    else if 0 < db_wtc.dwc_record_num then
      if n.message_type ≠ db_wtc.dwc_message_type then
        let n := { n with message_type := db_wtc.dwc_message_type }
        countsOnly_loop reads
          (match n.message_type with
            | 1 => { n with total_active_messages := n.total_active_messages + 1 }
            | 2 => { n with
                total_active_messages_waiting := n.total_active_messages_waiting + 1 }
            | 3 => { n with
                total_active_messages_hidden := n.total_active_messages_hidden + 1 }
            | _ => n)
      else countsOnly_loop reads n
    else countsOnly_loop reads n

/-- The five `printf` calls that end the branch
`evolutionGetActiveMessagesForDevice_countsOnly`. -/
def print_counts (n : Counts) : CStr :=
  "\x7b".data ++ ("\"active_messages\":".data ++ format_d n.total_active_messages ++ ",".data)
    ++ ("\"active_messages_waiting\":".data ++ format_d n.total_active_messages_waiting
      ++ ",".data)
    ++ ("\"active_messages_hidden\":".data ++ format_d n.total_active_messages_hidden)
    ++ "\x7d".data

/-- The branch `evolutionGetActiveMessagesForDevice_countsOnly` of `main`: what it
prints, and the reads that are left. The counters are printed on every path. -/
def evolutionGetActiveMessagesForDevice_countsOnly (db : CgiDatabase) :
    Option (CStr × List (Option SignMessagesRow)) :=
  let zero : Counts := ⟨0, 0, 0, 0⟩
  if db.db_syspa_init || db.db_wtc_init then
    some ("-1".data ++ print_counts zero, db.command_wtc_read)
  else if db.command_wtc_write_error then
    some ("WTC command failed to write.".data ++ print_counts zero, db.command_wtc_read)
  else
    match countsOnly_loop db.command_wtc_read zero with
    | none => none
    | some (n, reads) => some (print_counts n, reads)

/-- The read loop of the branch
`evolutionGetActiveMessagesForDevice_likeShowSignMsgsScreen`, which prints nothing: the
reads that are left; `none` when no sentinel ever arrives. -/
def likeShowSignMsgsScreen_loop :
    List (Option SignMessagesRow) → Option (List (Option SignMessagesRow))
  | [] => none
  | none :: reads => likeShowSignMsgsScreen_loop reads
  | some db_wtc :: reads =>
    if db_wtc.dwc_flag = 2 then some reads
    else if db_wtc.dwc_flag = 1 then some reads
    else likeShowSignMsgsScreen_loop reads

/-- The branch `evolutionGetActiveMessagesForDevice_likeShowSignMsgsScreen` of `main`:
what it prints. -/
def evolutionGetActiveMessagesForDevice_likeShowSignMsgsScreen (db : CgiDatabase) :
    Option CStr :=
  if db.db_syspa_init || db.db_wtc_init || db.db_bann_init then some "-1".data
  else if db.command_wtc_write_error then some "WTC command failed to write.".data
  else (likeShowSignMsgsScreen_loop db.command_wtc_read).map (fun _ => [])

/-- The branch `evolutionGetActiveMessagesForDevice_serverPushTriggerUpdateDeviceStatus`
of `main`: what it prints. -/
def evolutionGetActiveMessagesForDevice_serverPushTriggerUpdateDeviceStatus
    (db : CgiDatabase) : CStr :=
  if db.db_syspa_init || db.db_wtc_init then "-1".data
  else if db.command_wtc_write_error then "WTC command failed to write.".data
  else "WTC command written. Active messages should be arriving.".data

/-- The branch `evolutionGetMessageDataForRecnoZX` of `main`: what it prints. The
`else` part of the initialisation test, which assembles the message object of a banner
record, is the parameter `message_data`: from `recno_zx`, `hardware_deviceid` and the
text in `json_bannmsg` it gives what it prints and the text in `json_bannmsg`
afterwards, or `none` when it writes outside a buffer. -/
def evolutionGetMessageDataForRecnoZX (k : CgiConsts) (db : CgiDatabase)
    (message_data : Nat → CStr → CStr → Option (CStr × CStr)) (fields : List CStr) :
    Option CStr :=
  let recno_zx := cgi_parsed_lookup_record_number k "msgrecno=".data 0 fields
  let hardware_deviceid := (cgi_parsed_lookup "deviceid=".data k.DEVICEID_LENGTH fields).2
  let json_bannmsg := strcatl [] "\x7b".data k.MAX_CHARS
  let step : Option (CStr × CStr) :=
    if db.db_syspa_init || db.db_bann_init || db.db_list_init || db.db_signs_init
        || db.db_hard_init || db.db_staff_init then
      some ("Database initialization error".data, json_bannmsg)
    else message_data recno_zx hardware_deviceid json_bannmsg
  step.map (fun printed => printed.1 ++ strcatl printed.2 "\x7d\n".data k.MAX_CHARS)

/-- What the branch `evolutionReportNetworkInfo` leaves behind: the text printed, the
field `dhc_terminal_server_ip` of the hardware records in the database, and the records
for which a `WTC_HARD_UPDATE` envelope was written. -/
structure NetworkInfoReport where
  stdout : CStr
  dhc_terminal_server_ip : Nat → Option CStr
  hard_update_written : List Nat

/-- The branch `evolutionReportNetworkInfo` of `main`. -/
def evolutionReportNetworkInfo (k : CgiConsts) (db : CgiDatabase) (fields : List CStr) :
    NetworkInfoReport :=
  let hw_recno := cgi_parsed_lookup_record_number k "devicerecno=".data 0 fields
  let ipMethodConfigured := (cgi_parsed_lookup "ipMethodConfig=".data 7 fields).2
  let ipMethodActual := (cgi_parsed_lookup "ipMethodCurrent=".data 7 fields).2
  let ipAddress := (cgi_parsed_lookup "ipAddress=".data k.IP_LENGTH fields).2
  let unchanged (text : CStr) : NetworkInfoReport :=
    ⟨text, db.dhc_terminal_server_ip, []⟩
  if db.db_syspa_init || db.db_wtc_init || db.db_hard_init then
    unchanged "Database initialization error".data
  else
    match (if 0 < hw_recno then db.dhc_terminal_server_ip hw_recno else none) with
    | some dhc_terminal_server_ip =>
      if ipAddress ≠ dhc_terminal_server_ip then
        if ipMethodConfigured = "DHCP  ".data ∨ ipMethodActual = "DHCP  ".data then
          if db.db_hard_write_error then
            unchanged "Hardware record network info failed to update".data
          else
            ⟨"Hardware record network info updated".data,
              fun recno =>
                if recno = hw_recno then some (strcpyl ipAddress k.IP_LENGTH)
                else db.dhc_terminal_server_ip recno,
              [hw_recno]⟩
        else
          unchanged ("Hardware record network info not changed (non-DHCP address provided "
            ++ "by Omni, and don't want to obliterate a potentially purposeful database "
            ++ "field)").data
      else
        unchanged
          "Hardware record network info not changed (IP provided by Omni matches what's in database)".data
    | none => unchanged "Could not set currency".data

/-- What the branches of `main` print: the argument `respond` of `main` for the branches
in the sources. What the redacted branches print is the parameter `redacted`. -/
def main_branch (k : CgiConsts) (db : CgiDatabase)
    (message_data : Nat → CStr → CStr → Option (CStr × CStr))
    (redacted : Nat → List CStr → Option CStr) : Action → List CStr → Option CStr
  | Action.redacted n, fields => redacted n fields
  | Action.evolutionGetActiveMessagesForDevice, fields =>
    some (evolutionGetActiveMessagesForDevice k db fields)
  | Action.evolutionGetBannerMessageRecord, _ => some (evolutionGetBannerMessageRecord db)
  | Action.evolutionGetActiveMessagesForDevice_recnosOnly, fields =>
    (evolutionGetActiveMessagesForDevice_recnosOnly k db fields).map Prod.fst
  | Action.evolutionGetActiveMessagesForDevice_countsOnly, _ =>
    (evolutionGetActiveMessagesForDevice_countsOnly db).map Prod.fst
  | Action.evolutionGetActiveMessagesForDevice_likeShowSignMsgsScreen, _ =>
    evolutionGetActiveMessagesForDevice_likeShowSignMsgsScreen db
  | Action.evolutionGetActiveMessagesForDevice_serverPushTriggerUpdateDeviceStatus, _ =>
    some (evolutionGetActiveMessagesForDevice_serverPushTriggerUpdateDeviceStatus db)
  | Action.evolutionGetMessageDataForRecnoZX, fields =>
    evolutionGetMessageDataForRecnoZX k db message_data fields
  | Action.evolutionReportNetworkInfo, fields =>
    some (evolutionReportNetworkInfo k db fields).stdout
  | Action.no_command_found, _ => some "No command found\n".data

/-! ## smajax.c: the message object of `evolutionGetMessageDataForRecnoZX` -/

/-- The banner record that `db_bann_setcur(recno_zx)` gives the branch
`evolutionGetMessageDataForRecnoZX`: the fields and lookup results of the dispatcher's
`BannerView` (the lookups are those that the branch makes: the sign records of the device
id of the request, and `BannerFindMultimediaFile` for template record 0, the value that
the local `template_recno` keeps), the field `dbb_parent_record`, and the five parts of
the message text. -/
structure CgiBanner where
  view : BannerView
  dbb_parent_record : Nat
  dbb_msg_1 : CStr
  dbb_msg_2 : CStr
  dbb_msg_3 : CStr
  dbb_msg_4 : CStr
  dbb_msg_5 : CStr

/-- The text in the buffer `message` of the branch `evolutionGetMessageDataForRecnoZX`:
the five parts of the message text of the record, as they are stored. -/
def recno_zx_message (k : CgiConsts) (bann : CgiBanner) : CStr :=
  strcatl
    (strcatl
      (strcatl
        (strcatl (strcpyl bann.dbb_msg_1 k.PAGE_MESSAGE_LENGTH) bann.dbb_msg_2
          k.PAGE_MESSAGE_LENGTH)
        bann.dbb_msg_3 k.PAGE_MESSAGE_LENGTH)
      bann.dbb_msg_4 k.PAGE_MESSAGE_LENGTH)
    bann.dbb_msg_5 k.PAGE_MESSAGE_LENGTH

/-- The pieces that the branch `evolutionGetMessageDataForRecnoZX` appends to
`json_bannmsg` for a record that `db_bann_setcur` found, from `"signseqnum":-1` to the
closing brace that ends them; `none` as for `webpageurl_pieces`. -/
def recno_zx_pieces (c : Consts) (k : CgiConsts) (bann : CgiBanner) (recno_zx : Nat) :
    Option (List Piece) :=
  match webpageurl_pieces c bann.view with
  | none => none
  | some webpageurl =>
    some ([Piece.cat "\"signseqnum\":-1".data,
      Piece.cat ",\"recno_zx\":".data, Piece.cat (quoted_recno recno_zx),
      Piece.cat ",\"dbb_rec_dtsec\":".data, Piece.cat "\"".data,
      Piece.cat (remove_leading_space bann.view.dbb_rec_dtsec), Piece.cat "\"".data,
      Piece.cat ",\"recno_template\":".data, Piece.cat (quoted_recno bann.dbb_parent_record)]
    ++ int_field_pieces ",\"dbb_duration\":".data bann.view.dbb_duration
    ++ [Piece.cat ",\"msgtype\":".data, Piece.cat "\"".data,
      Piece.cat (c.bb_alert_status (atoi_char bann.view.dbb_alert_status)),
      Piece.cat "\"".data,
      Piece.cat ",\"msgtext\":".data, Piece.cat "\"".data,
      Piece.cat (recno_zx_message k bann), Piece.cat "\"".data,
      Piece.cat ",\"msgdetails\":".data, Piece.cat "\"".data, Piece.cat [], Piece.cat "\"".data,
      Piece.cat ",\"dsi_audio_group_name\":".data, Piece.cat "[".data]
    ++ string_array_pieces true bann.view.dsi_audio_group_names
    ++ [Piece.cat "]".data, Piece.cat ",\"dbb_audio_groups\":".data, Piece.cat "[".data]
    ++ audio_groups_pieces c bann.view
    ++ [Piece.cat "]".data]
    ++ int_field_pieces ",\"dbb_playtime_duration\":".data bann.view.dbb_playtime_duration
    ++ int_field_pieces ",\"dbb_flasher_duration\":".data bann.view.dbb_flasher_duration
    ++ char_field_pieces ",\"dbb_light_signal\":".data bann.view.dbb_light_signal
    ++ int_field_pieces ",\"dbb_light_duration\":".data bann.view.dbb_light_duration
    ++ int_field_pieces ",\"dbb_audio_tts_gain\":".data bann.view.dbb_audio_tts_gain
    ++ char_field_pieces ",\"dbb_flash_new_message\":".data bann.view.dbb_flash_new_message
    ++ char_field_pieces ",\"dbb_visible_time\":".data bann.view.dbb_visible_time
    ++ char_field_pieces ",\"dbb_visible_frequency\":".data bann.view.dbb_visible_frequency
    ++ char_field_pieces ",\"dbb_visible_duration\":".data bann.view.dbb_visible_duration
    ++ int_field_pieces ",\"dbb_record_voice_at_launch_selection\":".data
        bann.view.dbb_record_voice_at_launch_selection
    ++ char_field_pieces ",\"dbb_record_voice_at_launch\":".data
        bann.view.dbb_record_voice_at_launch
    ++ int_field_pieces ",\"dbb_audio_recorded_gain\":".data bann.view.dbb_audio_recorded_gain
    ++ char_field_pieces ",\"dbb_pa_delivery_mode\":".data bann.view.dbb_pa_delivery_mode
    ++ char_field_pieces ",\"dbb_audio_repeat\":".data bann.view.dbb_audio_repeat
    ++ int_field_pieces ",\"dbb_speed\":".data bann.view.dbb_speed
    ++ int_field_pieces ",\"dbb_priority\":".data bann.view.dbb_priority
    ++ int_field_pieces ",\"dbb_expire_priority\":".data bann.view.dbb_expire_priority
    ++ int_field_pieces ",\"dbb_priority_duration\":".data bann.view.dbb_priority_duration
    ++ [Piece.cat ",\"multimediatype\":".data, Piece.cat "\"".data,
      Piece.cat bann.view.multimedia_type_str, Piece.cat "\"".data]
    ++ int_field_pieces ",\"dbb_multimedia_audio_gain\":".data
        bann.view.dbb_multimedia_audio_gain
    ++ [Piece.cat ",\"webpageurl\":".data]
    ++ webpageurl
    ++ [Piece.cat ",\"dbb_launch_pin\":".data, Piece.cat "\"".data,
      Piece.cat bann.view.dbb_launch_pin, Piece.cat "\"".data,
      Piece.cat ",\"dss_gender\":".data, Piece.cat "\"".data,
      Piece.cat (bann.view.dss_gender.getD []), Piece.cat "\"".data,
      Piece.cat "\x7d".data])

/-- The `else` part of the initialisation test of the branch
`evolutionGetMessageDataForRecnoZX`: what it prints, and the text in `json_bannmsg`
afterwards. `db_bann_setcur` gives the record with a number, with the lookups made for a
device id, when it exists. -/
def recno_zx_message_data (c : Consts) (k : CgiConsts)
    (db_bann_setcur : Nat → CStr → Option CgiBanner) (recno_zx : Nat)
    (hardware_deviceid json_bannmsg : CStr) : Option (CStr × CStr) :=
  match db_bann_setcur recno_zx hardware_deviceid with
  | some bann =>
    match recno_zx_pieces c k bann recno_zx with
    | none => none
    | some pieces => (build k.MAX_CHARS json_bannmsg pieces).map (fun json => ([], json))
  | none => some ("Could not set currency".data, json_bannmsg)

/-! ## The form encoding and the response entries as the specification words them -/

/-- The value of a hexadecimal digit, upper or lower case; `none` for another
character. -/
def hex_digit_value (c : Char) : Option Nat :=
  if '0'.toNat ≤ c.toNat ∧ c.toNat ≤ '9'.toNat then some (c.toNat - '0'.toNat)
  else if 'A'.toNat ≤ c.toNat ∧ c.toNat ≤ 'F'.toNat then some (c.toNat - 'A'.toNat + 10)
  else if 'a'.toNat ≤ c.toNat ∧ c.toNat ≤ 'f'.toNat then some (c.toNat - 'a'.toNat + 10)
  else none

/-- The byte `16*value(h1) + value(h2)` of an escape, for the text behind its `%`; `none`
when that text does not start with two hexadecimal digits. -/
def percent_escape : CStr → Option Nat
  | h1 :: h2 :: _ =>
    match hex_digit_value h1, hex_digit_value h2 with
    | some a, some b => some (16 * a + b)
    | _, _ => none
  | _ => none

/-- The decoding in the words of the specification: a `+` gives a blank, a `%` followed
by two hexadecimal digits gives the byte of the escape, a backtick when that byte is
0x22 or 0x27, and every other character is copied. The number counts the characters of
an escape that are still to be passed over. -/
def spec_form_decode_from : Nat → CStr → CStr
  | _, [] => []
  | skip + 1, _ :: rest => spec_form_decode_from skip rest
  | 0, c :: rest =>
    if c = '+' then ' ' :: spec_form_decode_from 0 rest
    else if c = '%' then
      match percent_escape rest with
      | some byte =>
        (if byte = 0x22 ∨ byte = 0x27 then '`' else Char.ofNat byte)
          :: spec_form_decode_from 2 rest
      | none => c :: spec_form_decode_from 0 rest
    else c :: spec_form_decode_from 0 rest

/-- The decoding of a whole input in the words of the specification. -/
def spec_form_decode (x : CStr) : CStr :=
  spec_form_decode_from 0 x

/-- Every `%` of the text is followed by two hexadecimal digits (the number counts the
characters of an escape that are still to be passed over). -/
def percent_escapes_complete_from : Nat → CStr → Bool
  | _, [] => true
  | skip + 1, _ :: rest => percent_escapes_complete_from skip rest
  | 0, c :: rest =>
    if c = '%' then (percent_escape rest).isSome && percent_escapes_complete_from 2 rest
    else percent_escapes_complete_from 0 rest

/-- Every `%` of the input is followed by two hexadecimal digits. -/
def percent_escapes_complete (x : CStr) : Bool :=
  percent_escapes_complete_from 0 x

/-- The upper-case hexadecimal digit of a value below 16. -/
def hex_digit_char (d : Nat) : Char :=
  if d < 10 then Char.ofNat ('0'.toNat + d) else Char.ofNat ('A'.toNat + (d - 10))

/-- The form encoding of one character in the words of the specification: a blank as
`+`, a letter or digit as itself, every other byte as `%HH`. -/
def form_encode_char (c : Char) : CStr :=
  if c = ' ' then ['+']
  else if c.isAlphanum then [c]
  else ['%', hex_digit_char (c.toNat / 16), hex_digit_char (c.toNat % 16)]

/-- The form encoding of a string. -/
def form_encode : CStr → CStr
  | [] => []
  | c :: x => form_encode_char c ++ form_encode x

/-- A printable ASCII character: a code from 0x20 to 0x7e. -/
def printable_ascii (c : Char) : Prop :=
  32 ≤ c.toNat ∧ c.toNat ≤ 126

instance printable_ascii_decidable (c : Char) : Decidable (printable_ascii c) := by
  unfold printable_ascii
  infer_instance

/-- The string with every `"` and every `'` replaced by a backtick. -/
def quotes_to_backtick (x : CStr) : CStr :=
  x.map (fun c => if c = '"' ∨ c = '\'' then '`' else c)

/-- A sentinel envelope: flag 1 (end of response) or flag 2 (cancel). -/
def is_sentinel (row : SignMessagesRow) : Bool :=
  row.dwc_flag = 1 || row.dwc_flag = 2

/-- The type name of the specification for a `message_type`. -/
def message_type_name (message_type : Nat) : CStr :=
  if message_type = 1 then "active".data
  else if message_type = 2 then "waiting".data
  else if message_type = 3 then "hidden".data
  else "unknown".data

/-- The entry `{"recno":"R","type":"T"}` of an envelope in the response of the
action `evolutionGetActiveMessagesForDevice_recnosOnly`. -/
def recno_type_entry (row : SignMessagesRow) : CStr :=
  "\x7b\"recno\":\"".data ++ FORMAT_DBRECORD_STR row.dwc_record_num ++ "\",\"type\":\"".data
    ++ message_type_name row.dwc_message_type ++ "\"\x7d".data

/-- The envelopes of a stream of reads that the specification lists: those with a
positive record number, in stream order. -/
def listed_rows (reads : List (Option SignMessagesRow)) : List SignMessagesRow :=
  (reads.filterMap id).filter (fun row => decide (0 < row.dwc_record_num))

/-- The response of the action `evolutionGetActiveMessagesForDevice_recnosOnly` for a
device and the envelopes to list: `{"hwRecno":"R","activeMessages":[e1,…,en]}`. -/
def recnos_response (hw_recno : Nat) (rows : List SignMessagesRow) : CStr :=
  "\x7b\"hwRecno\":\"".data ++ FORMAT_DBRECORD_STR hw_recno
    ++ "\",\"activeMessages\":[".data ++ ",".data.intercalate (rows.map recno_type_entry)
    ++ "]\x7d".data

/-- A line as a file stores it: it ends with its newline, has no other newline, and is
shorter than a read buffer of `size` bytes. -/
def stored_line (size : Nat) (l : CStr) : Prop :=
  l.getLast? = some '\n' ∧ '\n' ∉ l.dropLast ∧ l.length < size

instance stored_line_decidable (size : Nat) (l : CStr) : Decidable (stored_line size l) := by
  unfold stored_line
  infer_instance

/-- The escaping of a message text without sign commands as the specification words it:
a double quote becomes a backslash and the double quote, a carriage-return character and
a block character are dropped, every other character is kept. -/
def escaped_text (c : Consts) : CStr → CStr
  | [] => []
  | ch :: rest =>
    (if ch = '"' then ['\\', '"']
      else if ch = c.SIGN_CR ∨ ch = c.SIGN_BLOCK_CHARACTER then []
      else [ch]) ++ escaped_text c rest

/-- Every double quote of a text is immediately preceded by a backslash. -/
def quotes_escaped (text : CStr) : Prop :=
  ∀ before after : CStr, text = before ++ '"' :: after → ∃ start, before = start ++ ['\\']

/-- What a colour command adds to the output, in closed form: under `USE_AND_COLOR` the
token `{key=name}` when the colour differs from the current one and the inner `switch`
has a name for it; nothing otherwise. -/
def emitted_color_token (c : Consts) (key : CStr) (current new : Char) : CStr :=
  if c.USE_AND_COLOR = true ∧ current ≠ new then
    match color_token_name c new with
    | some name => "\x7b".data ++ key ++ "=".data ++ name ++ "\x7d".data
    | none => []
  else []

/-- Where a scan of a JSON text for member names stands: outside a string, inside a
string (with the characters read so far, last first), behind a backslash inside a
string, or behind the quote that closed a string. -/
inductive KeyScan
  | outside
  | inside (name : CStr)
  | escaped (name : CStr)
  | closed (name : CStr)

/-- The names of the members of the rest of a JSON text, in the order in which they
appear: the strings between double quotes that a colon follows. -/
def object_keys_from : KeyScan → CStr → List CStr
  | _, [] => []
  | KeyScan.outside, ch :: rest =>
    if ch = '"' then object_keys_from (KeyScan.inside []) rest
    else object_keys_from KeyScan.outside rest
  | KeyScan.inside name, ch :: rest =>
    if ch = '"' then object_keys_from (KeyScan.closed name) rest
    else if ch = '\\' then object_keys_from (KeyScan.escaped (ch :: name)) rest
    else object_keys_from (KeyScan.inside (ch :: name)) rest
  | KeyScan.escaped name, ch :: rest => object_keys_from (KeyScan.inside (ch :: name)) rest
  | KeyScan.closed name, ch :: rest =>
    if ch = ':' then name.reverse :: object_keys_from KeyScan.outside rest
    else if ch = '"' then object_keys_from (KeyScan.inside []) rest
    else object_keys_from KeyScan.outside rest

/-- The names of the members of a JSON text in the order in which they appear. -/
def object_keys (text : CStr) : List CStr :=
  object_keys_from KeyScan.outside text

/-- The member names of the per-message object of the dispatcher, in order. -/
def dispatcher_object_keys : List CStr :=
  ["signseqnum".data, "dbb_rec_dtsec".data, "recno_zx".data, "recno_template".data,
    "dbb_duration".data, "msgtype".data, "msgtext".data, "msgdetails".data,
    "dsi_audio_group_name".data, "dbb_audio_groups".data, "dbb_playtime_duration".data,
    "dbb_flasher_duration".data, "dbb_light_signal".data, "dbb_light_duration".data,
    "dbb_audio_tts_gain".data, "dbb_flash_new_message".data, "dbb_visible_time".data,
    "dbb_visible_frequency".data, "dbb_visible_duration".data,
    "dbb_record_voice_at_launch_selection".data, "dbb_record_voice_at_launch".data,
    "dbb_audio_recorded_gain".data, "dbb_pa_delivery_mode".data, "dbb_audio_repeat".data,
    "dbb_speed".data, "dbb_priority".data, "dbb_expire_priority".data,
    "dbb_priority_duration".data, "dbb_page_priority_at_launch".data, "multimediatype".data,
    "dbb_multimedia_audio_gain".data, "webpageurl".data, "dbb_launch_pin".data,
    "dss_gender".data]

/-- An example assignment of the constants of the CGI handler; the example of
`AlphaToRecordNumber` reads the decimal digits that start the text. -/
def example_cgi_consts : CgiConsts :=
  { MAX_CHARS := 4000
    IP_LENGTH := 16
    DEVICEID_LENGTH := 20
    PAGE_MESSAGE_LENGTH := 1000
    AlphaToRecordNumber := fun text =>
      (text.takeWhile Char.isDigit).foldl (fun n c => 10 * n + (c.toNat - '0'.toNat)) 0 }

/-- An example database: every table opens, the round trip answers with two active
messages (345 and 346) and the end-of-response sentinel, hardware record 363 has the
address 192.168.1.50, and the journal of device 363 holds two lines. -/
def example_database : CgiDatabase :=
  { db_syspa_init := false
    db_wtc_init := false
    db_bann_init := false
    db_list_init := false
    db_signs_init := false
    db_hard_init := false
    db_staff_init := false
    command_wtc_write_error := false
    command_wtc_read := [some ⟨0, 345, 1⟩, none, some ⟨0, 346, 1⟩, some ⟨1, 0, 0⟩, some ⟨0, 347, 2⟩]
    dhc_terminal_server_ip := fun recno =>
      if recno = 363 then some "192.168.1.50   ".data else none
    db_hard_write_error := false
    fopen := fun name =>
      if name = "/home/silentm/record/evolutionActiveMsgs.363.json".data then
        some "\x7b\"signseqnum\":0\x7d\n\x7b\"signseqnum\":1\x7d\n".data
      else none }

/-- The example database when `db_syspa_init` reports an error. -/
def example_database_init_error : CgiDatabase :=
  { example_database with db_syspa_init := true }

/-- An example for the part of the branch `evolutionGetMessageDataForRecnoZX` that is a
parameter: it prints nothing and adds nothing to `json_bannmsg`. -/
def example_message_data (_recno_zx : Nat) (_hardware_deviceid json_bannmsg : CStr) :
    Option (CStr × CStr) :=
  some ([], json_bannmsg)

/-- An example record of the banner database as the CGI branch reads it: the example
banner record 345, launched from template 305, with the message text `Test 2`. -/
def example_cgi_banner : CgiBanner :=
  { view := example_banner
    dbb_parent_record := 305
    dbb_msg_1 := "Test 2".data
    dbb_msg_2 := []
    dbb_msg_3 := []
    dbb_msg_4 := []
    dbb_msg_5 := [] }

/-- An example banner database for the CGI branch: only record 345 exists. -/
def example_cgi_db (recno : Nat) (_hardware_deviceid : CStr) : Option CgiBanner :=
  if recno = 345 then some example_cgi_banner else none

/-- The response of the example CGI process to a request for the message data of record
345. -/
def example_recno_zx_response : Option CStr :=
  main [] (main_branch example_cgi_consts example_database
      (recno_zx_message_data example_consts example_cgi_consts example_cgi_db)
      (fun _ _ => none))
    "evolutionGetMessageDataForRecnoZX=1&msgrecno=345&deviceid=OMNI1".data

/-- The per-message object that the dispatcher renders for a new message of record 345
in slot 0, launched from template 305, with the message text `Test 2`. -/
def example_dispatcher_object : Option CStr :=
  match message_object_tail example_consts example_banner with
  | none => none
  | some tail =>
    build 4000 []
      (message_object_head example_consts example_banner 345 0 305
        ++ Piece.direct "Test 2".data :: tail)

/-! ## Theorems -/

set_option maxRecDepth 100000

/-! ### Decimal formatting -/

theorem digitChar_toNat (d : Nat) (h : d < 10) : (Nat.digitChar d).toNat - 48 = d := by
  interval_cases d <;> rfl

theorem digitChar_isDigit (d : Nat) (h : d < 10) : (Nat.digitChar d).isDigit = true := by
  interval_cases d <;> rfl

theorem toDigitsCore_decode (fuel n : Nat) (ds : List Char) (h : n < fuel) :
    (Nat.toDigitsCore 10 fuel n ds).foldl (fun a c => 10 * a + (c.toNat - 48)) 0
      = ds.foldl (fun a c => 10 * a + (c.toNat - 48)) n := by
  induction fuel generalizing n ds with
  | zero => omega
  | succ fuel ih =>
    unfold Nat.toDigitsCore
    by_cases h0 : n / 10 = 0
    · simp only [h0, if_true, List.foldl_cons, Nat.mul_zero, Nat.zero_add]
      rw [digitChar_toNat _ (Nat.mod_lt _ (by decide))]
      congr 1
      omega
    · simp only [h0, if_false]
      rw [ih (n / 10) _ (by omega), List.foldl_cons,
        digitChar_toNat _ (Nat.mod_lt _ (by decide))]
      congr 1
      omega

theorem FORMAT_DBRECORD_STR_injective (a b : Nat)
    (h : FORMAT_DBRECORD_STR a = FORMAT_DBRECORD_STR b) : a = b := by
  have ha := toDigitsCore_decode (a + 1) a [] (by omega)
  have hb := toDigitsCore_decode (b + 1) b [] (by omega)
  simp only [FORMAT_DBRECORD_STR, Nat.toDigits] at h
  rw [h, hb] at ha
  simpa using ha.symm

theorem toDigitsCore_isDigit (fuel n : Nat) (ds : List Char) (c : Char)
    (hc : c ∈ Nat.toDigitsCore 10 fuel n ds) : c ∈ ds ∨ c.isDigit = true := by
  induction fuel generalizing n ds with
  | zero => left; simpa [Nat.toDigitsCore] using hc
  | succ fuel ih =>
    unfold Nat.toDigitsCore at hc
    by_cases h0 : n / 10 = 0
    · simp only [h0, if_true, List.mem_cons] at hc
      rcases hc with h | h
      · right; rw [h]; exact digitChar_isDigit _ (Nat.mod_lt _ (by decide))
      · left; exact h
    · simp only [h0, if_false] at hc
      rcases ih _ _ hc with h | h
      · rcases List.mem_cons.mp h with h | h
        · right; rw [h]; exact digitChar_isDigit _ (Nat.mod_lt _ (by decide))
        · left; exact h
      · right; exact h

theorem FORMAT_DBRECORD_STR_isDigit (n : Nat) (c : Char) (hc : c ∈ FORMAT_DBRECORD_STR n) :
    c.isDigit = true := by
  rcases toDigitsCore_isDigit _ _ _ _ hc with h | h
  · simp at h
  · exact h

/-! ### `strtok` and `fgets` on text of a known shape -/

theorem takeWhile_append_stop (p : Char → Bool) (t : CStr) (d : Char) (r : CStr)
    (ht : ∀ c ∈ t, p c = true) (hd : p d = false) : (t ++ d :: r).takeWhile p = t := by
  induction t with
  | nil => simp [List.takeWhile, hd]
  | cons x t ih =>
    have hx := ht x (List.mem_cons_self _ _)
    simp only [List.cons_append, List.takeWhile_cons, hx, if_true]
    rw [ih (fun c hc => ht c (List.mem_cons_of_mem _ hc))]

theorem dropWhile_append_stop (p : Char → Bool) (t : CStr) (d : Char) (r : CStr)
    (ht : ∀ c ∈ t, p c = true) (hd : p d = false) : (t ++ d :: r).dropWhile p = d :: r := by
  induction t with
  | nil => simp [List.dropWhile, hd]
  | cons x t ih =>
    have hx := ht x (List.mem_cons_self _ _)
    simp only [List.cons_append, List.dropWhile_cons, hx, if_true]
    exact ih (fun c hc => ht c (List.mem_cons_of_mem _ hc))

theorem strtok_token (d : Char) (t r : CStr) (ht : t ≠ []) (hd : d ∉ t) :
    strtok [d] (t ++ d :: r) = (some t, r) := by
  have hp : ∀ c ∈ t, (!decide (c ∈ ([d] : CStr))) = true := by
    intro c hc
    have : c ≠ d := fun h => hd (h ▸ hc)
    simp [this]
  have hq : (!decide (d ∈ ([d] : CStr))) = false := by simp
  cases t with
  | nil => exact absurd rfl ht
  | cons x t =>
    have hx : decide (x ∈ ([d] : CStr)) = false := by
      have := hp x (List.mem_cons_self _ _)
      simpa using this
    have e1 := takeWhile_append_stop _ (x :: t) d r hp hq
    have e2 := dropWhile_append_stop _ (x :: t) d r hp hq
    have e0 : ((x :: t) ++ d :: r).dropWhile (fun c => decide (c ∈ ([d] : CStr)))
        = x :: (t ++ d :: r) := by
      simp only [List.cons_append, List.dropWhile_cons, hx, Bool.false_eq_true, if_false]
    unfold strtok
    rw [e0]
    simp only [List.cons_append] at e1 e2
    simp only [e1, e2, List.tail_cons]

theorem recno_token_loop_fields (strRecno v rest : CStr) (hv : v ≠ []) (hvc : ',' ∉ v)
    (fields : List (CStr × CStr))
    (hf : ∀ f ∈ fields,
      f.1 ≠ [] ∧ ':' ∉ f.1 ∧ f.1 ≠ recno_zx_name ∧ f.2 ≠ [] ∧ ',' ∉ f.2)
    (fuel : Nat) (hfuel : fields.length < fuel) :
    recno_token_loop strRecno fuel
      (fields_text fields ++ (recno_zx_name ++ ':' :: (v ++ ',' :: rest)))
      = some (if v = strRecno then 1 else 0) := by
  induction fields generalizing fuel with
  | nil =>
    cases fuel with
    | zero => simp at hfuel
    | succ fuel =>
      have h1 := strtok_token ':' recno_zx_name (v ++ ',' :: rest) (by decide) (by decide)
      have h2 := strtok_token ',' v rest hv hvc
      simp only [fields_text, List.nil_append, recno_token_loop, h1, h2, if_true]
  | cons f fields ih =>
    cases fuel with
    | zero => simp at hfuel
    | succ fuel =>
      obtain ⟨k1, k2, k3, k4, k5⟩ := hf f (List.mem_cons_self _ _)
      have h1 := strtok_token ':' f.1
        (f.2 ++ ',' :: (fields_text fields
          ++ (recno_zx_name ++ ':' :: (v ++ ',' :: rest)))) k1 k2
      have h2 := strtok_token ',' f.2
        (fields_text fields ++ (recno_zx_name ++ ':' :: (v ++ ',' :: rest))) k4 k5
      have e : fields_text (f :: fields) ++ (recno_zx_name ++ ':' :: (v ++ ',' :: rest))
          = f.1 ++ ':' :: (f.2 ++ ',' :: (fields_text fields
              ++ (recno_zx_name ++ ':' :: (v ++ ',' :: rest)))) := by
        simp [fields_text, List.append_assoc]
      rw [e]
      simp only [recno_token_loop, h1, k3, if_false, h2]
      exact ih (fun g hg => hf g (List.mem_cons_of_mem _ hg)) fuel
        (by simp only [List.length_cons] at hfuel; omega)

theorem remove_trailing_space_quoted (t : CStr) :
    remove_trailing_space ('"' :: t ++ ['"']) = '"' :: t ++ ['"'] := by
  unfold remove_trailing_space
  exact List.rdropWhile_concat_neg _ _ _ (by decide)

theorem quoted_recno_no_comma (n : Nat) : ',' ∉ '"' :: FORMAT_DBRECORD_STR n ++ ['"'] := by
  intro h
  simp only [List.cons_append, List.mem_cons, List.mem_append, List.mem_singleton,
    List.mem_nil_iff, or_false] at h
  rcases h with h | h | h
  · exact absurd h (by decide)
  · have := FORMAT_DBRECORD_STR_isDigit n ',' h
    exact absurd this (by decide)
  · exact absurd h (by decide)

theorem quoted_recno_eq_iff (a b : Nat) :
    ('"' :: FORMAT_DBRECORD_STR a ++ ['"'] = '"' :: FORMAT_DBRECORD_STR b ++ ['"']) ↔ a = b := by
  constructor
  · intro h
    simp only [List.cons_append, List.cons.injEq, true_and] at h
    exact FORMAT_DBRECORD_STR_injective a b (List.append_cancel_right h)
  · intro h; rw [h]

theorem fields_text_length (fields : List (CStr × CStr)) :
    fields.length ≤ (fields_text fields).length := by
  induction fields with
  | nil => simp
  | cons f fields ih =>
    simp only [fields_text, List.length_cons, List.length_append]
    omega

theorem does_recno_exist_in_json_line_text (size : Nat) (m : MsgLine)
    (hm : m.well_formed size) (tail : CStr) (recno : Nat) :
    does_recno_exist_in_json_line (m.text ++ tail) recno
      = some (if m.recno_zx = recno then 1 else 0) := by
  obtain ⟨h1, h2, h3, _, _⟩ := hm
  have e : m.text ++ tail = m.first ++ ',' ::
      (fields_text m.fields
        ++ (recno_zx_name ++ ':' :: (('"' :: FORMAT_DBRECORD_STR m.recno_zx ++ ['"'])
          ++ ',' :: (m.rest ++ tail)))) := by
    simp [MsgLine.text, List.append_assoc]
  have hlen := fields_text_length m.fields
  unfold does_recno_exist_in_json_line
  rw [remove_trailing_space_quoted, e, strtok_token ',' m.first _ h1 h2]
  simp only
  rw [recno_token_loop_fields _ _ _ (by simp) (quoted_recno_no_comma _) _ h3 _
    (by simp only [List.length_append, List.length_cons]; omega)]
  simp only [quoted_recno_eq_iff]

theorem fgets_line (l rest : CStr) (room : Nat) (hl : '\n' ∉ l) (hroom : l.length < room) :
    fgets room (l ++ '\n' :: rest) = (l ++ ['\n'], rest) := by
  induction l generalizing room with
  | nil =>
    cases room with
    | zero => simp at hroom
    | succ room => simp [fgets]
  | cons x l ih =>
    cases room with
    | zero => simp at hroom
    | succ room =>
      have hx : x ≠ '\n' := fun h => hl (h ▸ List.mem_cons_self _ _)
      have hl2 : '\n' ∉ l := fun h => hl (List.mem_cons_of_mem _ h)
      simp only [List.length_cons] at hroom
      have h := ih room hl2 (by omega)
      show fgets (room + 1) (x :: (l ++ '\n' :: rest)) = (x :: (l ++ ['\n']), rest)
      rw [fgets, if_neg hx, h]

theorem journal_text_cons (m : MsgLine) (ms : List MsgLine) :
    journal_text (m :: ms) = m.text ++ '\n' :: journal_text ms := by
  simp [journal_text]

theorem read_lines_journal (size : Nat) (ms : List MsgLine)
    (hwf : ∀ m ∈ ms, m.well_formed size) (fuel : Nat)
    (hfuel : (journal_text ms).length ≤ fuel) :
    read_lines size fuel (journal_text ms) = ms.map (fun m => m.text ++ ['\n']) := by
  induction ms generalizing fuel with
  | nil => cases fuel <;> simp [journal_text, read_lines]
  | cons m ms ih =>
    obtain ⟨h1, _, _, h4, h5⟩ := hwf m (List.mem_cons_self _ _)
    rw [journal_text_cons] at hfuel ⊢
    have hfg := fgets_line m.text (journal_text ms) (size - 1) h4 (by omega)
    have hne : m.text ≠ [] := by
      intro h
      simp [MsgLine.text] at h
    obtain ⟨c, t, hct⟩ := List.exists_cons_of_ne_nil hne
    cases fuel with
    | zero => simp at hfuel
    | succ fuel =>
      rw [hct] at hfg ⊢
      simp only [List.cons_append] at hfg ⊢
      simp only [read_lines, hfg, List.map_cons, hct, List.cons_append]
      rw [ih (fun g hg => hwf g (List.mem_cons_of_mem _ hg)) fuel
        (by simp only [hct, List.length_append, List.length_cons] at hfuel; omega)]

theorem remove_msg_json_loop_journal (size : Nat) (ms : List MsgLine)
    (hwf : ∀ m ∈ ms, m.well_formed size) (recno : Nat) :
    remove_msg_json_loop recno (ms.map (fun m => m.text ++ ['\n']))
      = some (journal_text (ms.filter (fun m => decide (m.recno_zx ≠ recno)))) := by
  induction ms with
  | nil => simp [remove_msg_json_loop, journal_text]
  | cons m ms ih =>
    have h := does_recno_exist_in_json_line_text size m (hwf m (List.mem_cons_self _ _))
      ['\n'] recno
    simp only [List.map_cons, remove_msg_json_loop, h,
      ih (fun g hg => hwf g (List.mem_cons_of_mem _ hg))]
    by_cases hr : m.recno_zx = recno
    · simp [hr]
    · simp [hr, journal_text_cons]

theorem remove_msg_json_from_file_journal (size : Nat) (ms : List MsgLine)
    (hwf : ∀ m ∈ ms, m.well_formed size) (recno : Nat) :
    remove_msg_json_from_file size (some (journal_text ms)) recno
      = some (some (journal_text (ms.filter (fun m => decide (m.recno_zx ≠ recno))))) := by
  simp only [remove_msg_json_from_file, read_lines_journal size ms hwf _ (le_refl _),
    remove_msg_json_loop_journal size ms hwf recno]

/-- C6. On a journal of well-formed message lines, `remove_msg_json_from_file(r)` leaves
exactly the lines whose `recno_zx` is not `r`, byte for byte and in their order; hence a
record number that no line carries leaves the content unchanged, removing twice equals
removing once, and a missing journal stays missing. -/
theorem remove_msg_json_from_file_correct (size : Nat) (ms : List MsgLine)
    (hwf : ∀ m ∈ ms, m.well_formed size) (recno : Nat) :
    remove_msg_json_from_file size (some (journal_text ms)) recno
        = some (some (journal_text (ms.filter (fun m => decide (m.recno_zx ≠ recno)))))
      ∧ ((∀ m ∈ ms, m.recno_zx ≠ recno) →
          remove_msg_json_from_file size (some (journal_text ms)) recno
            = some (some (journal_text ms)))
      ∧ (remove_msg_json_from_file size (some (journal_text ms)) recno).bind
          (fun j => remove_msg_json_from_file size j recno)
          = remove_msg_json_from_file size (some (journal_text ms)) recno
      ∧ remove_msg_json_from_file size none recno = some none := by
  have h := remove_msg_json_from_file_journal size ms hwf recno
  refine ⟨h, ?_, ?_, rfl⟩
  · intro hne
    rw [h]
    congr 3
    exact List.filter_eq_self.mpr (fun m hm => by simpa using hne m hm)
  · rw [h, Option.some_bind,
      remove_msg_json_from_file_journal size _
        (fun m hm => hwf m (List.mem_of_mem_filter hm)) recno, List.filter_filter]
    simp

/-- Witness of C6: removing record 345 from a journal that holds the lines of records 345
and 346. -/
theorem remove_msg_json_from_file_correct_witness :
    remove_msg_json_from_file 256
        (some (journal_text [example_line_345, example_line_346])) 345
        = some (some (journal_text
            ([example_line_345, example_line_346].filter
              (fun m => decide (m.recno_zx ≠ 345)))))
      ∧ ((∀ m ∈ [example_line_345, example_line_346], m.recno_zx ≠ 345) →
          remove_msg_json_from_file 256
            (some (journal_text [example_line_345, example_line_346])) 345
            = some (some (journal_text [example_line_345, example_line_346])))
      ∧ (remove_msg_json_from_file 256
          (some (journal_text [example_line_345, example_line_346])) 345).bind
          (fun j => remove_msg_json_from_file 256 j 345)
          = remove_msg_json_from_file 256
              (some (journal_text [example_line_345, example_line_346])) 345
      ∧ remove_msg_json_from_file 256 none 345 = some none :=
  remove_msg_json_from_file_correct 256 [example_line_345, example_line_346]
    (by decide) 345

/-! ### Journal uniqueness -/

theorem does_recno_exist_in_lines_journal (size : Nat) (ms : List MsgLine)
    (hwf : ∀ m ∈ ms, m.well_formed size) (recno : Nat) :
    does_recno_exist_in_lines recno (ms.map (fun m => m.text ++ ['\n']))
      = some ((ms.map MsgLine.recno_zx).count recno) := by
  induction ms with
  | nil => simp [does_recno_exist_in_lines]
  | cons m ms ih =>
    have h := does_recno_exist_in_json_line_text size m (hwf m (List.mem_cons_self _ _))
      ['\n'] recno
    simp only [List.map_cons, does_recno_exist_in_lines, h,
      ih (fun g hg => hwf g (List.mem_cons_of_mem _ hg)), List.count_cons]
    by_cases hr : m.recno_zx = recno
    · simp [hr, Nat.add_comm]
    · simp [hr]

theorem does_recno_exist_in_file_journal (size : Nat) (ms : List MsgLine)
    (hwf : ∀ m ∈ ms, m.well_formed size) (recno : Nat) :
    does_recno_exist_in_file size (some (journal_text ms)) recno
      = some ((ms.map MsgLine.recno_zx).count recno) := by
  simp only [does_recno_exist_in_file, read_lines_journal size ms hwf _ (le_refl _),
    does_recno_exist_in_lines_journal size ms hwf recno]

theorem journal_text_append (ms : List MsgLine) (m : MsgLine) :
    journal_text ms ++ m.text ++ ['\n'] = journal_text (ms ++ [m]) := by
  simp [journal_text]

theorem journal_call_keeps_unique (size : Nat) (ms : List MsgLine)
    (hwf : ∀ m ∈ ms, m.well_formed size) (hnd : (ms.map MsgLine.recno_zx).Nodup)
    (journal : Journal) (hj : journal = some (journal_text ms) ∨ (journal = none ∧ ms = []))
    (call : JournalCall) (hfresh : calls_fresh size journal [call] = true) :
    ∃ ms1 journal1, journal_call size journal call = some journal1
      ∧ (∀ m ∈ ms1, m.well_formed size) ∧ (ms1.map MsgLine.recno_zx).Nodup
      ∧ (journal1 = some (journal_text ms1) ∨ (journal1 = none ∧ ms1 = [])) := by
  cases call with
  | remove recno =>
    rcases hj with hj | ⟨hj, hms⟩
    · refine ⟨ms.filter (fun m => decide (m.recno_zx ≠ recno)), _, ?_, ?_, ?_, Or.inl rfl⟩
      · rw [hj]
        exact remove_msg_json_from_file_journal size ms hwf recno
      · exact fun m hm => hwf m (List.mem_of_mem_filter hm)
      · exact hnd.sublist ((List.filter_sublist _).map _)
    · refine ⟨[], none, ?_, by simp, by simp, Or.inr ⟨rfl, rfl⟩⟩
      rw [hj]
      rfl
  | append stack m =>
    simp only [calls_fresh, Bool.and_eq_true, decide_eq_true_eq] at hfresh
    obtain ⟨⟨⟨hm, hpct⟩, hzero⟩, _⟩ := hfresh
    have hcount : m.recno_zx ∉ ms.map MsgLine.recno_zx := by
      rcases hj with hj | ⟨hj, hms⟩
      · rw [hj, does_recno_exist_in_file_journal size ms hwf] at hzero
        exact List.count_eq_zero.mp (Option.some.inj hzero)
      · rw [hms]; simp
    have hget : journal.getD [] = journal_text ms := by
      rcases hj with hj | ⟨hj, hms⟩
      · rw [hj]; rfl
      · rw [hj, hms]; rfl
    by_cases hex : does_msg_json_exist_in_file size stack journal m.text = 0
    · refine ⟨ms ++ [m], some (journal_text (ms ++ [m])), ?_, ?_, ?_, Or.inl rfl⟩
      · simp only [journal_call, append_msg_json_to_file, hex, if_true, hpct, if_false, hget,
          journal_text_append]
      · intro g hg
        rcases List.mem_append.mp hg with h | h
        · exact hwf g h
        · rw [List.mem_singleton.mp h]; exact hm
      · rw [List.map_append, List.map_singleton]
        exact List.Nodup.append hnd (List.nodup_singleton _)
          (by simpa [List.Disjoint] using hcount)
    · exact ⟨ms, journal, by simp only [journal_call, append_msg_json_to_file, hex, if_false],
        hwf, hnd, hj⟩

theorem journal_calls_keep_unique (size : Nat) (calls : List JournalCall)
    (ms : List MsgLine) (hwf : ∀ m ∈ ms, m.well_formed size)
    (hnd : (ms.map MsgLine.recno_zx).Nodup) (journal : Journal)
    (hj : journal = some (journal_text ms) ∨ (journal = none ∧ ms = []))
    (hfresh : calls_fresh size journal calls = true) :
    ∃ ms1 journal1, journal_calls size journal calls = some journal1
      ∧ (∀ m ∈ ms1, m.well_formed size) ∧ (ms1.map MsgLine.recno_zx).Nodup
      ∧ (journal1 = some (journal_text ms1) ∨ (journal1 = none ∧ ms1 = [])) := by
  induction calls generalizing ms journal with
  | nil => exact ⟨ms, journal, rfl, hwf, hnd, hj⟩
  | cons call calls ih =>
    have h1 : calls_fresh size journal [call] = true := by
      simp only [calls_fresh, Bool.and_eq_true] at hfresh ⊢
      refine ⟨hfresh.1, ?_⟩
      cases journal_call size journal call <;> rfl
    obtain ⟨ms1, journal1, hcall, hwf1, hnd1, hj1⟩ :=
      journal_call_keeps_unique size ms hwf hnd journal hj call h1
    have h2 : calls_fresh size journal1 calls = true := by
      simp only [calls_fresh, Bool.and_eq_true, hcall] at hfresh
      exact hfresh.2
    obtain ⟨ms2, journal2, hcalls, hwf2, hnd2, hj2⟩ := ih ms1 hwf1 hnd1 journal1 hj1 h2
    exact ⟨ms2, journal2, by simp only [journal_calls, hcall, hcalls], hwf2, hnd2, hj2⟩

/-- C5 as stated fails: two appends of well-formed objects that share `recno_zx` 345 and
differ in sequence number, launch time and message text leave two journal lines for
record 345. -/
theorem journal_recno_zx_not_unique :
    example_line_345.well_formed 256 ∧ example_line_345_changed.well_formed 256
      ∧ (journal_calls 256 none
          [JournalCall.append zero_stack example_line_345,
           JournalCall.append zero_stack example_line_345_changed]).bind
          (fun journal => does_recno_exist_in_file 256 journal 345) = some 2 := by
  decide

/-- C5, amended. Starting from an empty (missing) journal, a sequence of
`append_msg_json_to_file` and `remove_msg_json_from_file` calls in which every appended
object is well formed, has no `%`, and carries a `recno_zx` that is on no line of the
journal at the time of the call, runs to its end and leaves a journal in which every
record number is on at most one line. -/
theorem journal_recno_zx_unique (size : Nat) (calls : List JournalCall)
    (hfresh : calls_fresh size none calls = true) :
    ∃ journal, journal_calls size none calls = some journal
      ∧ ∀ recno, ∃ n, does_recno_exist_in_file size journal recno = some n ∧ n ≤ 1 := by
  obtain ⟨ms, journal, hcalls, hwf, hnd, hj⟩ :=
    journal_calls_keep_unique size calls [] (by simp) (by simp) none
      (Or.inr ⟨rfl, rfl⟩) hfresh
  refine ⟨journal, hcalls, fun recno => ?_⟩
  rcases hj with hj | ⟨hj, _⟩
  · rw [hj, does_recno_exist_in_file_journal size ms hwf]
    exact ⟨_, rfl, List.nodup_iff_count_le_one.mp hnd recno⟩
  · rw [hj]
    exact ⟨0, rfl, Nat.zero_le _⟩

/-- Witness of C5 (amended): records 345 and 346 are appended, 345 is removed and then
appended again with changed content. -/
theorem journal_recno_zx_unique_witness :
    ∃ journal,
      journal_calls 256 none
          [JournalCall.append zero_stack example_line_345,
           JournalCall.append zero_stack example_line_346,
           JournalCall.remove 345,
           JournalCall.append zero_stack example_line_345_changed] = some journal
      ∧ ∀ recno, ∃ n, does_recno_exist_in_file 256 journal recno = some n ∧ n ≤ 1 :=
  journal_recno_zx_unique 256
    [JournalCall.append zero_stack example_line_345,
     JournalCall.append zero_stack example_line_346,
     JournalCall.remove 345,
     JournalCall.append zero_stack example_line_345_changed] (by decide)

/-! ### What the sender and the dispatcher leave unchanged -/

theorem transaction_keeps (size : Nat) (net : Network) (w : World)
    (post_cmd_buf : Option CStr) :
    keeps_records w (transaction size net w post_cmd_buf).world
      ∧ keeps_messages w (transaction size net w post_cmd_buf).world := by
  unfold transaction keeps_records keeps_messages evolution_clear_ip
  split
  · split <;> simp
  · split <;> simp

theorem send_body_keeps (size : Nat) (net : Network) (w : World) (body : CStr) :
    keeps_records w (send_body size net w body).world
      ∧ keeps_messages w (send_body size net w body).world := by
  unfold send_body
  split
  · simp [keeps_records, keeps_messages]
  · exact transaction_keeps _ _ _ _

theorem send_keeps_records (c : Consts) (net : Network) (db_bann : Option BannerView)
    (db_wtc : Envelope) (w : World) (cmd bann_recno sequence_number : Nat) (message : CStr)
    (template_recno : Nat) (sent : SendResult)
    (h : send_to_evolution_appliance_discreteMsg c net db_bann db_wtc w cmd bann_recno
      sequence_number message template_recno = some sent) :
    keeps_records w sent.world := by
  unfold send_to_evolution_appliance_discreteMsg at h
  simp only at h
  split at h
  · cases h; exact (send_body_keeps _ _ _ _).1
  · split at h
    · cases h; exact (send_body_keeps _ _ _ _).1
    · split at h
      · split at h
        · cases h
        · cases h; simp [keeps_records]
        · cases h; exact (send_body_keeps _ _ _ _).1
      · split at h
        · split at h
          · split at h
            · cases h
            · split at h
              · cases h
              · cases h; simp [keeps_records]
              · cases h; exact (send_body_keeps _ _ _ _).1
          · cases h
        · cases h; exact (send_body_keeps _ _ _ _).1

theorem send_keeps_messages (c : Consts) (net : Network) (db_bann : Option BannerView)
    (db_wtc : Envelope) (w : World) (cmd bann_recno sequence_number : Nat) (message : CStr)
    (template_recno : Nat) (sent : SendResult)
    (hcmd : cmd ≠ BANNER_EVOLUTION_CMD_NEW_MESSAGE)
    (h : send_to_evolution_appliance_discreteMsg c net db_bann db_wtc w cmd bann_recno
      sequence_number message template_recno = some sent) :
    keeps_messages w sent.world := by
  unfold send_to_evolution_appliance_discreteMsg at h
  simp only [hcmd, if_false] at h
  split at h
  · cases h; exact (send_body_keeps _ _ _ _).2
  · split at h
    · cases h; exact (send_body_keeps _ _ _ _).2
    · split at h
      · split at h
        · cases h
        · cases h; simp [keeps_messages]
        · cases h; exact (send_body_keeps _ _ _ _).2
      · cases h; exact (send_body_keeps _ _ _ _).2

theorem clear_slot_get (seq : CStr) (c : Consts) (bp : List Nat) (k : Nat)
    (hk : k < bp.length) :
    (if 0 < bp[k] ∧ strchr_found seq (c.BB_BASE + k) = false then bp.set k 0 else bp)[k]?
      = some (if strchr_found seq (c.BB_BASE + k) = true then bp[k] else 0) := by
  by_cases hf : strchr_found seq (c.BB_BASE + k) = true
  · rw [if_neg (by simp [hf]), if_pos hf]
    exact List.getElem?_eq_getElem hk
  · rw [if_neg hf]
    simp only [Bool.not_eq_true] at hf
    by_cases hr : 0 < bp[k]
    · rw [if_pos ⟨hr, hf⟩]
      simp [hk]
    · rw [if_neg (fun h => hr h.1)]
      have h0 : bp[k] = 0 := by omega
      rw [List.getElem?_eq_getElem hk, h0]

theorem clear_unreferenced_slots_get (c : Consts) (seq : CStr) (n : Nat) :
    ∀ (k : Nat) (bp : List Nat), k + n ≤ bp.length →
    ∃ bp1, clear_unreferenced_slots c seq n k bp = some bp1 ∧ bp1.length = bp.length
      ∧ ∀ j, bp1[j]? = if k ≤ j ∧ j < k + n then
          (bp[j]?).map (fun r => if strchr_found seq (c.BB_BASE + j) = true then r else 0)
        else bp[j]? := by
  induction n with
  | zero =>
    intro k bp _
    refine ⟨bp, rfl, rfl, fun j => ?_⟩
    rw [if_neg (by omega)]
  | succ n ih =>
    intro k bp hlen
    have hk : k < bp.length := by omega
    have hget : bp[k]? = some bp[k] := List.getElem?_eq_getElem hk
    have hlen1 : (if 0 < bp[k] ∧ strchr_found seq (c.BB_BASE + k) = false
        then bp.set k 0 else bp).length = bp.length := by
      split <;> simp
    obtain ⟨bp1, h1, h2, h3⟩ := ih (k + 1)
      (if 0 < bp[k] ∧ strchr_found seq (c.BB_BASE + k) = false then bp.set k 0 else bp)
      (by omega)
    refine ⟨bp1, ?_, ?_, fun j => ?_⟩
    · simp only [clear_unreferenced_slots, hget]
      exact h1
    · rw [h2, hlen1]
    · rw [h3 j]
      by_cases hj : j = k
      · subst hj
        have hn : ¬ (j + 1 ≤ j ∧ j < j + 1 + n) := by omega
        have hp : j ≤ j ∧ j < j + (n + 1) := by omega
        rw [if_neg hn, if_pos hp, clear_slot_get seq c bp j hk, hget]
        rfl
      · have hset : (if 0 < bp[k] ∧ strchr_found seq (c.BB_BASE + k) = false
            then bp.set k 0 else bp)[j]? = bp[j]? := by
          split
          · exact List.getElem?_set_ne (Ne.symm hj)
          · rfl
        rw [hset]
        by_cases hin : k ≤ j ∧ j < k + (n + 1)
        · have hin1 : k + 1 ≤ j ∧ j < k + 1 + n := by omega
          rw [if_pos hin, if_pos hin1]
        · have hin1 : ¬ (k + 1 ≤ j ∧ j < k + 1 + n) := by omega
          rw [if_neg hin, if_neg hin1]

theorem send_stop_some (c : Consts) (net : Network) (db_bann : Option BannerView)
    (db_wtc : Envelope) (w : World) (bann_recno sequence_number : Nat) (message : CStr)
    (template_recno : Nat) :
    ∃ sent, send_to_evolution_appliance_discreteMsg c net db_bann db_wtc w
      BANNER_EVOLUTION_CMD_STOP_MESSAGE bann_recno sequence_number message template_recno
      = some sent := by
  unfold send_to_evolution_appliance_discreteMsg
  simp only [if_true]
  exact ⟨_, rfl⟩

theorem send_clear_some (c : Consts) (net : Network) (db_bann : Option BannerView)
    (db_wtc : Envelope) (w : World) (bann_recno sequence_number : Nat) (message : CStr)
    (template_recno : Nat) :
    ∃ sent, send_to_evolution_appliance_discreteMsg c net db_bann db_wtc w
      BANNER_EVOLUTION_CMD_CLEAR_SIGN bann_recno sequence_number message template_recno
      = some sent := by
  unfold send_to_evolution_appliance_discreteMsg
  simp only [show BANNER_EVOLUTION_CMD_CLEAR_SIGN ≠ BANNER_EVOLUTION_CMD_STOP_MESSAGE
    from by decide, if_false, if_true]
  exact ⟨_, rfl⟩

theorem dispatch_new_message_keeps_records (c : Consts) (net : Network)
    (db : Nat → Option BannerView) (db_wtc : Envelope) (w w1 : World)
    (h : dispatch_new_message c net db db_wtc w = some w1) : keeps_records w w1 := by
  unfold dispatch_new_message at h
  split at h
  · split at h
    · cases h; exact ⟨rfl, rfl, rfl⟩
    · obtain ⟨sent, hs, rfl⟩ := Option.map_eq_some'.mp h
      exact send_keeps_records _ _ _ _ _ _ _ _ _ _ _ hs
  · cases h; exact ⟨rfl, rfl, rfl⟩

theorem dispatch_stop_message_keeps (c : Consts) (net : Network)
    (db_wtc : Envelope) (w w1 : World)
    (h : dispatch_stop_message c net db_wtc w = some w1) :
    keeps_records w w1 ∧ keeps_messages w w1 := by
  unfold dispatch_stop_message at h
  split at h
  · obtain ⟨sent, hs, rfl⟩ := Option.map_eq_some'.mp h
    exact ⟨send_keeps_records _ _ _ _ _ _ _ _ _ _ _ hs,
      send_keeps_messages _ _ _ _ _ _ _ _ _ _ _ (by decide) hs⟩
  · cases h; exact ⟨⟨rfl, rfl, rfl⟩, rfl, rfl⟩

theorem dispatch_stop_message_some (c : Consts) (net : Network)
    (db_wtc : Envelope) (w : World) :
    ∃ w1, dispatch_stop_message c net db_wtc w = some w1 := by
  unfold dispatch_stop_message
  split
  · obtain ⟨sent, hs⟩ := send_stop_some c net none db_wtc w db_wtc.dwc_stream_number
      db_wtc.dwc_operation db_wtc.dwc_msg_buffer db_wtc.dwc_parent_recno
    exact ⟨sent.world, by rw [hs]; rfl⟩
  · exact ⟨w, rfl⟩

theorem dispatch_clear_sign_journal (c : Consts) (net : Network)
    (db_wtc : Envelope) (w w1 : World)
    (h : dispatch_clear_sign c net db_wtc w = some w1) : w1.journal = w.journal := by
  unfold dispatch_clear_sign at h
  split at h
  · split at h
    · cases h
    · rename_i sent hs
      split at h
      · cases h
      · cases h
        exact (send_keeps_records _ _ _ _ _ _ _ _ _ _ _ hs).1
  · cases h; rfl

/-- A dispatcher step for an appliance device (new-message, stop-message, clear-sign or
sequence-change, in any combination of type bits) leaves the journal file as it was: the
calls of `append_msg_json_to_file`, `remove_msg_json_from_file` and `delete_msg_json_file`
are commented out in the sender, under comments that still describe them. -/
theorem dispatcher_keeps_journal (c : Consts) (net : Network)
    (db_bann_setcur : Nat → Option BannerView) (w : World) (db_wtc : Envelope) (w1 : World)
    (hstep : check_banner_node_commands c net db_bann_setcur w db_wtc = some w1) :
    w1.journal = w.journal := by
  unfold check_banner_node_commands at hstep
  split at hstep
  · split at hstep
    · cases hstep
    · rename_i wa ha
      split at hstep
      · cases hstep
      · rename_i wb hb
        rw [(dispatch_stop_message_keeps _ _ _ _ _ hstep).1.1,
          dispatch_clear_sign_journal _ _ _ _ _ hb,
          (dispatch_new_message_keeps_records _ _ _ _ _ _ ha).1]
  · split at hstep
    · obtain ⟨sent, hs, rfl⟩ := Option.map_eq_some'.mp hstep
      exact (send_keeps_records _ _ _ _ _ _ _ _ _ _ _ hs).1
    · cases hstep; rfl

/-- C2, amended. A sequence-change envelope leaves every slot as it was, record number
and stored message text, whatever its sequence string references. -/
theorem sequence_change_keeps_slots (c : Consts) (net : Network)
    (db_bann_setcur : Nat → Option BannerView) (w : World) (db_wtc : Envelope) (w1 : World)
    (htype : db_wtc.dwc_message_type = c.BANNER_SEQUENCE_NUMBER)
    (hstep : check_banner_node_commands c net db_bann_setcur w db_wtc = some w1) :
    w1.hw.board_ptr = w.hw.board_ptr ∧ w1.hw.board_messages = w.hw.board_messages := by
  unfold check_banner_node_commands at hstep
  rw [if_neg (by simp [htype])] at hstep
  split at hstep
  · obtain ⟨sent, hs, rfl⟩ := Option.map_eq_some'.mp hstep
    exact ⟨(send_keeps_records _ _ _ _ _ _ _ _ _ _ _ hs).2.1,
      (send_keeps_messages _ _ _ _ _ _ _ _ _ _ _ (by decide) hs).1⟩
  · cases hstep; exact ⟨rfl, rfl⟩

theorem clear_sign_step (c : Consts) (net : Network)
    (db_bann_setcur : Nat → Option BannerView) (w : World) (db_wtc : Envelope)
    (hseq : db_wtc.dwc_message_type ≠ c.BANNER_SEQUENCE_NUMBER)
    (hnew : db_wtc.dwc_message_type &&& c.BANNER_NEW_MESSAGE = 0)
    (hclear : db_wtc.dwc_message_type &&& c.BANNER_CLEAR_SIGN ≠ 0)
    (hslots : w.hw.max_seq ≤ w.hw.board_ptr.length) :
    ∃ w1, check_banner_node_commands c net db_bann_setcur w db_wtc = some w1
      ∧ w1.hw.board_messages = w.hw.board_messages
      ∧ w1.hw.max_seq = w.hw.max_seq
      ∧ w1.hw.board_ptr.length = w.hw.board_ptr.length
      ∧ ∀ k, w1.hw.board_ptr[k]? = if k < w.hw.max_seq then
          (w.hw.board_ptr[k]?).map
            (fun r => if strchr_found db_wtc.dwc_sequence (c.BB_BASE + k) = true then r else 0)
        else w.hw.board_ptr[k]? := by
  obtain ⟨sent, hs⟩ := send_clear_some c net none db_wtc w 0 db_wtc.dwc_operation
    db_wtc.dwc_msg_buffer 0
  obtain ⟨hr1, hr2, hr3⟩ := send_keeps_records _ _ _ _ _ _ _ _ _ _ _ hs
  obtain ⟨hm1, _⟩ := send_keeps_messages _ _ _ _ _ _ _ _ _ _ _ (by decide) hs
  obtain ⟨bp1, hb1, hb2, hb3⟩ := clear_unreferenced_slots_get c db_wtc.dwc_sequence
    sent.world.hw.max_seq 0 sent.world.hw.board_ptr (by rw [hr2, hr3]; omega)
  have hclearstep : dispatch_clear_sign c net db_wtc w
      = some { sent.world with hw := { sent.world.hw with board_ptr := bp1 } } := by
    unfold dispatch_clear_sign
    rw [if_pos hclear, hs]
    simp only [hb1]
  obtain ⟨w3, h3⟩ := dispatch_stop_message_some c net db_wtc
    { sent.world with hw := { sent.world.hw with board_ptr := bp1 } }
  obtain ⟨⟨_, hk2, hk3⟩, hk4, _⟩ := dispatch_stop_message_keeps _ _ _ _ _ h3
  refine ⟨w3, ?_, ?_, ?_, ?_, ?_⟩
  · unfold check_banner_node_commands
    rw [if_pos hseq]
    have hnewstep : dispatch_new_message c net db_bann_setcur db_wtc w = some w := by
      unfold dispatch_new_message
      rw [if_neg (by simp [hnew])]
    simp only [hnewstep, hclearstep, h3]
  · rw [hk4]; exact hm1
  · rw [hk3]; exact hr3
  · rw [hk2]; simp only; rw [hb2, hr2]
  · intro k
    rw [hk2]
    simp only
    rw [hb3 k, hr2, hr3]
    simp only [Nat.zero_le, true_and, Nat.zero_add]

/-- C3, amended. After a clear-sign envelope (clear bit set, new-message bit not set) on
a device whose `max_seq` slots exist, a slot below `max_seq` keeps its record number when
the sequence string has the slot's letter (`BB_BASE` + index) and else has record
number 0; a second clear-sign with the same envelope leaves the same record numbers. -/
theorem clear_sign_slots (c : Consts) (net : Network)
    (db_bann_setcur : Nat → Option BannerView) (w : World) (db_wtc : Envelope)
    (hseq : db_wtc.dwc_message_type ≠ c.BANNER_SEQUENCE_NUMBER)
    (hnew : db_wtc.dwc_message_type &&& c.BANNER_NEW_MESSAGE = 0)
    (hclear : db_wtc.dwc_message_type &&& c.BANNER_CLEAR_SIGN ≠ 0)
    (hslots : w.hw.max_seq ≤ w.hw.board_ptr.length) :
    ∃ w1, check_banner_node_commands c net db_bann_setcur w db_wtc = some w1
      ∧ (∀ k, w1.hw.board_ptr[k]? = if k < w.hw.max_seq then
          (w.hw.board_ptr[k]?).map
            (fun r => if strchr_found db_wtc.dwc_sequence (c.BB_BASE + k) = true then r else 0)
        else w.hw.board_ptr[k]?)
      ∧ ∃ w2, check_banner_node_commands c net db_bann_setcur w1 db_wtc = some w2
        ∧ w2.hw.board_ptr = w1.hw.board_ptr := by
  obtain ⟨w1, h1, _, h3, h4, h5⟩ :=
    clear_sign_step c net db_bann_setcur w db_wtc hseq hnew hclear hslots
  obtain ⟨w2, g1, _, _, _, g5⟩ :=
    clear_sign_step c net db_bann_setcur w1 db_wtc hseq hnew hclear (by rw [h3, h4]; exact hslots)
  refine ⟨w1, h1, h5, w2, g1, ?_⟩
  apply List.ext_getElem?
  intro k
  rw [g5 k, h3]
  split
  · rw [h5 k]
    rename_i hk
    rw [if_pos hk]
    cases w.hw.board_ptr[k]? with
    | none => rfl
    | some r =>
      simp only [Option.map_some']
      split <;> simp_all
  · rfl

/-- C1: the code at the failing input. A clear-sign for a device whose slot 0 shows
record 345 and whose journal holds the line of record 345 empties the slot and leaves the
journal file with that line, where the specification has the file deleted; a transmitted
new-message for record 345 (one request is written) leaves the journal missing, where
the specification, and the comment above the disabled call, have the message object
appended. -/
theorem dispatcher_journal_disagrees :
    (check_banner_node_commands example_consts example_network example_db
        (example_world [345, 0, 0] ["Test 2".data, [], []]
          (some (journal_text [example_line_345])))
        (example_clear_sign [])).map (fun w1 => (w1.hw.board_ptr, w1.journal))
        = some ([0, 0, 0], some (journal_text [example_line_345]))
      ∧ does_recno_exist_in_file 4000 (some (journal_text [example_line_345])) 345 = some 1
      ∧ (check_banner_node_commands example_consts example_network example_db
          (example_world [0, 0, 0] [[], [], []] none)
          example_new_message).map (fun w1 => (w1.written.length, w1.journal))
        = some (1, none) := by
  decide

/-- The clear-sign of the specification's scenario 2 leaves the journal with the line of
record 345. -/
theorem dispatcher_keeps_journal_witness :
    (check_banner_node_commands example_consts example_network example_db
        (example_world_two_messages (some (journal_text [example_line_345])))
        (example_clear_sign [])).map World.journal
      = some (some (journal_text [example_line_345])) := by
  have h : (check_banner_node_commands example_consts example_network example_db
      (example_world_two_messages (some (journal_text [example_line_345])))
      (example_clear_sign [])).isSome = true := by decide
  obtain ⟨w1, hw1⟩ := Option.isSome_iff_exists.mp h
  rw [hw1, Option.map_some', dispatcher_keeps_journal _ _ _ _ _ w1 hw1]
  rfl

/-- C2 as stated fails. After a sequence-change with the string `A`, slot 1 still holds
record 346 although the string does not reference slot 1. -/
theorem sequence_change_clears_nothing :
    (check_banner_node_commands example_consts example_network example_db
        (example_world_two_messages none)
        (example_sequence_change "A".data)).map
        (fun w1 => decide (slot_populated w1.hw 1)) = some true
      ∧ ¬ sequence_references example_consts "A".data 1 := by
  decide

/-- Witness of C2 (amended): the sequence change `A` on a device with two messages. -/
theorem sequence_change_keeps_slots_witness :
    (check_banner_node_commands example_consts example_network example_db
        (example_world_two_messages none)
        (example_sequence_change "A".data)).map
        (fun w1 => (w1.hw.board_ptr, w1.hw.board_messages))
      = some ([345, 346, 0], ["Test 2".data, "Fire drill".data, []]) := by
  have h : (check_banner_node_commands example_consts example_network example_db
      (example_world_two_messages none) (example_sequence_change "A".data)).isSome = true := by
    decide
  obtain ⟨w1, hw1⟩ := Option.isSome_iff_exists.mp h
  obtain ⟨h1, h2⟩ := sequence_change_keeps_slots example_consts example_network example_db
    (example_world_two_messages none) (example_sequence_change "A".data) w1 rfl hw1
  rw [hw1, Option.map_some', h1, h2]
  rfl

/-- C3 as stated fails. After a clear-sign with the sequence string `A`, slot 0 still
holds record 345, and the stored message texts of slots 0 and 1 are still there. -/
theorem clear_sign_leaves_slots :
    (check_banner_node_commands example_consts example_network example_db
        (example_world_two_messages none)
        (example_clear_sign "A".data)).map
        (fun w1 => (w1.hw.board_ptr, w1.hw.board_messages))
      = some ([345, 0, 0], ["Test 2".data, "Fire drill".data, []]) := by
  decide

/-- Witness of C3 (amended): the clear-sign with sequence string `A` on a device with two
messages. -/
theorem clear_sign_slots_witness :
    ∃ w1, check_banner_node_commands example_consts example_network example_db
        (example_world_two_messages none) (example_clear_sign "A".data) = some w1
      ∧ (∀ k, w1.hw.board_ptr[k]? =
          if k < (example_world_two_messages none).hw.max_seq then
            ((example_world_two_messages none).hw.board_ptr[k]?).map
              (fun r => if strchr_found (example_clear_sign "A".data).dwc_sequence
                (example_consts.BB_BASE + k) = true then r else 0)
          else (example_world_two_messages none).hw.board_ptr[k]?)
      ∧ ∃ w2, check_banner_node_commands example_consts example_network example_db
          w1 (example_clear_sign "A".data) = some w2
        ∧ w2.hw.board_ptr = w1.hw.board_ptr :=
  clear_sign_slots example_consts example_network example_db
    (example_world_two_messages none) (example_clear_sign "A".data)
    (by decide) (by decide) (by decide) (by decide)

/-- C4: the code at the failing input. A new-message for record 345 is dispatched (one
request is written, and the global remembers 345), then a sequence-change envelope for
record 345 arrives: the dispatcher builds the body of an `updateseq` request and writes a
second request to the device. -/
theorem sequence_change_after_new_message_is_sent :
    (check_banner_node_commands example_consts example_network example_db
        (example_world [0, 0, 0] [[], [], []] none) example_new_message).map
        (fun w1 => (w1.new_msg_recno_just_sent_by_newmsg, w1.written.length,
          updateseq_body example_consts w1.hw (example_sequence_change "A".data).dwc_sequence))
      = some (345, 1,
          some (some "\x7b\"password\":\"pw\",\"bannerpurpose\":\"updateseq\",\"seqstring\":\"A\",\"bannermessages\":[\x7b\"signseqnum\":0,\"recno_zx\":\"0\",\"msgtext\":\"Test 2\"\x7d]\x7d".data))
      ∧ ((check_banner_node_commands example_consts example_network example_db
          (example_world [0, 0, 0] [[], [], []] none) example_new_message).bind
          (fun w1 => check_banner_node_commands example_consts example_network example_db
            w1 (example_sequence_change "A".data))).map
          (fun w2 => (w2.new_msg_recno_just_sent_by_newmsg, w2.written.length))
        = some (345, 2) := by
  decide

/-- C8: the code at the failing input. Slot 0 is empty and slot 1 holds record 346: the
`bannermessages` array of the `updateseq` body starts with a comma. -/
theorem updateseq_body_leading_comma :
    updateseq_body example_consts (example_hardware [0, 346, 0] [[], "Fire drill".data, []])
        "B".data
      = some (some "\x7b\"password\":\"pw\",\"bannerpurpose\":\"updateseq\",\"seqstring\":\"B\",\"bannermessages\":[,\x7b\"signseqnum\":1,\"recno_zx\":\"346\",\"msgtext\":\"Fire drill\"\x7d]\x7d".data) := by
  decide

/-! ### The request written to the socket -/

theorem strcatl_fits (dst src : CStr) (size : Nat) (h : dst.length + src.length + 1 ≤ size) :
    strcatl dst src size = dst ++ src := by
  unfold strcatl
  rw [List.take_of_length_le (by omega)]

theorem strcatl_all_fits (size : Nat) (texts : List CStr) (buffer : CStr)
    (h : buffer.length + texts.flatten.length + 1 ≤ size) :
    strcatl_all size buffer texts = buffer ++ texts.flatten := by
  induction texts generalizing buffer with
  | nil => simp [strcatl_all]
  | cons t texts ih =>
    simp only [List.flatten_cons, List.length_append] at h
    have h1 := strcatl_fits buffer t size (by omega)
    have h2 := ih (buffer ++ t) (by simp only [List.length_append]; omega)
    simp only [strcatl_all, List.foldl_cons] at h2 ⊢
    rw [h1, h2, List.flatten_cons, List.append_assoc]

theorem strcatl_all_append (size : Nat) (buffer : CStr) (texts more : List CStr) :
    strcatl_all size buffer (texts ++ more)
      = strcatl_all size (strcatl_all size buffer texts) more := by
  simp [strcatl_all, List.foldl_append]

theorem strcatl_all_prefix (size : Nat) (texts : List CStr) (buffer : CStr) :
    buffer <+: strcatl_all size buffer texts := by
  induction texts generalizing buffer with
  | nil => exact List.prefix_refl _
  | cons t texts ih =>
    simp only [strcatl_all, List.foldl_cons]
    exact (List.prefix_append _ _).trans (ih (strcatl buffer t size))

theorem format_d_length (n : Nat) (h : n < 10 ^ 60) : (format_d n).length ≤ 60 :=
  Nat.toDigitsCore_length 10 (by decide) (n + 1) n 60 h (by decide)

/-- C9 fails. For the body of a clear-sign request (45 bytes) the line
`Content-Length: 45` with its CRLF has 20 characters, and `sprintf` writes it into the 10
bytes of `temp_conversion_buf`: the headers are undefined, and so are the bytes that the
sender writes for the request (one write is made). Had `post_cmd_buf` held the four
header lines of the specification, the empty line and the body, the sender would still
have written one more CRLF behind the body: 47 bytes behind the empty line under
`Content-Length: 45`. -/
theorem content_length_line_overflows :
    example_clear_sign_body.length = 45
      ∧ ("Content-Length: ".data ++ format_d example_clear_sign_body.length
          ++ "\r\n".data).length = 20
      ∧ http_req_headers example_clear_sign_body = none
      ∧ (send_to_evolution_appliance_discreteMsg example_consts example_network none
          (example_clear_sign "A".data) (example_world [0, 0, 0] [[], [], []] none)
          BANNER_EVOLUTION_CMD_CLEAR_SIGN 0 0 [] 0).map (fun r => r.world.written)
        = some [none]
      ∧ (transaction 4000 example_network (example_world [0, 0, 0] [[], [], []] none)
          (some (header_lines 45 ++ example_clear_sign_body))).world.written
        = [some (header_lines 45 ++ example_clear_sign_body ++ "\r\n".data)]
      ∧ (header_lines 45 ++ example_clear_sign_body ++ "\r\n".data).length
        = (header_lines 45).length + 47 := by
  decide

/-! ### The purpose of a new-message request -/

theorem new_message_bannerpurpose_length (c : Consts) (bann : BannerView) :
    (new_message_bannerpurpose c bann).length ≤ 21 := by
  unfold new_message_bannerpurpose
  split <;> first | decide | (split <;> decide)

theorem new_message_body_texts (c : Consts) (hw : Hardware) (bann : BannerView)
    (dwc_sequence : CStr) (bann_recno sequence_number template_recno : Nat) (body : CStr)
    (hbody : new_message_body c hw bann dwc_sequence bann_recno sequence_number
      template_recno = some (some body)) :
    ∃ more, body = strcatl_all c.EVOLUTION_JSON_MESSAGE_LENGTH []
      (new_message_head c hw bann ++ more) := by
  unfold new_message_body at hbody
  split at hbody
  · cases hbody
  · split at hbody
    · cases hbody
    · split at hbody
      · cases hbody
      · split at hbody
        · cases hbody
        · split at hbody
          · cases hbody
          · split at hbody
            · cases hbody
            · split at hbody
              · cases hbody
              · simp only [Option.some.injEq] at hbody
                exact ⟨_, hbody.symm⟩

/-- C7 as stated fails. For a video record with `show_camera` = yes and a non-blank
`camera_deviceid` the body of the new-message request has the purpose `newvideo`, not
`newcameramessage`. -/
theorem video_with_camera_is_newvideo :
    example_banner_video_camera.show_camera_yes = true
      ∧ notjustspace example_banner_video_camera.dbb_camera_deviceid
          example_consts.DEVICEID_LENGTH = true
      ∧ (new_message_body example_consts
          (example_hardware [0, 0, 0] ["Test 2".data, [], []])
          example_banner_video_camera "A".data 345 0 305).map
          (fun body => body.map (fun text => text.take 43))
        = some (some "\x7b\"password\":\"pw\",\"bannerpurpose\":\"newvideo\"".data) := by
  decide

/-- C7, amended. The body of a new-message request starts with the password and the
`bannerpurpose` that the `switch` on the multimedia type selects: `newvideo` for the four
video types, `newwebpage` for webpage and webmedia, `newlocationsdisplay` and
`newgeolocationsmap` for the matching types, whether or not the record asks for a
camera; for every other multimedia type it is `newcameramessage` when the record has
`show_camera` = yes and a non-blank `camera_deviceid`, and `newscrollingmessage` else. -/
theorem new_message_bannerpurpose_by_type (c : Consts) (hw : Hardware) (bann : BannerView)
    (dwc_sequence : CStr) (bann_recno sequence_number template_recno : Nat) (body : CStr)
    (hbody : new_message_body c hw bann dwc_sequence bann_recno sequence_number
      template_recno = some (some body))
    (hfit : hw.hardware_device_password.length + 53 ≤ c.EVOLUTION_JSON_MESSAGE_LENGTH) :
    ("\x7b\"password\":\"".data ++ hw.hardware_device_password ++ "\",\"bannerpurpose\":".data
        ++ new_message_bannerpurpose c bann) <+: body
      ∧ (bann.dbb_multimedia_type ∈ [MultimediaType.MULTIMEDIA_VIDEO,
            MultimediaType.MULTIMEDIA_VIDEO_STRETCHED, MultimediaType.MULTIMEDIA_VIDEO_ZOOM1,
            MultimediaType.MULTIMEDIA_VIDEO_ZOOM2] →
          new_message_bannerpurpose c bann = "\"newvideo\"".data)
      ∧ (bann.dbb_multimedia_type ∈ [MultimediaType.MULTIMEDIA_WEBPAGE,
            MultimediaType.MULTIMEDIA_WEBMEDIA] →
          new_message_bannerpurpose c bann = "\"newwebpage\"".data)
      ∧ (bann.dbb_multimedia_type = MultimediaType.MULTIMEDIA_LOCATIONS_DISPLAY →
          new_message_bannerpurpose c bann = "\"newlocationsdisplay\"".data)
      ∧ (bann.dbb_multimedia_type = MultimediaType.MULTIMEDIA_GEO_LOCATIONS_MAP →
          new_message_bannerpurpose c bann = "\"newgeolocationsmap\"".data)
      ∧ (bann.dbb_multimedia_type ∉ [MultimediaType.MULTIMEDIA_VIDEO,
            MultimediaType.MULTIMEDIA_VIDEO_STRETCHED, MultimediaType.MULTIMEDIA_VIDEO_ZOOM1,
            MultimediaType.MULTIMEDIA_VIDEO_ZOOM2, MultimediaType.MULTIMEDIA_WEBPAGE,
            MultimediaType.MULTIMEDIA_WEBMEDIA, MultimediaType.MULTIMEDIA_LOCATIONS_DISPLAY,
            MultimediaType.MULTIMEDIA_GEO_LOCATIONS_MAP] →
          new_message_bannerpurpose c bann =
            if bann.show_camera_yes = true
                ∧ notjustspace bann.dbb_camera_deviceid c.DEVICEID_LENGTH = true
              then "\"newcameramessage\"".data else "\"newscrollingmessage\"".data) := by
  refine ⟨?_, ?_, ?_, ?_, ?_, ?_⟩
  · obtain ⟨more, hmore⟩ := new_message_body_texts c hw bann dwc_sequence bann_recno
      sequence_number template_recno body hbody
    have hlen := new_message_bannerpurpose_length c bann
    have hsplit : new_message_head c hw bann ++ more
        = (password_texts hw ++ [",\"bannerpurpose\":".data, new_message_bannerpurpose c bann])
          ++ ([",\"hardware_deviceid\":".data, "\"".data, hw.hardware_deviceid, "\"".data,
            ",\"hardware_recno\":".data, quoted_recno hw.record_number,
            ",\"bannermessages\":[".data] ++ more) := by
      simp [new_message_head]
    have hflat : (password_texts hw
          ++ [",\"bannerpurpose\":".data, new_message_bannerpurpose c bann]).flatten
        = "\x7b\"password\":\"".data ++ hw.hardware_device_password
          ++ "\",\"bannerpurpose\":".data ++ new_message_bannerpurpose c bann := by
      simp [password_texts, List.flatten]
    have hflen : ("\x7b\"password\":\"".data ++ hw.hardware_device_password
          ++ "\",\"bannerpurpose\":".data ++ new_message_bannerpurpose c bann).length
        = 31 + hw.hardware_device_password.length
          + (new_message_bannerpurpose c bann).length := by
      have e1 : "\x7b\"password\":\"".data.length = 13 := by decide
      have e2 : "\",\"bannerpurpose\":".data.length = 18 := by decide
      simp only [List.length_append, e1, e2]
      omega
    rw [hmore, hsplit, strcatl_all_append,
      strcatl_all_fits _ _ [] (by rw [hflat, hflen]; simp only [List.length_nil]; omega),
      hflat, List.nil_append]
    exact strcatl_all_prefix _ _ _
  · intro h
    simp only [List.mem_cons, List.mem_singleton, List.mem_nil_iff, or_false] at h
    unfold new_message_bannerpurpose
    rcases h with h | h | h | h <;> rw [h]
  · intro h
    simp only [List.mem_cons, List.mem_singleton, List.mem_nil_iff, or_false] at h
    unfold new_message_bannerpurpose
    rcases h with h | h <;> rw [h]
  · intro h
    unfold new_message_bannerpurpose
    rw [h]
  · intro h
    unfold new_message_bannerpurpose
    rw [h]
  · intro h
    simp only [List.mem_cons, List.mem_singleton, List.mem_nil_iff, or_false, not_or] at h
    obtain ⟨h1, h2, h3, h4, h5, h6, h7, h8⟩ := h
    unfold new_message_bannerpurpose
    split <;> first | contradiction | rfl

theorem some_some_of_isSome (x : Option (Option CStr)) (h : (x.bind id).isSome = true) :
    x = some (some ((x.bind id).getD [])) := by
  cases x with
  | none => simp at h
  | some y =>
    cases y with
    | none => simp at h
    | some z => rfl

/-- Witness of C7 (amended): the example video record with a camera on the example
device. -/
theorem new_message_bannerpurpose_by_type_witness :
    ("\x7b\"password\":\"".data
        ++ (example_hardware [0, 0, 0] ["Test 2".data, [], []]).hardware_device_password
        ++ "\",\"bannerpurpose\":".data
        ++ new_message_bannerpurpose example_consts example_banner_video_camera)
        <+: example_video_camera_body
      ∧ new_message_bannerpurpose example_consts example_banner_video_camera
        = "\"newvideo\"".data :=
  have h := new_message_bannerpurpose_by_type example_consts
    (example_hardware [0, 0, 0] ["Test 2".data, [], []]) example_banner_video_camera
    "A".data 345 0 305 example_video_camera_body
    (some_some_of_isSome _ (by decide)) (by decide)
  ⟨h.1, h.2.1 (by decide)⟩

theorem strncmp_eq_iff (a b : CStr) : strncmp_eq a b b.length = true ↔ b <+: a := by
  induction b generalizing a with
  | nil => simp [strncmp_eq]
  | cons y b ih =>
    cases a with
    | nil => simp [strncmp_eq]
    | cons x a =>
      simp only [List.length_cons, strncmp_eq, Bool.and_eq_true, beq_iff_eq, ih,
        List.cons_prefix_cons]
      constructor <;> rintro ⟨h1, h2⟩ <;> exact ⟨h1.symm, h2⟩

theorem cgi_parsed_lookup_true_iff (key : CStr) (space_fill : Nat) (fields : List CStr) :
    (cgi_parsed_lookup key space_fill fields).1 = true ↔ ∃ f ∈ fields, key <+: f := by
  induction fields with
  | nil => simp [cgi_parsed_lookup]
  | cons f more ih =>
    unfold cgi_parsed_lookup
    by_cases h : strncmp_eq f key key.length = true
    · simp only [h, if_true, true_iff]
      exact ⟨f, List.mem_cons_self _ _, (strncmp_eq_iff f key).mp h⟩
    · simp only [h, ih, List.mem_cons, exists_eq_or_imp, Bool.false_eq_true, if_false]
      rw [strncmp_eq_iff] at h
      simp [h]

theorem cgi_parse_fields_length (cur request : CStr) :
    (cgi_parse_fields cur request).length = request.count '&' + 2 := by
  induction request generalizing cur with
  | nil => simp [cgi_parse_fields]
  | cons c rest ih =>
    unfold cgi_parse_fields
    by_cases h : c = '&'
    · subst h
      rw [if_pos rfl, List.length_cons, ih, List.count_cons_self]
    · rw [if_neg h, ih, List.count_cons_of_ne (Ne.symm h)]

theorem cgi_parse_fields_key (key f : CStr) (hf : key <+: f) (request cur : CStr)
    (hmem : f ∈ cgi_parse_fields cur request) :
    key = [] ∨ key <+: (cur.reverse ++ request) ∨ ('&' :: key) <:+: request := by
  induction request generalizing cur with
  | nil =>
    simp only [cgi_parse_fields, List.mem_cons, List.mem_singleton, List.mem_nil_iff,
      or_false] at hmem
    rcases hmem with h | h
    · subst h; right; left; simpa using hf
    · subst h; left; exact List.prefix_nil.mp hf
  | cons c rest ih =>
    unfold cgi_parse_fields at hmem
    by_cases h : c = '&'
    · subst h
      simp only [if_true, List.mem_cons] at hmem
      rcases hmem with h | h
      · subst h; right; left; exact hf.trans (List.prefix_append _ _)
      · rcases ih [] h with h0 | h1 | h2
        · exact Or.inl h0
        · right; right
          simp only [List.reverse_nil, List.nil_append] at h1
          exact ((List.cons_prefix_cons).mpr ⟨rfl, h1⟩).isInfix
        · right; right
          exact h2.trans (List.suffix_cons _ _).isInfix
    · simp only [h, if_false] at hmem
      rcases ih (c :: cur) hmem with h0 | h1 | h2
      · exact Or.inl h0
      · right; left; simpa using h1
      · right; right
        exact h2.trans (List.suffix_cons _ _).isInfix

theorem main_select_none (fields : List CStr) (chain : List (CStr × Action))
    (h : ∀ ka ∈ chain, ¬ ∃ f ∈ fields, ka.1 <+: f) :
    main_select fields chain = Action.no_command_found := by
  induction chain with
  | nil => rfl
  | cons ka chain ih =>
    obtain ⟨key, action⟩ := ka
    have h1 : (cgi_parsed_lookup key 80 fields).1 = false := by
      have := h (key, action) (List.mem_cons_self _ _)
      rw [← cgi_parsed_lookup_true_iff key 80] at this
      simpa using this
    simp only [main_select, h1, Bool.false_eq_true, if_false]
    exact ih (fun ka hka => h ka (List.mem_cons_of_mem _ hka))

theorem redacted_action_keys_fst (n : Nat) (keys : List CStr) :
    (redacted_action_keys n keys).map Prod.fst = keys := by
  induction keys generalizing n with
  | nil => rfl
  | cons k keys ih => simp [redacted_action_keys, ih]

theorem action_keys_fst (redacted_keys : List CStr) :
    (action_keys redacted_keys).map Prod.fst
      = redacted_keys ++ visible_action_keys.map Prod.fst := by
  rw [action_keys, List.map_append, redacted_action_keys_fst]

/-- C10. A request in which no `&`-separated field begins with an action key of the
chain of `main` (no key is a beginning of the request and no key follows an `&`), and
whose fields fit the pointer array `parsed_input`, is answered with exactly the text
`No command found` and one newline. -/
theorem main_no_command_found (redacted_keys : List CStr)
    (respond : Action → List CStr → Option CStr) (request : CStr)
    (hargs : request.count '&' + 3 ≤ MAX_ARGS)
    (hkeys : ∀ key ∈ redacted_keys ++ visible_action_keys.map Prod.fst,
      ¬ key <+: request ∧ ¬ ('&' :: key) <:+: request) :
    main redacted_keys respond request = some "No command found\n".data := by
  have hlen := cgi_parse_fields_length [] request
  have hparse : cgi_parse_input request = some (cgi_parse_fields [] request) := by
    unfold cgi_parse_input
    simp only [hlen]
    rw [if_pos (by omega)]
  have hsel : main_select (cgi_parse_fields [] request) (action_keys redacted_keys)
      = Action.no_command_found := by
    apply main_select_none
    rintro ⟨key, action⟩ hka ⟨f, hf, hpre⟩
    have hkey : key ∈ redacted_keys ++ visible_action_keys.map Prod.fst := by
      rw [← action_keys_fst]
      exact List.mem_map.mpr ⟨(key, action), hka, rfl⟩
    obtain ⟨hk1, hk2⟩ := hkeys key hkey
    rcases cgi_parse_fields_key key f hpre request [] hf with h0 | h1 | h2
    · subst h0; exact hk1 (List.nil_prefix)
    · exact hk1 (by simpa using h1)
    · exact hk2 h2
  simp only [main, hparse, hsel]

/-- Witness of C10: the request `foo=1` of the spec's scenario 6. -/
theorem main_no_command_found_witness :
    main [] (fun _ _ => none) "foo=1".data = some "No command found\n".data :=
  main_no_command_found [] (fun _ _ => none) "foo=1".data (by decide) (by decide)

/-! ### `cgi_decode_form_string` -/

theorem char_codes : '0'.toNat = 48 ∧ '9'.toNat = 57 ∧ 'A'.toNat = 65 ∧ 'F'.toNat = 70
    ∧ 'a'.toNat = 97 ∧ 'f'.toNat = 102 ∧ ' '.toNat = 32 ∧ '"'.toNat = 34 ∧ '\''.toNat = 39 := by
  decide

theorem hex_digit_value_code (c : Char) (a : Nat) (h : hex_digit_value c = some a) :
    cgi_ascii_to_hex c.toNat = a ∧ a ≤ 15 := by
  obtain ⟨e0, e9, eA, eF, ea, ef, es, -, -⟩ := char_codes
  unfold hex_digit_value at h
  unfold cgi_ascii_to_hex
  simp only [e0, e9, eA, eF, ea, ef, es] at h ⊢
  generalize c.toNat = n at h ⊢
  split_ifs at h ⊢ <;> simp at h <;> omega

theorem cgi_ascii_to_hex_range (v : Nat) : cgi_ascii_to_hex v ≤ 15 ∨ cgi_ascii_to_hex v = 32 := by
  obtain ⟨e0, e9, eA, eF, ea, ef, es, -, -⟩ := char_codes
  unfold cgi_ascii_to_hex
  simp only [e0, e9, eA, eF, ea, ef, es]
  split_ifs <;> omega

theorem toNat_ofNat_of_lt (n : Nat) (h : n < 256) : (Char.ofNat n).toNat = n := by
  have hv : n.isValidChar := Or.inl (by omega)
  simp only [Char.ofNat, hv, dite_true, Char.ofNatAux, Char.toNat]
  rfl

theorem decoded_char_not_quote (hex : Nat) (h : hex ≤ 15 * 16 + 32 ∨ 512 ≤ hex) (h2 : hex ≤ 544):
    (if hex = '"'.toNat ∨ hex = '\''.toNat then '`' else Char.ofNat (hex % 256)) ≠ '"'
    ∧ (if hex = '"'.toNat ∨ hex = '\''.toNat then '`' else Char.ofNat (hex % 256)) ≠ '\'' := by
  obtain ⟨-, -, -, -, -, -, -, eq, ea⟩ := char_codes
  rw [eq, ea]
  split_ifs with hq
  · decide
  · have hlt : hex % 256 < 256 := Nat.mod_lt _ (by norm_num)
    have ht := toNat_ofNat_of_lt _ hlt
    constructor
    · intro hc
      rw [hc, eq] at ht
      omega
    · intro hc
      rw [hc, ea] at ht
      omega

theorem percent_escape_some (rest : CStr) (byte : Nat) (h : percent_escape rest = some byte) :
    ∃ h1 h2 rest2 a b, rest = h1 :: h2 :: rest2 ∧ hex_digit_value h1 = some a
      ∧ hex_digit_value h2 = some b ∧ byte = 16 * a + b := by
  match rest, h with
  | h1 :: h2 :: rest2, h =>
    simp only [percent_escape] at h
    cases ha : hex_digit_value h1 with
    | none => simp [ha] at h
    | some a =>
      cases hb : hex_digit_value h2 with
      | none => simp [ha, hb] at h
      | some b =>
        simp only [ha, hb, Option.some.injEq] at h
        exact ⟨h1, h2, rest2, a, b, rfl, ha, hb, h.symm⟩
  | [], h => simp [percent_escape] at h
  | [_], h => simp [percent_escape] at h

theorem cgi_decode_loop_nil (space_fill fuel : Nat) (out : CStr) :
    cgi_decode_loop space_fill fuel out [] = out := by
  cases fuel <;> rfl

theorem cgi_decode_loop_spec (fuel : Nat) (x out : CStr) (hfuel : x.length ≤ fuel)
    (hx : percent_escapes_complete_from 0 x = true) :
    cgi_decode_loop 0 fuel out x = (spec_form_decode_from 0 x).reverse ++ out := by
  induction fuel generalizing x out with
  | zero =>
    have : x = [] := List.length_eq_zero.mp (Nat.le_zero.mp hfuel)
    subst this
    rfl
  | succ fuel ih =>
    cases x with
    | nil => rfl
    | cons c rest =>
      simp only [List.length_cons] at hfuel
      unfold cgi_decode_loop
      simp only [Nat.lt_irrefl, false_and, if_false]
      by_cases hplus : c = '+'
      · subst hplus
        simp only [percent_escapes_complete_from, show ('+' : Char) ≠ '%' from by decide,
          if_false] at hx
        simp only [if_true, spec_form_decode_from]
        rw [ih rest _ (by omega) hx]
        simp
      · by_cases hpct : c = '%'
        · subst hpct
          simp only [percent_escapes_complete_from, if_true, Bool.and_eq_true] at hx
          obtain ⟨hsome, hrest⟩ := hx
          obtain ⟨byte, hbyte⟩ := Option.isSome_iff_exists.mp hsome
          obtain ⟨h1, h2, rest2, a, b, rfl, ha, hb, rfl⟩ := percent_escape_some rest byte hbyte
          obtain ⟨ca, la⟩ := hex_digit_value_code h1 a ha
          obtain ⟨cb, lb⟩ := hex_digit_value_code h2 b hb
          simp only [percent_escapes_complete_from] at hrest
          simp only [List.length_cons] at hfuel
          simp only [hplus, if_false, if_true, spec_form_decode_from, hbyte, ca, cb]
          rw [ih rest2 _ (by omega) hrest]
          have e1 : a * 16 + b = 16 * a + b := by omega
          have e2 : (16 * a + b) % 256 = 16 * a + b := Nat.mod_eq_of_lt (by omega)
          have eq : '"'.toNat = 34 := rfl
          have ea : '\''.toNat = 39 := rfl
          simp only [e1, e2, eq, ea, List.reverse_cons, List.append_assoc, List.singleton_append]
        · simp only [percent_escapes_complete_from, hpct, if_false] at hx
          simp only [hplus, hpct, if_false, spec_form_decode_from]
          rw [ih rest _ (by omega) hx]
          simp

/-- C11 as stated fails. In `5%+off` the `%` is not followed by two hexadecimal digits,
so in the words of the claim it is copied and the `+` behind it gives a blank: `5% off`.
The code takes the two characters behind the `%` for digits and writes one blank for
the three of them: `5 ff`. -/
theorem percent_without_digits_is_consumed :
    cgi_decode_form_string "5%+off".data 0 = "5 ff".data
    ∧ spec_form_decode "5%+off".data = "5% off".data := by
  decide

/-- C11, amended. For every input in which every `%` is followed by two hexadecimal
digits, `cgi_decode_form_string` with `space_fill = 0` writes a blank for each `+`, for
each `%h1h2` the byte `16*value(h1) + value(h2)` (a backtick when that byte is 0x22 or
0x27), and every other character unchanged, in order; the C string that the caller reads
is this text up to its first zero byte. -/
theorem cgi_decode_form_string_escapes_complete (x : CStr)
    (hx : percent_escapes_complete x = true) :
    cgi_decode_form_string x 0
      = (spec_form_decode x).takeWhile (fun c => c != Char.ofNat 0) := by
  unfold cgi_decode_form_string
  simp only [Nat.lt_irrefl, if_false]
  rw [cgi_decode_loop_spec x.length x [] (Nat.le_refl _) hx]
  simp [spec_form_decode]

/-- Witness of C11 (amended): an input with a `+` and escapes in upper and lower case,
two of them quotes. -/
theorem cgi_decode_form_string_escapes_complete_witness :
    percent_escapes_complete "a+b%3D%27c%2f%22".data = true
    ∧ cgi_decode_form_string "a+b%3D%27c%2f%22".data 0
      = (spec_form_decode "a+b%3D%27c%2f%22".data).takeWhile (fun c => c != Char.ofNat 0) :=
  ⟨by decide, cgi_decode_form_string_escapes_complete "a+b%3D%27c%2f%22".data (by decide)⟩

theorem cgi_ascii_to_hex_digit_char (d : Nat) (h : d < 16) :
    cgi_ascii_to_hex (hex_digit_char d).toNat = d := by
  interval_cases d <;> rfl

theorem alphanum_plain (c : Char) (h : c.isAlphanum = true) :
    c ≠ '+' ∧ c ≠ '%' ∧ c ≠ '"' ∧ c ≠ '\'' := by
  refine ⟨?_, ?_, ?_, ?_⟩ <;> (intro e; subst e; revert h; decide)

theorem toNat_eq_iff (c d : Char) : c.toNat = d.toNat ↔ c = d := by
  constructor
  · intro h
    rw [← Char.ofNat_toNat c, ← Char.ofNat_toNat d, h]
  · intro h; rw [h]

theorem cgi_decode_loop_encoded_char (c : Char) (hc : printable_ascii c) (fuel : Nat)
    (out rest : CStr) :
    cgi_decode_loop 0 (fuel + 1) out (form_encode_char c ++ rest)
      = cgi_decode_loop 0 fuel ((if c = '"' ∨ c = '\'' then '`' else c) :: out) rest := by
  unfold form_encode_char
  by_cases hs : c = ' '
  · subst hs
    simp only [if_true, List.singleton_append]
    conv_lhs => unfold cgi_decode_loop
    simp only [Nat.lt_irrefl, false_and, if_false, if_true,
      show ¬ ((' ' : Char) = '"' ∨ (' ' : Char) = '\'') from by decide]
  · rw [if_neg hs]
    by_cases ha : c.isAlphanum = true
    · obtain ⟨h1, h2, h3, h4⟩ := alphanum_plain c ha
      rw [if_pos ha, List.singleton_append]
      conv_lhs => unfold cgi_decode_loop
      simp only [Nat.lt_irrefl, false_and, if_false, h1, h2, h3, h4, or_self]
    · rw [if_neg ha]
      have hp : c ≠ '+' ∨ True := Or.inr trivial
      conv_lhs => unfold cgi_decode_loop
      simp only [List.cons_append, List.nil_append, Nat.lt_irrefl, false_and, if_false,
        show ('%' : Char) ≠ '+' from by decide, if_true]
      have hd1 : c.toNat / 16 < 16 := by
        have := hc.2; omega
      have hd2 : c.toNat % 16 < 16 := Nat.mod_lt _ (by norm_num)
      rw [cgi_ascii_to_hex_digit_char _ hd1, cgi_ascii_to_hex_digit_char _ hd2]
      have e1 : c.toNat / 16 * 16 + c.toNat % 16 = c.toNat := by omega
      have e2 : c.toNat % 256 = c.toNat := Nat.mod_eq_of_lt (by have := hc.2; omega)
      simp only [e1, e2, Char.ofNat_toNat, toNat_eq_iff]

theorem form_encode_char_length (c : Char) : 1 ≤ (form_encode_char c).length := by
  unfold form_encode_char
  split_ifs <;> simp



theorem form_encode_length (x : CStr) : x.length ≤ (form_encode x).length := by
  induction x with
  | nil => simp [form_encode]
  | cons c x ih =>
    have := form_encode_char_length c
    simp only [form_encode, List.length_cons, List.length_append]
    omega

theorem cgi_decode_loop_encoded (x : CStr) (hx : ∀ c ∈ x, printable_ascii c) (fuel : Nat)
    (out : CStr) (hfuel : x.length ≤ fuel) :
    cgi_decode_loop 0 fuel out (form_encode x) = (quotes_to_backtick x).reverse ++ out := by
  induction x generalizing fuel out with
  | nil => simp [form_encode, cgi_decode_loop_nil, quotes_to_backtick]
  | cons c x ih =>
    obtain ⟨fuel, rfl⟩ : ∃ k, fuel = k + 1 := ⟨fuel - 1, by simp at hfuel; omega⟩
    simp only [form_encode]
    rw [cgi_decode_loop_encoded_char c (hx c (List.mem_cons_self _ _)),
      ih (fun d hd => hx d (List.mem_cons_of_mem _ hd)) fuel _ (by simpa using hfuel)]
    simp [quotes_to_backtick]

theorem takeWhile_all (p : Char → Bool) (l : CStr) (h : ∀ c ∈ l, p c = true) :
    l.takeWhile p = l := by
  induction l with
  | nil => rfl
  | cons c l ih =>
    rw [List.takeWhile_cons, h c (List.mem_cons_self _ _)]
    simp only [if_true]
    rw [ih (fun d hd => h d (List.mem_cons_of_mem _ hd))]

/-- C12. For every string `x` of printable ASCII characters (an `&`, which the encoding
writes as `%26`, included), decoding the form encoding of `x` with
`cgi_decode_form_string` and `space_fill = 0` gives `x` with every `"` and every `'`
replaced by a backtick and every other character unchanged. -/
theorem form_decode_round_trip (x : CStr) (hx : ∀ c ∈ x, printable_ascii c) :
    cgi_decode_form_string (form_encode x) 0 = quotes_to_backtick x := by
  unfold cgi_decode_form_string
  simp only [Nat.lt_irrefl, if_false]
  rw [cgi_decode_loop_encoded x hx _ [] (form_encode_length x)]
  simp only [List.append_nil, List.reverse_reverse]
  apply takeWhile_all
  intro c hc
  simp only [quotes_to_backtick, List.mem_map] at hc
  obtain ⟨d, hd, rfl⟩ := hc
  have hp := hx d hd
  simp only [bne_iff_ne, ne_eq]
  split_ifs
  · decide
  · intro e
    have := hp.1
    rw [e] at this
    revert this
    decide

/-- Witness of C12: a text with a quote, a blank and a percent sign. -/
theorem form_decode_round_trip_witness :
    (∀ c ∈ "it's 5%".data, printable_ascii c)
    ∧ cgi_decode_form_string (form_encode "it's 5%".data) 0 = quotes_to_backtick "it's 5%".data :=
  ⟨by decide, form_decode_round_trip "it's 5%".data (by decide)⟩

theorem cgi_decode_loop_lacks (q : Char) (hq : q = '"' ∨ q = '\'') (space_fill fuel : Nat)
    (out x : CStr) (hout : q ∉ out) (hx : q ∉ x) :
    q ∉ cgi_decode_loop space_fill fuel out x := by
  induction fuel generalizing out x with
  | zero => exact hout
  | succ fuel ih =>
    cases x with
    | nil => exact hout
    | cons c rest =>
      have hc : q ≠ c := fun e => hx (e ▸ List.mem_cons_self _ _)
      have hrest : q ∉ rest := fun h => hx (List.mem_cons_of_mem _ h)
      have hsp : q ≠ ' ' := by rcases hq with h | h <;> (rw [h]; decide)
      have hnul : q ≠ Char.ofNat 0 := by rcases hq with h | h <;> (rw [h]; decide)
      have hdec : ∀ hex, (hex ≤ 15 * 16 + 32 ∨ 512 ≤ hex) → hex ≤ 544 →
          q ≠ (if hex = '"'.toNat ∨ hex = '\''.toNat then '`' else Char.ofNat (hex % 256)) := by
        intro hex h1 h2
        have := decoded_char_not_quote hex h1 h2
        rcases hq with h | h <;> rw [h]
        · exact fun e => this.1 e.symm
        · exact fun e => this.2 e.symm
      unfold cgi_decode_loop
      have key : ∀ step : CStr × CStr, q ∉ step.1 → q ∉ step.2 →
          q ∉ (if 0 < space_fill ∧ space_fill - 1 ≤ step.1.length then step.1
            else cgi_decode_loop space_fill fuel step.1 step.2) := by
        intro step h1 h2
        split_ifs
        · exact h1
        · exact ih _ _ h1 h2
      apply key
      · split_ifs
        · simp only [List.mem_cons, not_or]; exact ⟨hsp, hout⟩
        · match rest with
          | [] => simp only [List.mem_cons, not_or]; exact ⟨hnul, hout⟩
          | [h1] =>
            simp only [List.mem_cons, not_or]
            have hr1 := cgi_ascii_to_hex_range h1.toNat
            exact ⟨hdec _ (by omega) (by omega), hout⟩
          | h1 :: h2 :: rest2 =>
            simp only [List.mem_cons, not_or]
            have hr1 := cgi_ascii_to_hex_range h1.toNat
            have hr2 := cgi_ascii_to_hex_range h2.toNat
            exact ⟨hdec _ (by omega) (by omega), hout⟩
        · simp only [List.mem_cons, not_or]; exact ⟨hc, hout⟩
      · split_ifs
        · exact hrest
        · match rest, hrest with
          | [], _ => simp
          | [h1], _ => simp
          | h1 :: h2 :: rest2, hrest =>
            exact fun h => hrest (List.mem_cons_of_mem _ (List.mem_cons_of_mem _ h))
        · exact hrest

theorem cgi_decode_form_string_lacks (q : Char) (hq : q = '"' ∨ q = '\'') (x : CStr)
    (space_fill : Nat) (hx : q ∉ x) : q ∉ cgi_decode_form_string x space_fill := by
  have h := cgi_decode_loop_lacks q hq space_fill x.length [] x (List.not_mem_nil _) hx
  have h2 : q ∉ ((cgi_decode_loop space_fill x.length [] x).reverse).takeWhile
      (fun c => c != Char.ofNat 0) :=
    fun hm => h (List.mem_reverse.mp ((List.takeWhile_sublist _).subset hm))
  unfold cgi_decode_form_string
  simp only []
  split_ifs
  · unfold add_trailing_space
    simp only [List.mem_append, not_or, List.mem_replicate, not_and]
    refine ⟨h2, fun _ e => ?_⟩
    rcases hq with h | h <;> (rw [h] at e; revert e; decide)
  · exact h2

/-- C13 as stated fails. A `'` and a `"` that stand in the input as they are come out
unchanged; only the percent-encoded ones (`%27`, `%22`) come out as backticks. -/
theorem literal_quotes_survive :
    cgi_decode_form_string "a'b\"c".data 0 = "a'b\"c".data
    ∧ cgi_decode_form_string "a%27b%22c".data 0 = "a`b`c".data := by
  decide

/-- C13, amended. For every input that has no `"` and no `'` standing in it as such,
and every `space_fill`, the output of `cgi_decode_form_string` has no `"` and no `'`:
no escape decodes to one of them (`%22` and `%27` give a backtick). -/
theorem cgi_decode_form_string_without_quotes (x : CStr) (space_fill : Nat)
    (hdouble : '"' ∉ x) (hsingle : '\'' ∉ x) :
    '"' ∉ cgi_decode_form_string x space_fill
    ∧ '\'' ∉ cgi_decode_form_string x space_fill :=
  ⟨cgi_decode_form_string_lacks '"' (Or.inl rfl) x space_fill hdouble,
    cgi_decode_form_string_lacks '\'' (Or.inr rfl) x space_fill hsingle⟩

/-- Witness of C13 (amended): an input with both quotes percent-encoded. -/
theorem cgi_decode_form_string_without_quotes_witness :
    ('"' ∉ "a%27b%22c".data ∧ '\'' ∉ "a%27b%22c".data)
    ∧ '"' ∉ cgi_decode_form_string "a%27b%22c".data 0
    ∧ '\'' ∉ cgi_decode_form_string "a%27b%22c".data 0 :=
  ⟨by decide, cgi_decode_form_string_without_quotes "a%27b%22c".data 0 (by decide) (by decide)⟩

/-! ### `cgi_parsed_lookup` and the chain of `main` -/

theorem cgi_parse_fields_splitOn (cur request : CStr) :
    cgi_parse_fields cur request
      = (request.splitOn '&').modifyHead (fun f => cur.reverse ++ f) ++ [[]] := by
  induction request generalizing cur with
  | nil => simp [cgi_parse_fields, List.splitOn, List.modifyHead]
  | cons c rest ih =>
    unfold cgi_parse_fields
    rw [List.splitOn, List.splitOnP_cons]
    by_cases h : c = '&'
    · subst h
      simp only [if_true, beq_self_eq_true, List.modifyHead, ih [], List.reverse_nil,
        List.append_nil, List.cons_append, List.splitOn]
      congr 1
      have hne := List.splitOnP_ne_nil (fun x => x == '&') rest
      cases hs : List.splitOnP (fun x => x == '&') rest with
      | nil => exact absurd hs hne
      | cons a b => simp [List.modifyHead]
    · have hb : (c == '&') = false := by simpa using h
      simp only [h, if_false, hb, ih (c :: cur), List.splitOn, Bool.false_eq_true]
      have hne := List.splitOnP_ne_nil (fun x => x == '&') rest
      cases hs : List.splitOnP (fun x => x == '&') rest with
      | nil => exact absurd hs hne
      | cons a b => simp [List.modifyHead]

theorem cgi_parse_input_splitOn (request : CStr) (fields : List CStr)
    (h : cgi_parse_input request = some fields) :
    fields = request.splitOn '&' ++ [[]] := by
  unfold cgi_parse_input at h
  simp only [] at h
  split_ifs at h
  simp only [Option.some.injEq] at h
  rw [← h, cgi_parse_fields_splitOn]
  have hne := List.splitOnP_ne_nil (fun x => x == '&') request
  simp only [List.splitOn]
  cases hs : List.splitOnP (fun x => x == '&') request with
  | nil => exact absurd hs hne
  | cons a b => simp [List.modifyHead]

theorem cgi_parsed_lookup_first (key : CStr) (space_fill : Nat) (before : List CStr)
    (f : CStr) (after : List CStr) (hbefore : ∀ g ∈ before, ¬ key <+: g) (hf : key <+: f) :
    cgi_parsed_lookup key space_fill (before ++ f :: after)
      = (true, cgi_decode_form_string (f.drop key.length) space_fill) := by
  induction before with
  | nil =>
    simp only [List.nil_append, cgi_parsed_lookup]
    rw [if_pos ((strncmp_eq_iff f key).mpr hf)]
  | cons g before ih =>
    have hg : ¬ strncmp_eq g key key.length = true := by
      rw [strncmp_eq_iff]
      exact hbefore g (List.mem_cons_self _ _)
    simp only [List.cons_append, cgi_parsed_lookup]
    rw [if_neg hg]
    exact ih (fun x hx => hbefore x (List.mem_cons_of_mem _ hx))

theorem cgi_parsed_lookup_false (key : CStr) (space_fill : Nat) (fields : List CStr)
    (h : (cgi_parsed_lookup key space_fill fields).1 = false) :
    cgi_parsed_lookup key space_fill fields = (false, []) := by
  induction fields with
  | nil => rfl
  | cons f more ih =>
    unfold cgi_parsed_lookup at h ⊢
    split_ifs at h ⊢ with hc
    exact ih h

/-- C14. For a request whose fields fit the pointer array `parsed_input` and a key that
ends in `=`: `cgi_parsed_lookup` returns TRUE exactly when some `&`-separated field of
the request begins with the whole key; it then gives the decoded rest of the first such
field in request order; when no field begins with the key it returns FALSE and the empty
string. The field `evolutionGetActiveMessagesForDevice_recnosOnly=1` does not match the
key `evolutionGetActiveMessagesForDevice=`. -/
theorem cgi_parsed_lookup_fields (request key : CStr) (space_fill : Nat)
    (fields : List CStr) (hparse : cgi_parse_input request = some fields)
    (hkey : key.getLast? = some '=') :
    ((cgi_parsed_lookup key space_fill fields).1 = true
        ↔ ∃ f ∈ request.splitOn '&', key <+: f)
    ∧ (∀ before f after, request.splitOn '&' = before ++ f :: after →
        (∀ g ∈ before, ¬ key <+: g) → key <+: f →
        cgi_parsed_lookup key space_fill fields
          = (true, cgi_decode_form_string (f.drop key.length) space_fill))
    ∧ ((¬ ∃ f ∈ request.splitOn '&', key <+: f) →
        cgi_parsed_lookup key space_fill fields = (false, []))
    ∧ (cgi_parse_input "evolutionGetActiveMessagesForDevice_recnosOnly=1".data).map
        (cgi_parsed_lookup "evolutionGetActiveMessagesForDevice=".data space_fill)
        = some (false, []) := by
  have hfields := cgi_parse_input_splitOn request fields hparse
  have hne : key ≠ [] := by
    intro h
    rw [h] at hkey
    simp at hkey
  have hiff : (cgi_parsed_lookup key space_fill fields).1 = true
      ↔ ∃ f ∈ request.splitOn '&', key <+: f := by
    rw [cgi_parsed_lookup_true_iff, hfields]
    constructor
    · rintro ⟨f, hf, hp⟩
      rcases List.mem_append.mp hf with h | h
      · exact ⟨f, h, hp⟩
      · simp only [List.mem_singleton] at h
        subst h
        exact absurd (List.prefix_nil.mp hp) hne
    · rintro ⟨f, hf, hp⟩
      exact ⟨f, List.mem_append_left _ hf, hp⟩
  refine ⟨hiff, ?_, ?_, ?_⟩
  · intro before f after hsplit hbefore hf
    rw [hfields, hsplit, List.append_assoc, List.cons_append]
    exact cgi_parsed_lookup_first key space_fill before f _ hbefore hf
  · intro hno
    apply cgi_parsed_lookup_false
    rw [← hiff] at hno
    simpa using hno
  · have h1 : cgi_parse_input "evolutionGetActiveMessagesForDevice_recnosOnly=1".data
        = some ["evolutionGetActiveMessagesForDevice_recnosOnly=1".data, []] := by decide
    rw [h1, Option.map_some']
    apply congrArg
    apply cgi_parsed_lookup_false
    have h2 := cgi_parsed_lookup_true_iff "evolutionGetActiveMessagesForDevice=".data space_fill
      ["evolutionGetActiveMessagesForDevice_recnosOnly=1".data, []]
    have h3 : ¬ ∃ f ∈ ["evolutionGetActiveMessagesForDevice_recnosOnly=1".data, []],
        "evolutionGetActiveMessagesForDevice=".data <+: f := by decide
    rw [← h2] at h3
    simpa using h3

/-- Witness of C14: the key `devicerecno=` in a request of two fields. -/
theorem cgi_parsed_lookup_fields_witness :
    cgi_parse_input "evolutionReportNetworkInfo=1&devicerecno=363".data
      = some ["evolutionReportNetworkInfo=1".data, "devicerecno=363".data, []]
    ∧ "devicerecno=".data.getLast? = some '='
    ∧ ((cgi_parsed_lookup "devicerecno=".data 0
          ["evolutionReportNetworkInfo=1".data, "devicerecno=363".data, []]).1 = true
        ↔ ∃ f ∈ "evolutionReportNetworkInfo=1&devicerecno=363".data.splitOn '&',
            "devicerecno=".data <+: f) :=
  ⟨by decide, by decide,
    (cgi_parsed_lookup_fields "evolutionReportNetworkInfo=1&devicerecno=363".data
      "devicerecno=".data 0 _ (by decide) (by decide)).1⟩

theorem main_select_first (fields : List CStr) (before : List (CStr × Action)) (key : CStr)
    (action : Action) (after : List (CStr × Action))
    (hbefore : ∀ ka ∈ before, ¬ ∃ f ∈ fields, ka.1 <+: f) (hkey : ∃ f ∈ fields, key <+: f) :
    main_select fields (before ++ (key, action) :: after) = action := by
  induction before with
  | nil =>
    simp only [List.nil_append, main_select]
    rw [if_pos ((cgi_parsed_lookup_true_iff key 80 fields).mpr hkey)]
  | cons ka before ih =>
    obtain ⟨k, a⟩ := ka
    have h1 : ¬ (cgi_parsed_lookup k 80 fields).1 = true := by
      rw [cgi_parsed_lookup_true_iff]
      exact hbefore (k, a) (List.mem_cons_self _ _)
    simp only [List.cons_append, main_select]
    rw [if_neg h1]
    exact ih (fun x hx => hbefore x (List.mem_cons_of_mem _ hx))

theorem redacted_action_keys_snd (n : Nat) (keys : List CStr) :
    ∀ ka ∈ redacted_action_keys n keys, ∃ m, ka.2 = Action.redacted m := by
  induction keys generalizing n with
  | nil => simp [redacted_action_keys]
  | cons k keys ih =>
    intro ka hka
    simp only [redacted_action_keys, List.mem_cons] at hka
    rcases hka with h | h
    · exact ⟨n, by rw [h]⟩
    · exact ih (n + 1) ka h

theorem action_keys_snd (redacted_keys : List CStr) :
    ∀ ka ∈ action_keys redacted_keys, ka.2 ≠ Action.no_command_found := by
  intro ka hka
  rcases List.mem_append.mp hka with h | h
  · obtain ⟨m, hm⟩ := redacted_action_keys_snd 0 redacted_keys ka h
    rw [hm]
    exact fun e => Action.noConfusion e
  · have hv : ∀ x ∈ visible_action_keys, x.2 ≠ Action.no_command_found := by decide
    exact hv ka h

theorem main_select_redacted_or (fields : List CStr) (n : Nat) (keys : List CStr)
    (chain : List (CStr × Action)) :
    main_select fields (redacted_action_keys n keys ++ chain) = main_select fields chain
    ∨ ∃ m, main_select fields (redacted_action_keys n keys ++ chain) = Action.redacted m := by
  induction keys generalizing n with
  | nil => left; rfl
  | cons k keys ih =>
    simp only [redacted_action_keys, List.cons_append, main_select]
    split_ifs
    · exact Or.inr ⟨n, rfl⟩
    · exact ih (n + 1)

/-- Whatever the keys of the redacted branches are, the chain of `main` does not select
the branch `evolutionReportNetworkInfo` for the request
`evolutionReportNetworkInfo=1&evolutionGetActiveMessagesForDevice=1&devicerecno=363`. -/
theorem report_network_info_not_selected (redacted_keys : List CStr) :
    (cgi_parse_input
        "evolutionReportNetworkInfo=1&evolutionGetActiveMessagesForDevice=1&devicerecno=363".data).map
      (fun fields => main_select fields (action_keys redacted_keys))
      ≠ some Action.evolutionReportNetworkInfo := by
  have h1 : cgi_parse_input
      "evolutionReportNetworkInfo=1&evolutionGetActiveMessagesForDevice=1&devicerecno=363".data
      = some ["evolutionReportNetworkInfo=1".data,
          "evolutionGetActiveMessagesForDevice=1".data, "devicerecno=363".data, []] := by
    decide
  rw [h1, Option.map_some']
  have h2 : main_select ["evolutionReportNetworkInfo=1".data,
      "evolutionGetActiveMessagesForDevice=1".data, "devicerecno=363".data, []]
      visible_action_keys = Action.evolutionGetActiveMessagesForDevice := by decide
  intro h
  simp only [Option.some.injEq] at h
  rcases main_select_redacted_or _ 0 redacted_keys visible_action_keys with h3 | ⟨m, h3⟩
  · rw [action_keys, h3, h2] at h
    exact Action.noConfusion h
  · rw [action_keys, h3] at h
    exact Action.noConfusion h

/-- C15 as stated fails. The first field of the request
`evolutionReportNetworkInfo=1&evolutionGetActiveMessagesForDevice=1&devicerecno=363`
names `evolutionReportNetworkInfo`, but the chain of `main` (no redacted key matching)
selects `evolutionGetActiveMessagesForDevice`, the key that it tests first; and it
selects the same branch for these fields in the reverse order. -/
theorem first_field_does_not_select :
    (cgi_parse_input
        "evolutionReportNetworkInfo=1&evolutionGetActiveMessagesForDevice=1&devicerecno=363".data).map
      (fun fields => main_select fields (action_keys []))
      = some Action.evolutionGetActiveMessagesForDevice
    ∧ (cgi_parse_input
        "devicerecno=363&evolutionGetActiveMessagesForDevice=1&evolutionReportNetworkInfo=1".data).map
      (fun fields => main_select fields (action_keys []))
      = some Action.evolutionGetActiveMessagesForDevice := by
  decide

/-- C15, amended. The action performed is that of the first key, in the order of the
chain of tests of `main`, that some field of the request begins with, wherever that field
stands in the request: when no key that the chain tests before `key` begins a field and
`key` begins one, the chain selects the branch of `key` and `main` prints what that
branch prints. -/
theorem main_chain_order (redacted_keys : List CStr)
    (respond : Action → List CStr → Option CStr) (request : CStr) (fields : List CStr)
    (before : List (CStr × Action)) (key : CStr) (action : Action)
    (after : List (CStr × Action))
    (hparse : cgi_parse_input request = some fields)
    (hchain : action_keys redacted_keys = before ++ (key, action) :: after)
    (hbefore : ∀ ka ∈ before, ¬ ∃ f ∈ fields, ka.1 <+: f)
    (hkey : ∃ f ∈ fields, key <+: f) :
    main_select fields (action_keys redacted_keys) = action
    ∧ main redacted_keys respond request = respond action fields := by
  have hsel : main_select fields (action_keys redacted_keys) = action := by
    rw [hchain]
    exact main_select_first fields before key action after hbefore hkey
  have hact : action ≠ Action.no_command_found :=
    action_keys_snd redacted_keys (key, action) (by rw [hchain]; simp)
  refine ⟨hsel, ?_⟩
  simp only [main, hparse, hsel]

/-- Witness of C15 (amended): the request of the claim, whose second field carries the
key that the chain tests first. -/
theorem main_chain_order_witness :
    main_select ["evolutionReportNetworkInfo=1".data,
        "evolutionGetActiveMessagesForDevice=1".data, "devicerecno=363".data, []]
      (action_keys []) = Action.evolutionGetActiveMessagesForDevice
    ∧ main [] (main_branch example_cgi_consts example_database example_message_data
          (fun _ _ => none))
        "evolutionReportNetworkInfo=1&evolutionGetActiveMessagesForDevice=1&devicerecno=363".data
      = main_branch example_cgi_consts example_database example_message_data
          (fun _ _ => none) Action.evolutionGetActiveMessagesForDevice
          ["evolutionReportNetworkInfo=1".data,
            "evolutionGetActiveMessagesForDevice=1".data, "devicerecno=363".data, []] :=
  main_chain_order [] _
    "evolutionReportNetworkInfo=1&evolutionGetActiveMessagesForDevice=1&devicerecno=363".data
    _ [] "evolutionGetActiveMessagesForDevice=".data Action.evolutionGetActiveMessagesForDevice
    (visible_action_keys.drop 1) (by decide) (by decide) (by decide) (by decide)

/-! ### The branches of `main` -/

theorem stored_line_text (size : Nat) (l : CStr) (h : stored_line size l) :
    ∃ t, l = t ++ ['\n'] ∧ '\n' ∉ t ∧ l.length < size :=
  ⟨l.dropLast, (List.dropLast_append_getLast? _ h.1).symm, h.2.1, h.2.2⟩

theorem read_lines_lines (size : Nat) (ls : List CStr)
    (hlines : ∀ l ∈ ls, ∃ t, l = t ++ ['\n'] ∧ '\n' ∉ t ∧ l.length < size) (fuel : Nat)
    (hfuel : ls.flatten.length ≤ fuel) :
    read_lines size fuel ls.flatten = ls := by
  induction ls generalizing fuel with
  | nil => cases fuel <;> simp [read_lines]
  | cons l ls ih =>
    obtain ⟨t, rfl, ht, hlen⟩ := hlines _ (List.mem_cons_self _ _)
    simp only [List.flatten_cons, List.length_append, List.length_cons, List.length_nil]
      at hfuel hlen
    have hfg := fgets_line t ls.flatten (size - 1) ht (by omega)
    obtain ⟨fuel, rfl⟩ : ∃ n, fuel = n + 1 := ⟨fuel - 1, by omega⟩
    have hform : (t ++ ['\n']) ++ ls.flatten = t ++ '\n' :: ls.flatten := by simp
    rw [List.flatten_cons, hform]
    cases t with
    | nil =>
      simp only [List.nil_append] at hfg ⊢
      simp only [read_lines, hfg]
      rw [ih (fun g hg => hlines g (List.mem_cons_of_mem _ hg)) fuel (by omega)]
    | cons c t =>
      simp only [List.cons_append] at hfg ⊢
      simp only [read_lines, hfg]
      rw [ih (fun g hg => hlines g (List.mem_cons_of_mem _ hg)) fuel (by omega)]

theorem print_journal_lines_eq (count : Nat) (ls : List CStr) :
    print_journal_lines count ls
      = (if 0 < count ∧ ls ≠ [] then ",".data else []) ++ ",".data.intercalate ls := by
  induction ls generalizing count with
  | nil => simp [print_journal_lines, List.intercalate]
  | cons l ls ih =>
    rw [print_journal_lines, ih (count + 1)]
    cases ls with
    | nil => simp [List.intercalate]
    | cons m ls =>
      simp [List.intercalate, List.intersperse]

/-- C16. When the request selects `evolutionGetActiveMessagesForDevice` and names the
device `R`: if the journal file of `R` holds the lines `ls` (each as stored, with the
newline that ends it, and shorter than the read buffer of `MAX_CHARS` bytes; there may be
none), the response is `{"evolution_active_msgs":[`, the lines separated by single
commas, and `]}`; if the file cannot be opened the response is empty. -/
theorem active_messages_response (k : CgiConsts) (db : CgiDatabase)
    (message_data : Nat → CStr → CStr → Option (CStr × CStr))
    (redacted : Nat → List CStr → Option CStr) (redacted_keys : List CStr)
    (request : CStr) (fields : List CStr) (R : Nat) (ls : List CStr)
    (hparse : cgi_parse_input request = some fields)
    (hsel : main_select fields (action_keys redacted_keys)
      = Action.evolutionGetActiveMessagesForDevice)
    (hR : cgi_parsed_lookup_record_number k "devicerecno=".data 0 fields = R)
    (hlines : ∀ l ∈ ls, stored_line k.MAX_CHARS l) :
    (db.fopen (journal_file_name R) = some ls.flatten →
      main redacted_keys (main_branch k db message_data redacted) request
        = some ("\x7b\"evolution_active_msgs\":[".data ++ ",".data.intercalate ls
            ++ "]\x7d".data))
    ∧ (db.fopen (journal_file_name R) = none →
      main redacted_keys (main_branch k db message_data redacted) request = some []) := by
  have hmain : main redacted_keys (main_branch k db message_data redacted) request
      = some (evolutionGetActiveMessagesForDevice k db fields) := by
    simp only [main, hparse, hsel, main_branch]
  rw [hmain]
  unfold evolutionGetActiveMessagesForDevice
  simp only [hR]
  constructor
  · intro hfile
    simp only [hfile]
    rw [read_lines_lines k.MAX_CHARS ls (fun l hl => stored_line_text _ l (hlines l hl)) _
      (Nat.le_refl _), print_journal_lines_eq]
    simp
  · intro hfile
    simp only [hfile]

/-- Witness of C16: the journal of device 363 with two lines. -/
theorem active_messages_response_witness :
    main [] (main_branch example_cgi_consts example_database example_message_data
        (fun _ _ => none)) "evolutionGetActiveMessagesForDevice=1&devicerecno=363".data
      = some "\x7b\"evolution_active_msgs\":[\x7b\"signseqnum\":0\x7d\n,\x7b\"signseqnum\":1\x7d\n]\x7d".data :=
  (active_messages_response example_cgi_consts example_database example_message_data
    (fun _ _ => none) [] "evolutionGetActiveMessagesForDevice=1&devicerecno=363".data
    ["evolutionGetActiveMessagesForDevice=1".data, "devicerecno=363".data, []] 363
    ["\x7b\"signseqnum\":0\x7d\n".data, "\x7b\"signseqnum\":1\x7d\n".data]
    (by decide) (by decide) (by decide) (by decide)).1 (by decide)

theorem mn_snprintf_recno (n : Nat) (h : n < 10 ^ 9) :
    mn_snprintf 10 (FORMAT_DBRECORD_STR n) = FORMAT_DBRECORD_STR n := by
  have hlen : (FORMAT_DBRECORD_STR n).length ≤ 9 :=
    Nat.toDigitsCore_length 10 (by decide) (n + 1) n 9 h (by decide)
  unfold mn_snprintf
  exact List.take_of_length_le hlen

theorem listed_rows_none (reads : List (Option SignMessagesRow)) :
    listed_rows (none :: reads) = listed_rows reads := by
  simp [listed_rows]

theorem listed_rows_some (row : SignMessagesRow) (reads : List (Option SignMessagesRow)) :
    listed_rows (some row :: reads)
      = if 0 < row.dwc_record_num then row :: listed_rows reads else listed_rows reads := by
  by_cases h : 0 < row.dwc_record_num <;> simp [listed_rows, List.filter_cons, h]

theorem recno_type_entry_texts (row : SignMessagesRow) :
    ["\x7b\"recno\":\"".data, FORMAT_DBRECORD_STR row.dwc_record_num,
      (match row.dwc_message_type with
        | 1 => "\",\"type\":\"active\"\x7d".data
        | 2 => "\",\"type\":\"waiting\"\x7d".data
        | 3 => "\",\"type\":\"hidden\"\x7d".data
        | _ => "\",\"type\":\"unknown\"\x7d".data)].flatten = recno_type_entry row := by
  unfold recno_type_entry message_type_name
  match row.dwc_message_type with
  | 0 => simp
  | 1 => simp
  | 2 => simp
  | 3 => simp
  | n + 4 => simp

theorem recnosOnly_loop_eq (size : Nat) (before : List (Option SignMessagesRow))
    (sentinel : SignMessagesRow) (after : List (Option SignMessagesRow)) (response : CStr)
    (i : Nat)
    (hbefore : ∀ row ∈ before.filterMap id, is_sentinel row = false)
    (hsentinel : is_sentinel sentinel = true)
    (hrecno : ∀ row ∈ listed_rows before, row.dwc_record_num < 10 ^ 9)
    (hfit : (response
      ++ print_journal_lines i ((listed_rows before).map recno_type_entry)).length < size) :
    recnosOnly_loop size (before ++ some sentinel :: after) response i
      = some (response ++ print_journal_lines i ((listed_rows before).map recno_type_entry),
          i + (listed_rows before).length, after) := by
  induction before generalizing response i with
  | nil =>
    simp only [is_sentinel, Bool.or_eq_true, decide_eq_true_eq] at hsentinel
    simp only [List.nil_append, recnosOnly_loop, listed_rows, List.filterMap_nil,
      List.filter_nil, List.map_nil, print_journal_lines, List.append_nil, List.length_nil,
      Nat.add_zero]
    rcases hsentinel with h | h <;> simp [h]
  | cons read before ih =>
    cases read with
    | none =>
      have hb : ∀ row ∈ before.filterMap id, is_sentinel row = false :=
        fun row hrow => hbefore row (by simpa using hrow)
      rw [listed_rows_none] at hrecno hfit ⊢
      simp only [List.cons_append, recnosOnly_loop]
      exact ih response i hb hrecno hfit
    | some row =>
      have hb : ∀ row ∈ before.filterMap id, is_sentinel row = false :=
        fun r hr => hbefore r (by simp only [List.filterMap_cons, id]; exact List.mem_cons_of_mem _ hr)
      have hrow := hbefore row (by simp)
      simp only [is_sentinel, Bool.or_eq_false_iff, decide_eq_false_iff_not] at hrow
      rw [listed_rows_some] at hrecno hfit ⊢
      simp only [List.cons_append, recnosOnly_loop, if_neg hrow.1, if_neg hrow.2]
      by_cases hpos : 0 < row.dwc_record_num
      · simp only [if_pos hpos] at hrecno hfit ⊢
        simp only [List.map_cons, print_journal_lines, List.length_append,
          List.length_cons] at hfit ⊢
        have hr := mn_snprintf_recno _ (hrecno row (List.mem_cons_self _ _))
        have hentry := recno_type_entry_texts row
        have hcomma : (if 0 < i then strcatl response ",".data size else response)
            = response ++ (if 0 < i then ",".data else []) := by
          split_ifs
          · exact strcatl_fits _ _ _ (by
              simp only [List.length_append, if_pos ‹0 < i›] at hfit ⊢; omega)
          · simp
        have hcat := strcatl_all_fits size
          ["\x7b\"recno\":\"".data, FORMAT_DBRECORD_STR row.dwc_record_num,
            (match row.dwc_message_type with
              | 1 => "\",\"type\":\"active\"\x7d".data
              | 2 => "\",\"type\":\"waiting\"\x7d".data
              | 3 => "\",\"type\":\"hidden\"\x7d".data
              | _ => "\",\"type\":\"unknown\"\x7d".data)]
          (response ++ (if 0 < i then ",".data else [])) (by
            rw [hentry]; simp only [List.length_append] at hfit ⊢; omega)
        rw [hentry] at hcat
        have hnext := ih (response ++ (if 0 < i then ",".data else []) ++ recno_type_entry row)
          (i + 1) hb (fun r hr => hrecno r (List.mem_cons_of_mem _ hr)) (by
            simp only [List.length_append] at hfit ⊢; omega)
        rw [hcomma, hr]
        refine Eq.trans (congrArg (fun r => recnosOnly_loop size _ r (i + 1)) hcat) ?_
        refine Eq.trans hnext ?_
        simp only [List.append_assoc, List.length_cons, Option.some.injEq, Prod.mk.injEq,
          true_and, and_true]
        omega
      · simp only [if_neg hpos] at hrecno hfit ⊢
        exact ih response i hb hrecno hfit

/-- C17. When the request selects `evolutionGetActiveMessagesForDevice_recnosOnly`, the
database opens, the command is written, and the reads give `before`, then a sentinel
(flag 1 or 2), then `after`, with no sentinel in `before`: the response lists, in stream
order, one entry `{"recno":"R","type":"T"}` for each envelope of `before` with a positive
record number, `T` being `active`, `waiting`, `hidden` for message type 1, 2, 3 and
`unknown` otherwise, and the reads `after` are left unread. The record numbers have at
most 9 digits (the conversion buffer) and the response fits its buffer of `MAX_CHARS`
bytes. -/
theorem recnosOnly_response (k : CgiConsts) (db : CgiDatabase)
    (message_data : Nat → CStr → CStr → Option (CStr × CStr))
    (redacted : Nat → List CStr → Option CStr) (redacted_keys : List CStr)
    (request : CStr) (fields : List CStr) (R : Nat)
    (before : List (Option SignMessagesRow)) (sentinel : SignMessagesRow)
    (after : List (Option SignMessagesRow))
    (hparse : cgi_parse_input request = some fields)
    (hsel : main_select fields (action_keys redacted_keys)
      = Action.evolutionGetActiveMessagesForDevice_recnosOnly)
    (hR : cgi_parsed_lookup_record_number k "devicerecno=".data 0 fields = R)
    (hinit : (db.db_syspa_init || db.db_wtc_init) = false)
    (hwrite : db.command_wtc_write_error = false)
    (hreads : db.command_wtc_read = before ++ some sentinel :: after)
    (hbefore : ∀ row ∈ before.filterMap id, is_sentinel row = false)
    (hsentinel : is_sentinel sentinel = true)
    (hdigits : R < 10 ^ 9 ∧ ∀ row ∈ listed_rows before, row.dwc_record_num < 10 ^ 9)
    (hfit : (recnos_response R (listed_rows before)).length < k.MAX_CHARS) :
    main redacted_keys (main_branch k db message_data redacted) request
      = some (recnos_response R (listed_rows before))
    ∧ (evolutionGetActiveMessagesForDevice_recnosOnly k db fields).map Prod.snd
      = some after := by
  have hmain : main redacted_keys (main_branch k db message_data redacted) request
      = (evolutionGetActiveMessagesForDevice_recnosOnly k db fields).map Prod.fst := by
    simp only [main, hparse, hsel, main_branch]
  have e1 : "\x7b\"hwRecno\":\"".data.length = 12 := by decide
  have e2 : "\",\"activeMessages\":[".data.length = 20 := by decide
  have e3 : "]\x7d".data.length = 2 := by decide
  have hprint := print_journal_lines_eq 0 ((listed_rows before).map recno_type_entry)
  simp only [Nat.lt_irrefl, false_and, if_false, List.nil_append] at hprint
  have hlen : (recnos_response R (listed_rows before)).length
      = 12 + (FORMAT_DBRECORD_STR R).length + 20
        + (print_journal_lines 0 ((listed_rows before).map recno_type_entry)).length + 2 := by
    rw [hprint]
    simp only [recnos_response, List.length_append, e1, e2, e3]
  have hheadtext : [ "\x7b".data, "\"hwRecno\":\"".data, FORMAT_DBRECORD_STR R,
      "\"".data, ",".data, "\"activeMessages\":[".data ].flatten
      = "\x7b\"hwRecno\":\"".data ++ FORMAT_DBRECORD_STR R
        ++ "\",\"activeMessages\":[".data := by
    simp
  have hhead := strcatl_all_fits k.MAX_CHARS
    [ "\x7b".data, "\"hwRecno\":\"".data, FORMAT_DBRECORD_STR R,
      "\"".data, ",".data, "\"activeMessages\":[".data ] [] (by
      rw [hheadtext]
      simp only [List.length_append, e1, e2, List.length_nil]
      omega)
  rw [hheadtext, List.nil_append] at hhead
  have hloop := recnosOnly_loop_eq k.MAX_CHARS before sentinel after
    ("\x7b\"hwRecno\":\"".data ++ FORMAT_DBRECORD_STR R ++ "\",\"activeMessages\":[".data) 0
    hbefore hsentinel hdigits.2 (by
      simp only [List.length_append, e1, e2]
      omega)
  have hclose := strcatl_fits
    ("\x7b\"hwRecno\":\"".data ++ FORMAT_DBRECORD_STR R ++ "\",\"activeMessages\":[".data
      ++ print_journal_lines 0 ((listed_rows before).map recno_type_entry))
    "]\x7d".data k.MAX_CHARS (by
      simp only [List.length_append, e1, e2, e3]
      omega)
  have hrun : evolutionGetActiveMessagesForDevice_recnosOnly k db fields
      = some (recnos_response R (listed_rows before), after) := by
    unfold evolutionGetActiveMessagesForDevice_recnosOnly
    simp only [hinit, Bool.false_eq_true, if_false, hwrite, hR,
      mn_snprintf_recno R hdigits.1, hreads]
    rw [hhead, hloop]
    show some (strcatl _ _ _, after) = _
    rw [hclose, hprint]
    rfl
  rw [hmain, hrun]
  exact ⟨rfl, rfl⟩

/-- Witness of C17: two active messages, a read without a row between them, the sentinel,
and one more envelope behind the sentinel. -/
theorem recnosOnly_response_witness :
    main [] (main_branch example_cgi_consts example_database example_message_data
        (fun _ _ => none))
      "evolutionGetActiveMessagesForDevice_recnosOnly=1&devicerecno=363".data
      = some ("\x7b\"hwRecno\":\"363\",\"activeMessages\":[".data
          ++ "\x7b\"recno\":\"345\",\"type\":\"active\"\x7d,".data
          ++ "\x7b\"recno\":\"346\",\"type\":\"active\"\x7d]\x7d".data)
    ∧ (evolutionGetActiveMessagesForDevice_recnosOnly example_cgi_consts example_database
        ["evolutionGetActiveMessagesForDevice_recnosOnly=1".data, "devicerecno=363".data,
          []]).map Prod.snd = some [some ⟨0, 347, 2⟩] :=
  recnosOnly_response example_cgi_consts example_database example_message_data
    (fun _ _ => none) [] "evolutionGetActiveMessagesForDevice_recnosOnly=1&devicerecno=363".data
    ["evolutionGetActiveMessagesForDevice_recnosOnly=1".data, "devicerecno=363".data, []] 363
    [some ⟨0, 345, 1⟩, none, some ⟨0, 346, 1⟩] ⟨1, 0, 0⟩ [some ⟨0, 347, 2⟩]
    (by decide) (by decide) (by decide) rfl rfl rfl (by decide) (by decide) (by decide)
    (by decide)

/-- C18: the code at the failing input. The reads give two envelopes of message type 1
(records 345 and 346) and the end-of-response sentinel. `recnosOnly` lists two `active`
entries for them; `countsOnly` reports `active_messages` 1: it counts an envelope only
when its message type differs from the type of the envelope counted before. -/
theorem countsOnly_counts_type_changes :
    main [] (main_branch example_cgi_consts example_database example_message_data
        (fun _ _ => none))
      "evolutionGetActiveMessagesForDevice_countsOnly=1&devicerecno=363".data
      = some ("\x7b\"active_messages\":1,\"active_messages_waiting\":0,".data
          ++ "\"active_messages_hidden\":0\x7d".data)
    ∧ main [] (main_branch example_cgi_consts example_database example_message_data
        (fun _ _ => none))
      "evolutionGetActiveMessagesForDevice_recnosOnly=1&devicerecno=363".data
      = some ("\x7b\"hwRecno\":\"363\",\"activeMessages\":[".data
          ++ "\x7b\"recno\":\"345\",\"type\":\"active\"\x7d,".data
          ++ "\x7b\"recno\":\"346\",\"type\":\"active\"\x7d]\x7d".data) := by
  decide

/-- C19 as stated fails. With `ipMethodConfig=Static`, `ipMethodCurrent=DHCP` and an
address that differs from the stored `192.168.1.50`, the configured method is not DHCP,
yet the stored address of record 363 becomes `192.168.1.229` and a hardware-update
envelope is written. -/
theorem current_method_dhcp_updates :
    (evolutionReportNetworkInfo example_cgi_consts example_database
      ["evolutionReportNetworkInfo=1".data, "devicerecno=363".data,
        "ipMethodConfig=Static".data, "ipMethodCurrent=DHCP".data,
        "ipAddress=192.168.1.229".data, []]).dhc_terminal_server_ip 363
      = some "192.168.1.229  ".data
    ∧ (evolutionReportNetworkInfo example_cgi_consts example_database
      ["evolutionReportNetworkInfo=1".data, "devicerecno=363".data,
        "ipMethodConfig=Static".data, "ipMethodCurrent=DHCP".data,
        "ipAddress=192.168.1.229".data, []]).hard_update_written = [363]
    ∧ main [] (main_branch example_cgi_consts example_database example_message_data
        (fun _ _ => none))
      ("evolutionReportNetworkInfo=1&devicerecno=363&ipMethodConfig=Static".data
        ++ "&ipMethodCurrent=DHCP&ipAddress=192.168.1.229".data)
      = some "Hardware record network info updated".data := by
  decide

/-- C19, amended. For a request that selects `evolutionReportNetworkInfo` and names an
existing hardware record `R` (the database opens, `db_hard_write` succeeds): if the
looked-up `ipMethodConfig` or the looked-up `ipMethodCurrent` is `DHCP` (blank-padded to
six characters) and the looked-up address differs from the stored one, the stored address
of `R` becomes the reported one, no other record changes, one hardware-update envelope
is written for `R`, and the response is `Hardware record network info updated`; in every
other case no record changes and no envelope is written. -/
theorem report_network_info_effect (k : CgiConsts) (db : CgiDatabase)
    (message_data : Nat → CStr → CStr → Option (CStr × CStr))
    (redacted : Nat → List CStr → Option CStr) (redacted_keys : List CStr)
    (request : CStr) (fields : List CStr) (R : Nat)
    (ipMethodConfigured ipMethodActual ipAddress stored : CStr)
    (hparse : cgi_parse_input request = some fields)
    (hsel : main_select fields (action_keys redacted_keys) = Action.evolutionReportNetworkInfo)
    (hR : cgi_parsed_lookup_record_number k "devicerecno=".data 0 fields = R)
    (hconfig : (cgi_parsed_lookup "ipMethodConfig=".data 7 fields).2 = ipMethodConfigured)
    (hactual : (cgi_parsed_lookup "ipMethodCurrent=".data 7 fields).2 = ipMethodActual)
    (haddress : (cgi_parsed_lookup "ipAddress=".data k.IP_LENGTH fields).2 = ipAddress)
    (hinit : (db.db_syspa_init || db.db_wtc_init || db.db_hard_init) = false)
    (hrecord : 0 < R ∧ db.dhc_terminal_server_ip R = some stored)
    (hwrite : db.db_hard_write_error = false) :
    (((ipMethodConfigured = "DHCP  ".data ∨ ipMethodActual = "DHCP  ".data)
        ∧ ipAddress ≠ stored) →
      (evolutionReportNetworkInfo k db fields).dhc_terminal_server_ip R
          = some (strcpyl ipAddress k.IP_LENGTH)
        ∧ (∀ r, r ≠ R → (evolutionReportNetworkInfo k db fields).dhc_terminal_server_ip r
            = db.dhc_terminal_server_ip r)
        ∧ (evolutionReportNetworkInfo k db fields).hard_update_written = [R]
        ∧ main redacted_keys (main_branch k db message_data redacted) request
            = some "Hardware record network info updated".data)
    ∧ (¬ ((ipMethodConfigured = "DHCP  ".data ∨ ipMethodActual = "DHCP  ".data)
        ∧ ipAddress ≠ stored) →
      (evolutionReportNetworkInfo k db fields).dhc_terminal_server_ip
          = db.dhc_terminal_server_ip
        ∧ (evolutionReportNetworkInfo k db fields).hard_update_written = []) := by
  have hmain : main redacted_keys (main_branch k db message_data redacted) request
      = some (evolutionReportNetworkInfo k db fields).stdout := by
    simp only [main, hparse, hsel, main_branch]
  rw [hmain]
  unfold evolutionReportNetworkInfo
  simp only [hR, hconfig, hactual, haddress, hinit, Bool.false_eq_true, if_false, hrecord.1,
    if_true, hrecord.2, hwrite]
  constructor
  · rintro ⟨hdhcp, hdiff⟩
    simp only [hdiff, ne_eq, not_false_eq_true, if_true, hdhcp]
    refine ⟨trivial, ?_, trivial, trivial⟩
    intro r hr
    simp only [hr, if_false]
  · intro hno
    by_cases hdiff : ipAddress = stored
    · simp only [hdiff, ne_eq, not_true_eq_false, if_false, and_self]
    · have hdhcp : ¬ (ipMethodConfigured = "DHCP  ".data ∨ ipMethodActual = "DHCP  ".data) :=
        fun h => hno ⟨h, hdiff⟩
      simp only [hdiff, ne_eq, not_false_eq_true, if_true, hdhcp, if_false, and_self]

/-- Witness of C19 (amended): scenario 5 of the specification. -/
theorem report_network_info_effect_witness :
    (evolutionReportNetworkInfo example_cgi_consts example_database
      ["evolutionReportNetworkInfo=1".data, "devicerecno=363".data,
        "ipMethodConfig=DHCP".data, "ipMethodCurrent=DHCP".data,
        "ipAddress=192.168.1.229".data, []]).dhc_terminal_server_ip 363
      = some (strcpyl "192.168.1.229  ".data example_cgi_consts.IP_LENGTH)
    ∧ (∀ r, r ≠ 363 → (evolutionReportNetworkInfo example_cgi_consts example_database
      ["evolutionReportNetworkInfo=1".data, "devicerecno=363".data,
        "ipMethodConfig=DHCP".data, "ipMethodCurrent=DHCP".data,
        "ipAddress=192.168.1.229".data, []]).dhc_terminal_server_ip r
      = example_database.dhc_terminal_server_ip r)
    ∧ (evolutionReportNetworkInfo example_cgi_consts example_database
      ["evolutionReportNetworkInfo=1".data, "devicerecno=363".data,
        "ipMethodConfig=DHCP".data, "ipMethodCurrent=DHCP".data,
        "ipAddress=192.168.1.229".data, []]).hard_update_written = [363]
    ∧ main [] (main_branch example_cgi_consts example_database example_message_data
        (fun _ _ => none))
      ("evolutionReportNetworkInfo=1&devicerecno=363&ipMethodConfig=DHCP".data
        ++ "&ipMethodCurrent=DHCP&ipAddress=192.168.1.229".data)
      = some "Hardware record network info updated".data :=
  (report_network_info_effect example_cgi_consts example_database example_message_data
    (fun _ _ => none) []
    ("evolutionReportNetworkInfo=1&devicerecno=363&ipMethodConfig=DHCP".data
      ++ "&ipMethodCurrent=DHCP&ipAddress=192.168.1.229".data)
    ["evolutionReportNetworkInfo=1".data, "devicerecno=363".data,
      "ipMethodConfig=DHCP".data, "ipMethodCurrent=DHCP".data,
      "ipAddress=192.168.1.229".data, []] 363
    "DHCP  ".data "DHCP  ".data "192.168.1.229  ".data "192.168.1.50   ".data
    (by decide) (by decide) (by decide) (by decide) (by decide) (by decide) (by decide)
    (by decide) (by decide)).1 (by decide)

/-- C20 as stated fails. When `db_syspa_init` reports an error, the `countsOnly` response
is `-1` followed by the three counters, and the `evolutionGetMessageDataForRecnoZX`
response is `Database initialization error` followed by `{}` and a newline. -/
theorem init_error_responses_differ :
    main [] (main_branch example_cgi_consts example_database_init_error
        example_message_data (fun _ _ => none))
      "evolutionGetActiveMessagesForDevice_countsOnly=1&devicerecno=363".data
      = some ("-1\x7b\"active_messages\":0,\"active_messages_waiting\":0,".data
          ++ "\"active_messages_hidden\":0\x7d".data)
    ∧ main [] (main_branch example_cgi_consts example_database_init_error
        example_message_data (fun _ _ => none))
      "evolutionGetMessageDataForRecnoZX=1&msgrecno=345&deviceid=omni1".data
      = some "Database initialization error\x7b\x7d\n".data := by
  decide

/-- C20, amended. When the database initialisation of the selected branch fails (and the
response buffer has room for the text, 30 bytes): the response of `recnosOnly` and of
`evolutionReportNetworkInfo` is exactly `Database initialization error`; the response of
`evolutionGetMessageDataForRecnoZX` begins with that text; the response of `countsOnly`
begins with `-1`. -/
theorem init_error_response (k : CgiConsts) (db : CgiDatabase)
    (message_data : Nat → CStr → CStr → Option (CStr × CStr))
    (redacted : Nat → List CStr → Option CStr) (redacted_keys : List CStr)
    (request : CStr) (fields : List CStr)
    (hparse : cgi_parse_input request = some fields)
    (hsize : 30 ≤ k.MAX_CHARS) :
    (main_select fields (action_keys redacted_keys)
        = Action.evolutionGetActiveMessagesForDevice_recnosOnly →
      (db.db_syspa_init || db.db_wtc_init) = true →
      main redacted_keys (main_branch k db message_data redacted) request
        = some "Database initialization error".data)
    ∧ (main_select fields (action_keys redacted_keys) = Action.evolutionReportNetworkInfo →
      (db.db_syspa_init || db.db_wtc_init || db.db_hard_init) = true →
      main redacted_keys (main_branch k db message_data redacted) request
        = some "Database initialization error".data)
    ∧ (main_select fields (action_keys redacted_keys)
        = Action.evolutionGetMessageDataForRecnoZX →
      (db.db_syspa_init || db.db_bann_init || db.db_list_init || db.db_signs_init
        || db.db_hard_init || db.db_staff_init) = true →
      ∃ more, main redacted_keys (main_branch k db message_data redacted) request
        = some ("Database initialization error".data ++ more))
    ∧ (main_select fields (action_keys redacted_keys)
        = Action.evolutionGetActiveMessagesForDevice_countsOnly →
      (db.db_syspa_init || db.db_wtc_init) = true →
      ∃ more, main redacted_keys (main_branch k db message_data redacted) request
        = some ("-1".data ++ more)) := by
  have htext : strcatl [] "Database initialization error".data k.MAX_CHARS
      = "Database initialization error".data := by
    have e : "Database initialization error".data.length = 29 := by decide
    rw [strcatl_fits _ _ _ (by rw [e]; simp only [List.length_nil]; omega), List.nil_append]
  refine ⟨?_, ?_, ?_, ?_⟩
  · intro hsel hinit
    simp only [main, hparse, hsel, main_branch, evolutionGetActiveMessagesForDevice_recnosOnly,
      hinit, if_true, Option.map_some', htext]
  · intro hsel hinit
    simp only [main, hparse, hsel, main_branch, evolutionReportNetworkInfo, hinit, if_true]
  · intro hsel hinit
    refine ⟨strcatl (strcatl [] "\x7b".data k.MAX_CHARS) "\x7d\n".data k.MAX_CHARS, ?_⟩
    simp only [main, hparse, hsel, main_branch, evolutionGetMessageDataForRecnoZX, hinit,
      if_true, Option.map_some']
  · intro hsel hinit
    refine ⟨print_counts ⟨0, 0, 0, 0⟩, ?_⟩
    simp only [main, hparse, hsel, main_branch, evolutionGetActiveMessagesForDevice_countsOnly,
      hinit, if_true, Option.map_some']

/-- Witness of C20 (amended): `recnosOnly` when `db_syspa_init` reports an error. -/
theorem init_error_response_witness :
    main [] (main_branch example_cgi_consts example_database_init_error
        example_message_data (fun _ _ => none))
      "evolutionGetActiveMessagesForDevice_recnosOnly=1&devicerecno=363".data
      = some "Database initialization error".data :=
  (init_error_response example_cgi_consts example_database_init_error example_message_data
    (fun _ _ => none) [] "evolutionGetActiveMessagesForDevice_recnosOnly=1&devicerecno=363".data
    ["evolutionGetActiveMessagesForDevice_recnosOnly=1".data, "devicerecno=363".data, []]
    (by decide) (by decide)).1 (by decide) (by decide)

/-! ### The message object of `evolutionGetMessageDataForRecnoZX` -/

/-- C21 fails. For the existing record 345 the response of
`evolutionGetMessageDataForRecnoZX` has one opening and two closing braces (it ends with
two closing braces and a newline), while the per-message object of the dispatcher for
the same record has one of each. The member names of the dispatcher's object are those
of the specification, in its order; in the response `recno_zx` comes before
`dbb_rec_dtsec` and `dbb_page_priority_at_launch` is missing. -/
theorem recno_zx_response_is_not_an_object :
    example_recno_zx_response.map
        (fun response => (response.count '\x7b', response.count '\x7d')) = some (1, 2)
      ∧ example_recno_zx_response.map (fun response => response.reverse.take 3)
        = some ['\n', '\x7d', '\x7d']
      ∧ example_dispatcher_object.map
          (fun object => (object.count '\x7b', object.count '\x7d')) = some (1, 1)
      ∧ example_dispatcher_object.map object_keys = some dispatcher_object_keys
      ∧ example_recno_zx_response.map object_keys
        = some ["signseqnum".data, "recno_zx".data, "dbb_rec_dtsec".data,
            "recno_template".data, "dbb_duration".data, "msgtype".data, "msgtext".data,
            "msgdetails".data, "dsi_audio_group_name".data, "dbb_audio_groups".data,
            "dbb_playtime_duration".data, "dbb_flasher_duration".data,
            "dbb_light_signal".data, "dbb_light_duration".data, "dbb_audio_tts_gain".data,
            "dbb_flash_new_message".data, "dbb_visible_time".data,
            "dbb_visible_frequency".data, "dbb_visible_duration".data,
            "dbb_record_voice_at_launch_selection".data, "dbb_record_voice_at_launch".data,
            "dbb_audio_recorded_gain".data, "dbb_pa_delivery_mode".data,
            "dbb_audio_repeat".data, "dbb_speed".data, "dbb_priority".data,
            "dbb_expire_priority".data, "dbb_priority_duration".data, "multimediatype".data,
            "dbb_multimedia_audio_gain".data, "webpageurl".data, "dbb_launch_pin".data,
            "dss_gender".data]
      ∧ example_recno_zx_response.map object_keys ≠ some dispatcher_object_keys := by
  decide

/-! ### The result of the sender -/

theorem transaction_ret (size : Nat) (net : Network) (w : World)
    (post_cmd_buf : Option CStr) :
    (transaction size net w post_cmd_buf).ret
      = (if net.connect.headD false = true ∨ connect_retry 5 net.connect.tail = true then 0
          else -1)
      ∧ ((transaction size net w post_cmd_buf).ret = -1 →
          (transaction size net w post_cmd_buf).world.written = w.written
            ∧ (transaction size net w post_cmd_buf).got_response = false) := by
  unfold transaction
  split
  · split
    · exact ⟨rfl, fun h => by cases h⟩
    · exact ⟨rfl, fun h => by cases h⟩
  · exact ⟨rfl, fun _ => ⟨rfl, rfl⟩⟩

theorem send_body_ret (size : Nat) (net : Network) (w : World) (body : CStr) :
    (send_body size net w body).ret
      = (if (http_post size body).isSome = true
            ∧ (net.connect.headD false = true ∨ connect_retry 5 net.connect.tail = true)
          then 0 else -1)
      ∧ ((send_body size net w body).ret = -1 →
          (send_body size net w body).world.written = w.written
            ∧ (send_body size net w body).got_response = false) := by
  unfold send_body
  split
  · rename_i h
    rw [h]
    exact ⟨by simp, fun _ => ⟨rfl, rfl⟩⟩
  · rename_i post h
    rw [h]
    have ht := transaction_ret size net w post
    refine ⟨?_, ht.2⟩
    rw [ht.1]
    simp

theorem send_body_ret_eq (size : Nat) (net1 net2 : Network) (w : World) (body : CStr)
    (hconnect : net1.connect = net2.connect) :
    (send_body size net1 w body).ret = (send_body size net2 w body).ret
      ∧ ((send_body size net1 w body).ret = 0 ∨ (send_body size net1 w body).ret = -1)
      ∧ ((send_body size net1 w body).ret = -1 →
          (send_body size net1 w body).world.written = w.written
            ∧ (send_body size net1 w body).got_response = false) := by
  refine ⟨?_, ?_, (send_body_ret size net1 w body).2⟩
  · rw [(send_body_ret size net1 w body).1, (send_body_ret size net2 w body).1, hconnect]
  · rw [(send_body_ret size net1 w body).1]
    split
    · exact Or.inl rfl
    · exact Or.inr rfl

/-- C22 as stated fails. A clear-sign request whose write writes nothing, one for which
no response arrives in the first read and its 5 retries, and one that receives a
response all return 0 (only the first writes nothing, only the last reads a response). -/
theorem write_failure_and_timeout_return_zero :
    (send_to_evolution_appliance_discreteMsg example_consts example_network_write_fails none
        (example_clear_sign "A".data) (example_world [0, 0, 0] [[], [], []] none)
        BANNER_EVOLUTION_CMD_CLEAR_SIGN 0 0 [] 0).map
        (fun r => (r.ret, r.got_response, r.world.written.length)) = some (0, false, 0)
      ∧ (send_to_evolution_appliance_discreteMsg example_consts example_network_no_response
        none (example_clear_sign "A".data) (example_world [0, 0, 0] [[], [], []] none)
        BANNER_EVOLUTION_CMD_CLEAR_SIGN 0 0 [] 0).map
        (fun r => (r.ret, r.got_response, r.world.written.length)) = some (0, false, 1)
      ∧ (send_to_evolution_appliance_discreteMsg example_consts example_network none
        (example_clear_sign "A".data) (example_world [0, 0, 0] [[], [], []] none)
        BANNER_EVOLUTION_CMD_CLEAR_SIGN 0 0 [] 0).map
        (fun r => (r.ret, r.got_response, r.world.written.length)) = some (0, true, 1) := by
  decide

/-- C22, amended. The result of `send_to_evolution_appliance_discreteMsg` does not depend
on what the write and the reads return: two calls that differ only in these return the
same value. The value is 0 or -1, and when it is -1 nothing was written and no response
was read (no request was built, or every connect attempt failed). -/
theorem send_result_ignores_write_and_read (c : Consts) (net1 net2 : Network)
    (db_bann : Option BannerView) (db_wtc : Envelope) (w : World)
    (banner_evo_cmd bann_recno sequence_number : Nat) (message : CStr) (template_recno : Nat)
    (r1 r2 : SendResult)
    (hconnect : net1.connect = net2.connect)
    (h1 : send_to_evolution_appliance_discreteMsg c net1 db_bann db_wtc w banner_evo_cmd
      bann_recno sequence_number message template_recno = some r1)
    (h2 : send_to_evolution_appliance_discreteMsg c net2 db_bann db_wtc w banner_evo_cmd
      bann_recno sequence_number message template_recno = some r2) :
    r1.ret = r2.ret ∧ (r1.ret = 0 ∨ r1.ret = -1)
      ∧ (r1.ret = -1 → r1.world.written = w.written ∧ r1.got_response = false) := by
  unfold send_to_evolution_appliance_discreteMsg at h1 h2
  simp only at h1 h2
  split at h1
  · rename_i hc
    simp only [hc, ↓reduceIte, Option.some.injEq] at h1 h2
    subst h1; subst h2
    exact send_body_ret_eq _ _ _ _ _ hconnect
  · rename_i hc
    simp only [hc, ↓reduceIte] at h2
    split at h1
    · rename_i hc
      simp only [hc, ↓reduceIte, Option.some.injEq] at h1 h2
      subst h1; subst h2
      exact send_body_ret_eq _ _ _ _ _ hconnect
    · rename_i hc
      simp only [hc, ↓reduceIte] at h2
      split at h1
      · rename_i hc
        simp only [hc, ↓reduceIte] at h2
        split at h1
        · cases h1
        · rename_i hb
          rw [hb] at h2
          simp only [Option.some.injEq] at h1 h2
          subst h1; subst h2
          exact ⟨rfl, Or.inl rfl, fun h => by cases h⟩
        · rename_i body hb
          rw [hb] at h2
          simp only [Option.some.injEq] at h1 h2
          subst h1; subst h2
          exact send_body_ret_eq _ _ _ _ _ hconnect
      · rename_i hc
        simp only [hc, ↓reduceIte] at h2
        split at h1
        · rename_i hc
          simp only [hc, ↓reduceIte] at h2
          split at h1
          · rename_i hc
            simp only [hc, ↓reduceIte] at h2
            split at h1
            · cases h1
            · rename_i bann
              simp only at h2
              split at h1
              · cases h1
              · rename_i hb
                rw [hb] at h2
                simp only [Option.some.injEq] at h1 h2
                subst h1; subst h2
                exact ⟨rfl, Or.inl rfl, fun h => by cases h⟩
              · rename_i body hb
                rw [hb] at h2
                simp only [Option.some.injEq] at h1 h2
                subst h1; subst h2
                exact send_body_ret_eq _ _ _ _ _ hconnect
          · cases h1
        · rename_i hc
          simp only [hc, ↓reduceIte, Option.some.injEq] at h1 h2
          subst h1; subst h2
          exact send_body_ret_eq _ _ _ _ _ hconnect

/-- Witness of C22 (amended): the clear-sign request on the network whose write writes
nothing and on the network that answers. -/
theorem send_result_ignores_write_and_read_witness :
    example_network_write_fails.connect = example_network.connect
      ∧ (send_body 4000 example_network_write_fails
          (example_world [0, 0, 0] [[], [], []] none)
          (clear_sign_body 4000 (example_hardware [0, 0, 0] [[], [], []]))).ret
        = (send_body 4000 example_network (example_world [0, 0, 0] [[], [], []] none)
          (clear_sign_body 4000 (example_hardware [0, 0, 0] [[], [], []]))).ret :=
  ⟨rfl,
    (send_result_ignores_write_and_read example_consts example_network_write_fails
      example_network none (example_clear_sign "A".data)
      (example_world [0, 0, 0] [[], [], []] none) BANNER_EVOLUTION_CMD_CLEAR_SIGN 0 0 [] 0
      (send_body 4000 example_network_write_fails (example_world [0, 0, 0] [[], [], []] none)
        (clear_sign_body 4000 (example_hardware [0, 0, 0] [[], [], []])))
      (send_body 4000 example_network (example_world [0, 0, 0] [[], [], []] none)
        (clear_sign_body 4000 (example_hardware [0, 0, 0] [[], [], []])))
      rfl rfl rfl).1⟩

/-! ### The connect attempts of the sender -/

theorem connect_retry_calls_spec (n : Nat) :
    ∀ (outcomes : List Bool),
      connect_retry_calls n outcomes ≤ n
        ∧ (∀ i, i + 1 < connect_retry_calls n outcomes → outcomes.getD i false = false)
        ∧ (connect_retry n outcomes = true ↔
            0 < connect_retry_calls n outcomes
              ∧ outcomes.getD (connect_retry_calls n outcomes - 1) false = true)
        ∧ (connect_retry n outcomes ≠ true → connect_retry_calls n outcomes = n
            ∧ ∀ i, i < n → outcomes.getD i false = false) := by
  induction n with
  | zero =>
    intro outcomes
    refine ⟨le_refl _, ?_, ?_, ?_⟩
    · intro i hi; simp [connect_retry_calls] at hi
    · simp [connect_retry, connect_retry_calls]
    · intro _; exact ⟨rfl, fun i hi => absurd hi (by omega)⟩
  | succ n ih =>
    intro outcomes
    cases outcomes with
    | nil =>
      obtain ⟨h1, _, _, _⟩ := ih []
      refine ⟨?_, ?_, ?_, ?_⟩
      · simp only [connect_retry_calls]; omega
      · intro i _; simp
      · simp [connect_retry]
      · intro _
        have hn : ∀ m, connect_retry_calls m [] = m := by
          intro m
          induction m with
          | zero => rfl
          | succ m ihm => simp only [connect_retry_calls, ihm]
        exact ⟨hn _, fun i _ => by simp⟩
    | cons outcome outcomes =>
      obtain ⟨h1, h2, h3, h4⟩ := ih outcomes
      cases outcome with
      | true =>
        refine ⟨?_, ?_, ?_, ?_⟩
        · simp only [connect_retry_calls, if_true]; omega
        · intro i hi; simp [connect_retry_calls] at hi
        · simp [connect_retry, connect_retry_calls]
        · intro h; simp [connect_retry] at h
      | false =>
        have hc : connect_retry_calls (n + 1) (false :: outcomes)
            = connect_retry_calls n outcomes + 1 := by
          simp [connect_retry_calls]
        have hr : connect_retry (n + 1) (false :: outcomes) = connect_retry n outcomes := by
          simp [connect_retry]
        rw [hc, hr]
        refine ⟨by omega, ?_, ?_, ?_⟩
        · intro i hi
          cases i with
          | zero => rfl
          | succ i => simpa using h2 i (by omega)
        · rw [h3]
          constructor
          · rintro ⟨hp, hg⟩
            refine ⟨by omega, ?_⟩
            have e : connect_retry_calls n outcomes + 1 - 1
                = (connect_retry_calls n outcomes - 1) + 1 := by omega
            rw [e]
            simpa using hg
          · rintro ⟨_, hg⟩
            by_cases hz : connect_retry_calls n outcomes = 0
            · rw [hz] at hg; simp at hg
            · refine ⟨by omega, ?_⟩
              have e : connect_retry_calls n outcomes + 1 - 1
                  = (connect_retry_calls n outcomes - 1) + 1 := by omega
              rw [e] at hg
              simpa using hg
        · intro h
          obtain ⟨h5, h6⟩ := h4 h
          refine ⟨by omega, ?_⟩
          intro i hi
          cases i with
          | zero => rfl
          | succ i => simpa using h6 i (by omega)

theorem getD_tail (l : List Bool) (i : Nat) : l.tail.getD i false = l.getD (i + 1) false := by
  cases l <;> simp

theorem headD_getD (l : List Bool) : l.headD false = l.getD 0 false := by
  cases l <;> simp

/-- C24. For a request that was built (`send_body` is the part of
`send_to_evolution_appliance_discreteMsg` from the construction of the request on) and
every sequence of connect outcomes: the sender makes between 1 and 6 `SystemSocketConnect`
calls, every call before the last one fails (it stops at the first success), and when the
last call fails, 6 calls were made, the result is -1, nothing is written to the device,
the stored address is cleared exactly when it was learned automatically, and the
connection is marked closed; when the last call succeeds, the result is 0, the
connection is marked active, and what `post_cmd_buf` holds, with a final CRLF, is what
the write gets (as far as the write takes it). -/
theorem connect_attempts (size : Nat) (net : Network) (w : World)
    (http_req_body : CStr) (post_cmd_buf : Option CStr)
    (hpost : http_post size http_req_body = some post_cmd_buf) :
    1 ≤ connect_calls net ∧ connect_calls net ≤ 6
      ∧ (∀ i, i + 1 < connect_calls net → net.connect.getD i false = false)
      ∧ (net.connect.getD (connect_calls net - 1) false = false →
          connect_calls net = 6
            ∧ (send_body size net w http_req_body).ret = -1
            ∧ (send_body size net w http_req_body).world.written = w.written
            ∧ (send_body size net w http_req_body).world.hw.term_ip
                = (if w.hw.auto_term_ip = true then [] else w.hw.term_ip)
            ∧ (send_body size net w http_req_body).world.hw.connection_active = false)
      ∧ (net.connect.getD (connect_calls net - 1) false = true →
          (send_body size net w http_req_body).ret = 0
            ∧ (send_body size net w http_req_body).world.hw.connection_active = true
            ∧ (0 < net.write →
                (send_body size net w http_req_body).world.written
                  = w.written
                    ++ [post_cmd_buf.map (fun text =>
                      (strcatl text "\r\n".data (size + 200)).take net.write.toNat)])) := by
  obtain ⟨h1, h2, h3, h4⟩ := connect_retry_calls_spec 5 net.connect.tail
  have hbody : send_body size net w http_req_body = transaction size net w post_cmd_buf := by
    unfold send_body
    rw [hpost]
  rw [hbody]
  by_cases hhead : net.connect.headD false = true
  · have hc : connect_calls net = 1 := by
      unfold connect_calls
      rw [if_pos hhead]
    have hg : net.connect.getD 0 false = true := by rw [← headD_getD]; exact hhead
    rw [hc]
    refine ⟨le_refl _, by omega, fun i hi => absurd hi (by omega), ?_, ?_⟩
    · intro hf
      rw [show 1 - 1 = 0 from rfl, hg] at hf
      cases hf
    · intro _
      unfold transaction
      rw [if_pos (Or.inl hhead)]
      split
      · exact ⟨rfl, rfl, fun _ => rfl⟩
      · rename_i hw0
        exact ⟨rfl, rfl, fun hp => absurd hp hw0⟩
  · have hc : connect_calls net = connect_retry_calls 5 net.connect.tail + 1 := by
      unfold connect_calls
      rw [if_neg hhead]
    have hg : net.connect.getD 0 false = false := by
      rw [← headD_getD]
      simpa using hhead
    rw [hc]
    refine ⟨by omega, by omega, ?_, ?_, ?_⟩
    · intro i hi
      cases i with
      | zero => exact hg
      | succ i =>
        rw [← getD_tail]
        exact h2 i (by omega)
    · intro hf
      have hnot : connect_retry 5 net.connect.tail ≠ true := by
        intro hr
        obtain ⟨hp, hq⟩ := h3.mp hr
        have e : connect_retry_calls 5 net.connect.tail + 1 - 1
            = (connect_retry_calls 5 net.connect.tail - 1) + 1 := by omega
        rw [e, ← getD_tail, hq] at hf
        cases hf
      obtain ⟨h5, _⟩ := h4 hnot
      refine ⟨by omega, ?_⟩
      unfold transaction
      rw [if_neg (by
        intro h
        rcases h with h | h
        · exact hhead h
        · exact hnot h)]
      refine ⟨rfl, rfl, ?_, rfl⟩
      simp only [evolution_clear_ip]
      split <;> rfl
    · intro ht
      have hr : connect_retry 5 net.connect.tail = true := by
        by_contra hnot
        obtain ⟨h5, h6⟩ := h4 hnot
        rw [h5] at ht
        have := h6 4 (by omega)
        rw [getD_tail] at this
        simp only [Nat.add_sub_cancel] at ht
        rw [this] at ht
        cases ht
      unfold transaction
      rw [if_pos (Or.inr hr)]
      split
      · exact ⟨rfl, rfl, fun _ => rfl⟩
      · rename_i hw0
        exact ⟨rfl, rfl, fun hp => absurd hp hw0⟩

/-- Witness of C24: a clear-sign request on the network whose first six connect attempts
fail. -/
theorem connect_attempts_witness :
    connect_calls example_network_unreachable = 6
      ∧ (send_body 4000 example_network_unreachable
          (example_world [0, 0, 0] [[], [], []] none) example_clear_sign_body).ret = -1
      ∧ (send_body 4000 example_network_unreachable
          (example_world [0, 0, 0] [[], [], []] none) example_clear_sign_body).world.written
        = (example_world [0, 0, 0] [[], [], []] none).written
      ∧ (send_body 4000 example_network_unreachable
          (example_world [0, 0, 0] [[], [], []] none) example_clear_sign_body).world.hw.term_ip
        = (if (example_world [0, 0, 0] [[], [], []] none).hw.auto_term_ip = true then []
            else (example_world [0, 0, 0] [[], [], []] none).hw.term_ip)
      ∧ (send_body 4000 example_network_unreachable
          (example_world [0, 0, 0] [[], [], []] none)
          example_clear_sign_body).world.hw.connection_active = false :=
  (connect_attempts 4000 example_network_unreachable
    (example_world [0, 0, 0] [[], [], []] none) example_clear_sign_body
    none (by decide)).2.2.2.1 (by decide)

/-! ### Equal lines of the journal -/

/-- C23 fails. With a journal that holds the lines of records 345 and 346 (and local
buffers that hold empty strings on entry), `does_msg_json_exist_in_file` returns 0 for a
message that is equal to the second line, and `append_msg_json_to_file` appends the
message once more: the buffers of the stripped line are not reset between lines, so only
the first line of the file is compared as it is (for the first line the result is 1). -/
theorem equal_second_line_is_appended_again :
    does_msg_json_exist_in_file 4000 zero_stack
        (some (journal_text [example_line_345, example_line_346])) example_line_346.text = 0
      ∧ append_msg_json_to_file 4000 zero_stack
          (some (journal_text [example_line_345, example_line_346])) example_line_346.text
        = some (some (journal_text [example_line_345, example_line_346, example_line_346]))
      ∧ does_msg_json_exist_in_file 4000 zero_stack
          (some (journal_text [example_line_345, example_line_346])) example_line_345.text
        = 1 := by
  decide

/-! ### The translator -/

theorem translate_loop_plain (c : Consts) (outbuffer_size : Nat) (color bgcolor : Char) :
    ∀ (inbuffer : CStr) (fuel : Nat) (out : CStr), inbuffer.length < fuel →
      c.SIGN_COMMAND ∉ inbuffer →
      (out ++ escaped_text c inbuffer).length + 20 ≤ outbuffer_size →
      translate_loop c outbuffer_size fuel inbuffer out color bgcolor
        = some (c.TRANSLATE_SUPPORTED, out ++ escaped_text c inbuffer) := by
  intro inbuffer
  induction inbuffer with
  | nil =>
    intro fuel out hfuel _ _
    cases fuel with
    | zero => simp at hfuel
    | succ fuel => simp [translate_loop, escaped_text]
  | cons ch rest ih =>
    intro fuel out hfuel hcmd hfit
    cases fuel with
    | zero => simp at hfuel
    | succ fuel =>
      simp only [List.length_cons, Nat.add_lt_add_iff_right] at hfuel
      simp only [List.mem_cons, not_or] at hcmd
      obtain ⟨hne, hrest⟩ := hcmd
      have hne1 : ch ≠ c.SIGN_COMMAND := fun h => hne h.symm
      unfold translate_loop
      by_cases hroom : out.length + 20 < outbuffer_size
      · rw [if_neg (not_not.mpr hroom)]
        by_cases hq : ch = '"'
        · rw [if_pos hq]
          have he : escaped_text c (ch :: rest) = ['\\', '"'] ++ escaped_text c rest := by
            simp [escaped_text, hq]
          rw [he, ← List.append_assoc] at hfit ⊢
          exact ih fuel _ hfuel hrest hfit
        · rw [if_neg hq, if_neg hne1]
          by_cases hcr : ch = c.SIGN_CR
          · rw [if_pos hcr]
            have he : escaped_text c (ch :: rest) = escaped_text c rest := by
              conv_lhs => unfold escaped_text
              rw [if_neg hq, if_pos (Or.inl hcr), List.nil_append]
            rw [he] at hfit ⊢
            exact ih fuel _ hfuel hrest hfit
          · rw [if_neg hcr]
            by_cases hb : ch = c.SIGN_BLOCK_CHARACTER
            · rw [if_pos hb]
              have he : escaped_text c (ch :: rest) = escaped_text c rest := by
                conv_lhs => unfold escaped_text
                rw [if_neg hq, if_pos (Or.inr hb), List.nil_append]
              rw [he] at hfit ⊢
              exact ih fuel _ hfuel hrest hfit
            · rw [if_neg hb]
              have he : escaped_text c (ch :: rest) = [ch] ++ escaped_text c rest := by
                simp [escaped_text, hq, hcr, hb]
              rw [he, ← List.append_assoc] at hfit ⊢
              exact ih fuel _ hfuel hrest hfit
      · rw [if_pos hroom]
        have hlen : (escaped_text c (ch :: rest)).length = 0 := by
          simp only [List.length_append] at hfit
          omega
        rw [List.length_eq_zero.mp hlen, List.append_nil]

theorem escaped_text_quotes (c : Consts) :
    ∀ (text : CStr), quotes_escaped (escaped_text c text) := by
  intro text
  induction text with
  | nil =>
    intro before after h
    simp [escaped_text] at h
  | cons ch rest ih =>
    intro before after h
    unfold escaped_text at h
    rcases List.append_eq_append_iff.mp h with ⟨a, h1, h2⟩ | ⟨b, h1, h2⟩
    · obtain ⟨start, hs⟩ := ih a after h2
      exact ⟨_ ++ start, by rw [h1, hs, List.append_assoc]⟩
    · cases b with
      | nil =>
        simp only [List.nil_append] at h2
        obtain ⟨start, hs⟩ := ih [] after h2.symm
        simp at hs
      | cons b0 b1 =>
        simp only [List.cons_append, List.cons.injEq] at h2
        obtain ⟨hb0, _⟩ := h2
        subst hb0
        split at h1
        · refine ⟨[], ?_⟩
          cases before with
          | nil => simp at h1
          | cons x before1 =>
            cases before1 with
            | nil =>
              simp only [List.cons_append, List.nil_append, List.cons.injEq] at h1
              rw [← h1.1]
              rfl
            | cons y before2 =>
              simp at h1
        · rename_i hq
          split at h1
          · simp at h1
          · cases before with
            | nil =>
              simp only [List.nil_append, List.cons.injEq] at h1
              exact absurd h1.1 hq
            | cons x before1 => simp at h1

/-- C25. For a message text without the sign-command character whose escaped form fits
the output limit (its length is at most `outbuffer_size - 20`), `translate_for_evo`
returns TRANSLATE_SUPPORTED and writes the escaped text: every double quote replaced by a
backslash and the double quote, carriage-return and block characters removed, every
other character unchanged and in order. In this output every double quote is
immediately preceded by a backslash. -/
theorem translate_for_evo_plain_text (c : Consts) (inbuffer : CStr) (outbuffer_size : Nat)
    (hplain : c.SIGN_COMMAND ∉ inbuffer)
    (hfit : (escaped_text c inbuffer).length + 20 ≤ outbuffer_size) :
    translate_for_evo c inbuffer outbuffer_size
        = some (c.TRANSLATE_SUPPORTED, escaped_text c inbuffer)
      ∧ quotes_escaped (escaped_text c inbuffer) := by
  refine ⟨?_, escaped_text_quotes c inbuffer⟩
  unfold translate_for_evo
  rw [translate_loop_plain c outbuffer_size _ _ inbuffer (inbuffer.length + 1) []
    (Nat.lt_succ_self _) hplain (by simpa using hfit)]
  rfl

/-- Witness of C25: a text with two double quotes and a carriage return. -/
theorem translate_for_evo_plain_text_witness :
    translate_for_evo example_consts "Say \"hi\"\r now".data 4000
        = some (example_consts.TRANSLATE_SUPPORTED,
            escaped_text example_consts "Say \"hi\"\r now".data)
      ∧ quotes_escaped (escaped_text example_consts "Say \"hi\"\r now".data) :=
  translate_for_evo_plain_text example_consts "Say \"hi\"\r now".data 4000 (by decide)
    (by decide)

theorem color_token_name_length (c : Consts) (x : Char) (name : CStr)
    (h : color_token_name c x = some name) : name.length ≤ 6 := by
  unfold color_token_name at h
  repeat' split at h
  all_goals (cases h; try decide)

theorem color_token_eq (c : Consts) (outbuffer_size : Nat) (key : CStr) (current new : Char)
    (huse : c.USE_AND_COLOR = true) (hkey : key.length ≤ 7) (hsize : 20 < outbuffer_size) :
    color_token c outbuffer_size key current new = emitted_color_token c key current new := by
  unfold color_token emitted_color_token
  by_cases hd : current ≠ new
  · rw [if_pos hd, if_pos ⟨huse, hd⟩]
    cases hn : color_token_name c new with
    | none => rfl
    | some name =>
      have hl := color_token_name_length c new name hn
      simp only
      rw [List.take_of_length_le]
      · simp
      · simp only [List.length_cons, List.length_append, List.length_nil]
        omega
  · rw [if_neg hd, if_neg (fun h => hd h.2)]

/-- C26 as stated fails. In the sources `USE_AND_COLOR` is not defined (its `#define` is
commented out): a text with a foreground command for green and a background command for
amber, both different from the current colours, is translated to its plain characters,
without any token. With `USE_AND_COLOR` defined, a foreground command for a colour of
the last case group (code `7` of the example constants) emits nothing either, while one
for green emits the token. -/
theorem color_commands_emit_no_token :
    translate_for_evo example_consts
        [Char.ofNat 0x1b, 'C', '1', 'a', Char.ofNat 0x1b, 'C', '2', 'b',
          Char.ofNat 0x1b, 'B', '3', 'c'] 4000
      = some (example_consts.TRANSLATE_SUPPORTED, "abc".data)
    ∧ translate_for_evo example_consts_use_and_color
        [Char.ofNat 0x1b, 'C', '1', 'a', Char.ofNat 0x1b, 'C', '7', 'b'] 4000
      = some (example_consts.TRANSLATE_SUPPORTED, "ab".data)
    ∧ translate_for_evo example_consts_use_and_color
        [Char.ofNat 0x1b, 'C', '1', 'a', Char.ofNat 0x1b, 'C', '2', 'b'] 4000
      = some (example_consts.TRANSLATE_SUPPORTED, "a\x7bcolor=green\x7db".data) := by
  decide

/-- C26, amended. Where the case labels of the commands are distinct and the output has
room: one pass of the loop of `translate_for_evo` over a foreground (background) colour
command consumes the command and its colour and adds `emitted_color_token` for the key
`color` (`bgcolor`) to the output. That token is empty when `USE_AND_COLOR` is not
defined, and empty when the colour repeats the current one. Under `USE_AND_COLOR`, for a
colour that differs from the current one, it is `{key=green}`, `{key=amber}`,
`{key=yellow}`, `{key=orange}` or `{key=black}` for these colours, empty for a colour of
the last case group, and `{key=red}` for red and for every other code. -/
theorem color_command_step (c : Consts) (outbuffer_size fuel : Nat) (x : Char)
    (rest out : CStr) (color bgcolor : Char)
    (hlabels : [c.SIGN_SPEED, c.SIGN_CONFIGURE, c.SIGN_FONT, c.SIGN_DATEEMBED,
      c.SIGN_TIMEEMBED, c.SIGN_SIGNATUREEMBED, c.SIGN_AUTHORITYEMBED, c.SIGN_MODE,
      c.SIGN_SEQUENCE, c.SIGN_FCOLOR, c.SIGN_JUSTIFY, c.SIGN_BCOLOR].Nodup)
    (hred : c.SIGN_COLOR_RED ∉ c.SIGN_COLOR_without_token)
    (hquote : c.SIGN_COMMAND ≠ '"')
    (hroom : out.length + 20 < outbuffer_size) :
    translate_loop c outbuffer_size (fuel + 1)
        (c.SIGN_COMMAND :: c.SIGN_FCOLOR :: x :: rest) out color bgcolor
      = translate_loop c outbuffer_size fuel rest
          (out ++ emitted_color_token c "color".data color x)
          (if c.USE_AND_COLOR = true then x else color) bgcolor
    ∧ translate_loop c outbuffer_size (fuel + 1)
        (c.SIGN_COMMAND :: c.SIGN_BCOLOR :: x :: rest) out color bgcolor
      = translate_loop c outbuffer_size fuel rest
          (out ++ emitted_color_token c "bgcolor".data bgcolor x)
          color (if c.USE_AND_COLOR = true then x else bgcolor)
    ∧ (c.USE_AND_COLOR = false → ∀ key current,
        emitted_color_token c key current x = [])
    ∧ (∀ key, emitted_color_token c key x x = [])
    ∧ (c.USE_AND_COLOR = true → ∀ key current, current ≠ x →
        emitted_color_token c key current x
          = if x = c.SIGN_COLOR_GREEN then "\x7b".data ++ key ++ "=green\x7d".data
            else if x = c.SIGN_COLOR_AMBER then "\x7b".data ++ key ++ "=amber\x7d".data
            else if x = c.SIGN_COLOR_YELLOW then "\x7b".data ++ key ++ "=yellow\x7d".data
            else if x = c.SIGN_COLOR_ORANGE then "\x7b".data ++ key ++ "=orange\x7d".data
            else if x = c.SIGN_COLOR_BLACK then "\x7b".data ++ key ++ "=black\x7d".data
            else if x ∈ c.SIGN_COLOR_without_token then []
            else "\x7b".data ++ key ++ "=red\x7d".data) := by
  simp only [List.nodup_cons, List.mem_cons, List.mem_singleton, not_or, List.not_mem_nil,
    not_false_eq_true, List.nodup_nil, and_true] at hlabels
  obtain ⟨⟨l1, l2, l3, l4, l5, l6, l7, l8, l9, l10, l11⟩, ⟨m2, m3, m4, m5, m6, m7, m8, m9, m10,
    m11⟩, ⟨n3, n4, n5, n6, n7, n8, n9, n10, n11⟩, ⟨o4, o5, o6, o7, o8, o9, o10, o11⟩,
    ⟨p5, p6, p7, p8, p9, p10, p11⟩, ⟨q6, q7, q8, q9, q10, q11⟩, ⟨r7, r8, r9, r10, r11⟩,
    ⟨s8, s9, s10, s11⟩, ⟨t9, t10, t11⟩, ⟨u10, u11⟩, u12⟩ := hlabels
  have hsize : 20 < outbuffer_size := by omega
  refine ⟨?_, ?_, ?_, ?_, ?_⟩
  · conv_lhs => unfold translate_loop
    rw [if_neg (not_not.mpr hroom), if_neg (fun h => hquote h), if_pos rfl]
    simp only [translate_command]
    rw [if_neg (Ne.symm l9), if_neg (Ne.symm m9), if_neg (Ne.symm n9), if_neg (Ne.symm o9),
      if_neg (Ne.symm p9), if_neg (Ne.symm q9), if_neg (Ne.symm r9), if_neg (Ne.symm s9),
      if_neg (Ne.symm t9), if_pos True.intro]
    by_cases huse : c.USE_AND_COLOR = true
    · rw [if_pos huse, if_pos huse]
      simp only [pointer_increment, List.drop_one, List.tail_cons, List.headD_cons]
      rw [color_token_eq c outbuffer_size _ _ _ huse (by decide) hsize]
    · rw [if_neg huse, if_neg huse]
      simp only [pointer_increment, List.drop_one, List.tail_cons]
      unfold emitted_color_token
      rw [if_neg (fun h => huse h.1), List.append_nil]
  · conv_lhs => unfold translate_loop
    rw [if_neg (not_not.mpr hroom), if_neg (fun h => hquote h), if_pos rfl]
    simp only [translate_command]
    rw [if_neg (Ne.symm l11), if_neg (Ne.symm m11), if_neg (Ne.symm n11),
      if_neg (Ne.symm o11), if_neg (Ne.symm p11), if_neg (Ne.symm q11), if_neg (Ne.symm r11),
      if_neg (Ne.symm s11), if_neg (Ne.symm t11), if_neg (Ne.symm u11), if_neg (Ne.symm u12),
      if_pos True.intro]
    by_cases huse : c.USE_AND_COLOR = true
    · rw [if_pos huse, if_pos huse]
      simp only [pointer_increment, List.drop_one, List.tail_cons, List.headD_cons]
      rw [color_token_eq c outbuffer_size _ _ _ huse (by decide) hsize]
    · rw [if_neg huse, if_neg huse]
      simp only [pointer_increment, List.drop_one, List.tail_cons]
      unfold emitted_color_token
      rw [if_neg (fun h => huse h.1), List.append_nil]
  · intro huse key current
    unfold emitted_color_token
    rw [if_neg (fun h => by rw [huse] at h; exact Bool.noConfusion h.1)]
  · intro key
    unfold emitted_color_token
    rw [if_neg (fun h => h.2 rfl)]
  · intro huse key current hd
    unfold emitted_color_token color_token_name
    rw [if_pos ⟨huse, hd⟩]
    by_cases h1 : x = c.SIGN_COLOR_GREEN
    · rw [if_pos h1, if_pos h1]
      simp
    · rw [if_neg h1, if_neg h1]
      by_cases h2 : x = c.SIGN_COLOR_AMBER
      · rw [if_pos h2, if_pos h2]
        simp
      · rw [if_neg h2, if_neg h2]
        by_cases h3 : x = c.SIGN_COLOR_YELLOW
        · rw [if_pos h3, if_pos h3]
          simp
        · rw [if_neg h3, if_neg h3]
          by_cases h4 : x = c.SIGN_COLOR_ORANGE
          · rw [if_pos h4, if_pos h4]
            simp
          · rw [if_neg h4, if_neg h4]
            by_cases h5 : x = c.SIGN_COLOR_BLACK
            · rw [if_pos h5, if_pos h5]
              simp
            · rw [if_neg h5, if_neg h5]
              by_cases h6 : x = c.SIGN_COLOR_RED
              · have h7 : x ∉ c.SIGN_COLOR_without_token := by rw [h6]; exact hred
                rw [if_pos h6, if_neg h7]
                simp
              · rw [if_neg h6]
                by_cases h7 : x ∈ c.SIGN_COLOR_without_token
                · rw [if_pos h7, if_pos h7]
                · rw [if_neg h7, if_neg h7]
                  simp

/-- Witness of C26 (amended): a command for green behind the text `a` in red, under
`USE_AND_COLOR`. -/
theorem color_command_step_witness :
    translate_loop example_consts_use_and_color 4000 3
        (example_consts_use_and_color.SIGN_COMMAND
          :: example_consts_use_and_color.SIGN_FCOLOR :: '2' :: "b".data) "a".data '1' '6'
      = translate_loop example_consts_use_and_color 4000 2 "b".data
          ("a".data ++ emitted_color_token example_consts_use_and_color "color".data '1' '2')
          (if example_consts_use_and_color.USE_AND_COLOR = true then '2' else '1') '6' :=
  (color_command_step example_consts_use_and_color 4000 2 '2' "b".data "a".data '1' '6'
    (by decide) (by decide) (by decide) (by decide)).1

/-! ### The array of active messages -/

theorem hold_while_removing_set (fuel : Nat) (s : ActiveMsgs) (h : s.holdWhileRemoving ≠ 0) :
    hold_while_removing fuel s = Run.running := by
  induction fuel with
  | zero => rfl
  | succ fuel ih => rw [hold_while_removing, if_pos h, ih]

theorem insert_present_never_returns (max fuel : Nat) (s : ActiveMsgs) (v : Nat)
    (h : count_matches max s.evolution_active_msg_recnos v ≠ 0) :
    ∀ s1, insert_recno_to_active_msg_array max fuel s v ≠ Run.returned s1 := by
  intro s1
  cases fuel with
  | zero => simp [insert_recno_to_active_msg_array]
  | succ fuel =>
    rw [insert_recno_to_active_msg_array, if_neg h]
    cases hr : remove_recno_from_active_msg_array max fuel s v 1 1 with
    | returned s2 =>
      simp only []
      rw [hold_while_removing_set fuel _ (by simp)]
      simp
    | undefined => simp
    | running => simp

theorem insert_shift_spec (max : Nat) :
    ∀ (n : Nat) (recnos : Int → Nat) (j : Int),
      insert_shift max n recnos j
        = if j = 0 then (if 0 < max then recnos (-1) else recnos 0)
          else if 1 ≤ j ∧ j ≤ (n : Int) ∧ j < (max : Int) then recnos (j - 1)
          else recnos j := by
  intro n
  induction n with
  | zero =>
    intro recnos j
    simp only [insert_shift]
    by_cases hm : 0 < max
    · simp only [hm, if_true, store]
      split_ifs <;> first | rfl | omega
    · simp only [hm, if_false]
      split_ifs with h1 h2
      · rw [h1]
      · omega
      · rfl
  | succ n ih =>
    intro recnos j
    simp only [insert_shift]
    rw [ih]
    by_cases hc : n + 1 < max
    · simp only [hc, if_true, store]
      split_ifs <;> first | rfl | omega | (congr 1; omega)
    · simp only [hc, if_false]
      split_ifs <;> first | rfl | omega

/-- For a record number that is in none of the words that the counting loop reads,
`insert_recno_to_active_msg_array` returns: the number is at index 0, every element of
the array moved one index up, the last one dropped, and the memory around the array is
as before. -/
theorem insert_fresh_recno (max fuel : Nat) (s : ActiveMsgs) (v : Nat)
    (h : count_matches max s.evolution_active_msg_recnos v = 0) :
    ∃ s1, insert_recno_to_active_msg_array max (fuel + 1) s v = Run.returned s1
      ∧ s1.evolution_active_msg_recnos 0 = v
      ∧ (∀ i : Nat, i + 1 < max →
          s1.evolution_active_msg_recnos ((i : Int) + 1) = s.evolution_active_msg_recnos i)
      ∧ (∀ j : Int, j < 0 ∨ (max : Int) ≤ j → j ≠ 0 →
          s1.evolution_active_msg_recnos j = s.evolution_active_msg_recnos j) := by
  refine ⟨_, by rw [insert_recno_to_active_msg_array, if_pos h], ?_, ?_, ?_⟩
  · simp [store]
  · intro i hi
    simp only [store]
    rw [insert_shift_spec]
    split_ifs <;> first | omega | (congr 1; omega)
  · intro j hj hj0
    simp only [store]
    rw [insert_shift_spec]
    split_ifs <;> first | rfl | omega

/-- C27 fails. In the example array (four elements, records 345 and 346) record 345
occurs once, and `insert_recno_to_active_msg_array(345)` does not return, whatever the
fuel: once `remove_recno_from_active_msg_array` has returned, the function sets
`holdWhileRemoving` to 1 and waits in `while (holdWhileRemoving);` for a flag that
nothing clears. -/
theorem insert_existing_recno_does_not_return :
    count_matches 4 example_active_msgs.evolution_active_msg_recnos 345 = 1
    ∧ ¬ ∃ fuel s1, insert_recno_to_active_msg_array 4 fuel example_active_msgs 345
        = Run.returned s1 := by
  have hc : count_matches 4 example_active_msgs.evolution_active_msg_recnos 345 = 1 := by
    decide
  refine ⟨hc, ?_⟩
  rintro ⟨fuel, s1, h⟩
  exact insert_present_never_returns 4 fuel example_active_msgs 345 (by rw [hc]; decide) s1 h

/-! ### The slot of a new message -/

theorem cgi_decode_step_length (c : Char) (out rest : CStr) (step : CStr × CStr)
    (h : (if c = '+' then (' ' :: out, rest)
      else if c = '%' then
        match rest with
        | [] => (Char.ofNat 0 :: out, [])
        | h1 :: rest1 =>
          match rest1 with
          | [] =>
            let hex := cgi_ascii_to_hex h1.toNat
            ((if hex = '"'.toNat ∨ hex = '\''.toNat then '`' else Char.ofNat (hex % 256)) :: out, [])
          | h2 :: rest2 =>
            let hex := cgi_ascii_to_hex h1.toNat * 16 + cgi_ascii_to_hex h2.toNat
            ((if hex = '"'.toNat ∨ hex = '\''.toNat then '`' else Char.ofNat (hex % 256)) :: out, rest2)
      else (c :: out, rest)) = step) :
    step.1.length = out.length + 1 ∧ step.2.length ≤ rest.length := by
  subst h
  split
  · exact ⟨rfl, le_refl _⟩
  · split
    · split
      · exact ⟨rfl, le_refl _⟩
      · split
        · exact ⟨rfl, by simp⟩
        · exact ⟨rfl, by simp only [List.length_cons]; omega⟩
    · exact ⟨rfl, le_refl _⟩

theorem cgi_decode_loop_fuel (space_fill : Nat) :
    ∀ (fuel : Nat) (out in_str : CStr), in_str.length ≤ fuel →
      cgi_decode_loop space_fill fuel out in_str
        = cgi_decode_loop space_fill in_str.length out in_str := by
  intro fuel
  induction fuel using Nat.strong_induction_on with
  | _ fuel ih =>
    intro out in_str hlen
    cases in_str with
    | nil => cases fuel <;> rfl
    | cons c rest =>
      cases fuel with
      | zero => simp at hlen
      | succ fuel =>
        simp only [List.length_cons, Nat.add_le_add_iff_right] at hlen
        simp only [List.length_cons]
        conv_lhs => unfold cgi_decode_loop
        conv_rhs => unfold cgi_decode_loop
        simp only
        generalize hstep : (if c = '+' then ((' ' :: out, rest) : CStr × CStr) else _) = step
        have hl := (cgi_decode_step_length c out rest step hstep).2
        split
        · rfl
        · rw [ih fuel (by omega) _ _ (by omega)]
          by_cases hr : rest.length = fuel
          · rw [hr, ih fuel (by omega) _ _ (by omega)]
          · rw [ih rest.length (by omega) _ _ hl]

theorem cgi_decode_loop_length (space_fill : Nat) (hs : 2 ≤ space_fill) :
    ∀ (fuel : Nat) (out in_str : CStr), out.length < space_fill - 1 →
      (cgi_decode_loop space_fill fuel out in_str).length ≤ space_fill - 1 := by
  intro fuel
  induction fuel with
  | zero => intro out in_str h; simp only [cgi_decode_loop]; omega
  | succ fuel ih =>
    intro out in_str h
    cases in_str with
    | nil => simp only [cgi_decode_loop]; omega
    | cons c rest =>
      unfold cgi_decode_loop
      simp only
      generalize hstep : (if c = '+' then ((' ' :: out, rest) : CStr × CStr) else _) = step
      have hl := (cgi_decode_step_length c out rest step hstep).1
      split
      · omega
      · exact ih _ _ (by omega)

theorem cgi_decode_loop_one (fuel : Nat) (c : Char) (rest : CStr) :
    (cgi_decode_loop 1 (fuel + 1) [] (c :: rest)).length = 1 := by
  unfold cgi_decode_loop
  simp only
  generalize hstep : (if c = '+' then ((' ' :: ([] : CStr), rest) : CStr × CStr) else _) = step
  have hl := (cgi_decode_step_length c [] rest step hstep).1
  rw [if_pos ⟨by omega, by omega⟩, hl]
  rfl

/-- C30. The loop of `cgi_decode_form_string` ends within `strlen(in_str)` passes (more
fuel does not change what it writes). With `space_fill` ≥ 2 it writes at most
`space_fill - 1` characters, so the text and its terminator fit `space_fill` bytes, and
so does the padded field; an empty input writes no character; with `space_fill` = 1 a
non-empty input writes one character (and the terminator behind it). -/
theorem cgi_decode_form_string_length (space_fill fuel : Nat) (in_str : CStr)
    (hfuel : in_str.length ≤ fuel) :
    cgi_decode_loop space_fill fuel [] in_str
        = cgi_decode_loop space_fill in_str.length [] in_str
      ∧ (2 ≤ space_fill →
          (cgi_decode_loop space_fill in_str.length [] in_str).length + 1 ≤ space_fill
            ∧ (cgi_decode_form_string in_str space_fill).length + 1 ≤ space_fill)
      ∧ (in_str = [] → cgi_decode_loop space_fill in_str.length [] in_str = [])
      ∧ (space_fill = 1 → in_str ≠ [] →
          (cgi_decode_loop space_fill in_str.length [] in_str).length = 1) := by
  refine ⟨cgi_decode_loop_fuel space_fill fuel [] in_str hfuel, ?_, ?_, ?_⟩
  · intro hs
    have h := cgi_decode_loop_length space_fill hs in_str.length [] in_str
      (by simp only [List.length_nil]; omega)
    refine ⟨by omega, ?_⟩
    unfold cgi_decode_form_string
    simp only
    rw [if_pos (by omega)]
    unfold add_trailing_space
    have ht : (List.takeWhile (fun c => c != Char.ofNat 0)
        (cgi_decode_loop space_fill in_str.length [] in_str).reverse).length
          ≤ space_fill - 1 := by
      refine le_trans ((List.takeWhile_sublist _).length_le) ?_
      rw [List.length_reverse]
      exact h
    simp only [List.length_append, List.length_replicate]
    omega
  · intro h
    subst h
    rfl
  · intro hs hne
    subst hs
    cases in_str with
    | nil => exact absurd rfl hne
    | cons c rest => exact cgi_decode_loop_one rest.length c rest

/-- Witness of C30: the value `abcdef` read into a field of 4 bytes. -/
theorem cgi_decode_form_string_length_witness :
    (cgi_decode_loop 4 6 [] "abcdef".data).length + 1 ≤ 4
      ∧ (cgi_decode_form_string "abcdef".data 4).length + 1 ≤ 4 :=
  (cgi_decode_form_string_length 4 6 "abcdef".data (by decide)).2.1 (by decide)

end MnsOmni
